import Mathlib

/-!
Verification development for the traffic-optimizer route-planning backend
(src/backend/app.py, src/backend/data/mock_data.py, src/backend/weather_utils.py).

The Python code is shallowly embedded as follows:
* Python floats are modelled exactly: all dataset values are decimal literals,
  so edge costs and the search state live in an arbitrary linear ordered field
  (instantiated at ℚ for executable witnesses, with the transcendental
  haversine heuristic modelled over ℝ).
* The `heapq` priority queue is modelled as a list whose pop removes the
  least element under the Python tuple order (lexicographic on
  f-value, then g-value, then city name).
* The unbounded `while open_heap:` loop is modelled with an explicit fuel
  parameter; `AStarResult.fuelOut` is an artifact of the embedding and is
  proved unreachable for graphs with nonnegative attributes.
* `random`-driven and network-driven weather lookups are modelled by an
  arbitrary function `w : String → ℤ × ℚ` giving each city's
  (delay_min, risk) pair, quantified over in the theorems.
-/

namespace TrafficOpt

/-- Attributes of a directed edge, from the adjacency dicts in mock_data.py.
The Python code reads `traffic_min`, `weather_min` and `risk` with
`.get(key, default)`; every edge in the dataset and every edge ever created by
`update_weather` carries all four keys, so the record is total. -/
structure Edge (α : Type) where
  distance_km : α
  traffic_min : α
  weather_min : α
  risk : α
deriving DecidableEq, Repr

/-- The adjacency structure `GRAPH`: an insertion-ordered association list,
mirroring a Python dict of dicts. -/
abbrev Graph (α : Type) := List (String × List (String × Edge α))

/-- Association-list lookup (first match), mirroring Python dict access. -/
def lookupA {β : Type} : List (String × β) → String → Option β
  | [], _ => none
  | (k, v) :: rest, key => if k = key then some v else lookupA rest key

/-- Association-list update: replace the first binding in place, or append a
new binding at the end — exactly how assignment to a Python dict key behaves
with respect to insertion order. -/
def setA {β : Type} : List (String × β) → String → β → List (String × β)
  | [], key, v => [(key, v)]
  | (k, w) :: rest, key, v =>
    if k = key then (k, v) :: rest else (k, w) :: setA rest key v

/-- The keys of an association list, in order. -/
def keysOf {β : Type} (l : List (String × β)) : List String :=
  l.map Prod.fst

/-- `GRAPH.get(city, {})`. -/
def neighborsOf {α : Type} (g : Graph α) (c : String) : List (String × Edge α) :=
  (lookupA g c).getD []

/-- `GRAPH[a][b]` as an optional lookup. -/
def lookupEdge {α : Type} (g : Graph α) (a b : String) : Option (Edge α) :=
  lookupA (neighborsOf g a) b

/-- `AVERAGE_SPEED_KMH = 80.0` from app.py. -/
def AVERAGE_SPEED_KMH : ℚ := 80

/-- `KM_PER_MIN = AVERAGE_SPEED_KMH / 60.0` from app.py. -/
def KM_PER_MIN (α : Type) [DivisionRing α] : α := 80 / 60

/-- `AVG_RISK = 1.05` from app.py. -/
def AVG_RISK : ℚ := 21 / 20

/-- `edge_cost_minutes` from app.py:
base time from distance, plus delays, times the risk multiplier. -/
def edge_cost_minutes {α : Type} [LinearOrderedField α] (e : Edge α) : α :=
  (e.distance_km / KM_PER_MIN α + e.traffic_min + e.weather_min) * e.risk

/-- A list of cities is a walk in `g` when each consecutive pair is joined by
a directed edge of `g`. -/
def walkOK {α : Type} (g : Graph α) : List String → Bool
  | a :: b :: rest => (lookupEdge g a b).isSome && walkOK g (b :: rest)
  | _ => true

/-- Total cost of a walk: the sum of `edge_cost_minutes` over consecutive
pairs (missing edges contribute 0; all uses are guarded by `walkOK`). -/
def walkCost {α : Type} [LinearOrderedField α] (g : Graph α) : List String → α
  | a :: b :: rest =>
    (match lookupEdge g a b with
      | some e => edge_cost_minutes e
      | none => 0) + walkCost g (b :: rest)
  | _ => 0

/-- A walk from `s` to `t`: nonempty, edge-connected, with the stated
endpoints. -/
def IsWalkFrom {α : Type} (g : Graph α) (s t : String) (p : List String) : Prop :=
  walkOK g p = true ∧ p.head? = some s ∧ p.getLast? = some t

instance {α : Type} (g : Graph α) (s t : String) (p : List String) :
    Decidable (IsWalkFrom g s t p) := by
  unfold IsWalkFrom; infer_instance

/-- City table from src/backend/data/mock_data.py: name, (lat, lon) in degrees. -/
def CITIES : List (String × ℚ × ℚ) := [
  ("Hyderabad", 3477 / 200, 784867 / 10000),
  ("Warangal", 179689 / 10000, 795941 / 10000),
  ("Nizamabad", 7469 / 400, 780941 / 10000),
  ("Karimnagar", 92193 / 5000, 98911 / 1250),
  ("Khammam", 172473 / 10000, 400757 / 5000),
  ("Mahabubnagar", 6697 / 400, 38993 / 500),
  ("Nalgonda", 17051 / 1000, 79267 / 1000),
  ("Suryapet", 85683 / 5000, 79619 / 1000),
  ("Siddipet", 181 / 10, 1577 / 20),
  ("Medak", 71 / 4, 78279 / 1000)
]

/-- Road-network graph from src/backend/data/mock_data.py (insertion order preserved). -/
def GRAPH : Graph ℚ := [
  ("Hyderabad", [
    ("Medak", ⟨70, 15, 0, 103 / 100⟩),
    ("Nizamabad", ⟨175, 20, 2, 53 / 50⟩),
    ("Karimnagar", ⟨165, 18, 1, 21 / 20⟩),
    ("Warangal", ⟨150, 20, 2, 21 / 20⟩),
    ("Nalgonda", ⟨100, 12, 1, 103 / 100⟩),
    ("Mahabubnagar", ⟨95, 10, 0, 51 / 50⟩),
    ("Siddipet", ⟨100, 14, 1, 26 / 25⟩),
    ("Suryapet", ⟨140, 16, 1, 21 / 20⟩),
    ("Khammam", ⟨195, 18, 2, 53 / 50⟩)]),
  ("Medak", [
    ("Hyderabad", ⟨70, 12, 0, 103 / 100⟩),
    ("Siddipet", ⟨60, 8, 0, 51 / 50⟩),
    ("Nizamabad", ⟨120, 10, 1, 26 / 25⟩)]),
  ("Siddipet", [
    ("Medak", ⟨60, 7, 0, 51 / 50⟩),
    ("Hyderabad", ⟨100, 14, 1, 26 / 25⟩),
    ("Karimnagar", ⟨130, 12, 1, 21 / 20⟩)]),
  ("Nizamabad", [
    ("Hyderabad", ⟨175, 18, 2, 53 / 50⟩),
    ("Medak", ⟨120, 10, 1, 26 / 25⟩),
    ("Karimnagar", ⟨130, 15, 1, 53 / 50⟩)]),
  ("Karimnagar", [
    ("Nizamabad", ⟨130, 14, 1, 21 / 20⟩),
    ("Hyderabad", ⟨165, 16, 1, 21 / 20⟩),
    ("Warangal", ⟨90, 10, 1, 103 / 100⟩)]),
  ("Warangal", [
    ("Karimnagar", ⟨90, 9, 1, 103 / 100⟩),
    ("Hyderabad", ⟨150, 18, 2, 21 / 20⟩),
    ("Suryapet", ⟨65, 8, 0, 51 / 50⟩),
    ("Khammam", ⟨92, 10, 1, 26 / 25⟩)]),
  ("Suryapet", [
    ("Warangal", ⟨65, 7, 0, 51 / 50⟩),
    ("Hyderabad", ⟨140, 15, 1, 21 / 20⟩),
    ("Nalgonda", ⟨60, 8, 0, 103 / 100⟩),
    ("Khammam", ⟨110, 12, 1, 21 / 20⟩)]),
  ("Nalgonda", [
    ("Hyderabad", ⟨100, 10, 0, 103 / 100⟩),
    ("Suryapet", ⟨60, 7, 0, 103 / 100⟩),
    ("Mahabubnagar", ⟨120, 9, 1, 26 / 25⟩)]),
  ("Mahabubnagar", [
    ("Hyderabad", ⟨95, 9, 0, 51 / 50⟩),
    ("Nalgonda", ⟨120, 8, 1, 103 / 100⟩)]),
  ("Khammam", [
    ("Hyderabad", ⟨195, 16, 2, 53 / 50⟩),
    ("Warangal", ⟨92, 10, 1, 26 / 25⟩),
    ("Suryapet", ⟨110, 12, 1, 21 / 20⟩)])
]

/-- The city-name list, i.e. the keys of `CITIES` in insertion order. -/
def cityNames : List String := CITIES.map Prod.fst

/-- One reported leg of a route breakdown (`legs.append({...})` in
`route_breakdown`); `src`/`dst` model the Python keys `from`/`to`. -/
structure Leg (α : Type) where
  src : String
  dst : String
  distance_km : α
  traffic_min : α
  weather_min : α
  risk : α
  estimated_time_min : α
deriving DecidableEq, Repr

/-- The aggregate route breakdown returned by `route_breakdown`. -/
structure Breakdown (α : Type) where
  total_distance_km : α
  total_traffic_min : α
  total_weather_min : α
  risk_extra_time_min : α
  estimated_total_time_min : α
  legs : List (Leg α)
deriving DecidableEq, Repr

/-- Model of Python `round(x, 2)` (round to nearest with 2 decimals; the
tie-breaking of Python's float banker rounding is immaterial to every theorem
below, which only ever applies `round2` to both sides of an equation). -/
def round2 {α : Type} [LinearOrderedField α] [FloorRing α] (x : α) : α :=
  (round (x * 100) : ℤ) / 100

/-- Model of Python `round(x, 3)`. -/
def round3 {α : Type} [LinearOrderedField α] [FloorRing α] (x : α) : α :=
  (round (x * 1000) : ℤ) / 1000

/-- The accumulation loop of `route_breakdown` over the consecutive pairs of
the path, threading the five running totals and the leg list; `none` models
the `KeyError` Python would raise on a missing edge. -/
def route_breakdown_go {α : Type} [LinearOrderedField α] [FloorRing α] (g : Graph α) :
    List (String × String) → α → α → α → α → α → List (Leg α) → Option (Breakdown α)
  | [], td, tt, tw, cr, ttm, legs =>
    some ⟨round2 td, round2 tt, round2 tw, round2 cr, round2 ttm, legs⟩
  | (a, b) :: rest, td, tt, tw, cr, ttm, legs =>
    match lookupEdge g a b with
    | none => none
    | some e =>
      route_breakdown_go g rest (td + e.distance_km) (tt + e.traffic_min)
        (tw + e.weather_min)
        (cr + ((e.distance_km / KM_PER_MIN α + e.traffic_min + e.weather_min) * e.risk -
          (e.distance_km / KM_PER_MIN α + e.traffic_min + e.weather_min)))
        (ttm + (e.distance_km / KM_PER_MIN α + e.traffic_min + e.weather_min) * e.risk)
        (legs ++ [⟨a, b, round2 e.distance_km, round2 e.traffic_min, round2 e.weather_min,
          round3 e.risk,
          round2 ((e.distance_km / KM_PER_MIN α + e.traffic_min + e.weather_min) * e.risk)⟩])

/-- `route_breakdown` from app.py. -/
def route_breakdown {α : Type} [LinearOrderedField α] [FloorRing α] (g : Graph α)
    (path : List String) : Option (Breakdown α) :=
  route_breakdown_go g (path.zip path.tail) 0 0 0 0 0 []

/-- The all-zero breakdown returned by `get_route` when `start == end`. -/
def zeroBreakdown (α : Type) [LinearOrderedField α] : Breakdown α :=
  ⟨0, 0, 0, 0, 0, []⟩

/-- Strict comparison of heap entries `(f, g, city)` under the Python tuple
order used by `heapq`. -/
def entLt {α : Type} [LinearOrder α] (x y : α × α × String) : Bool :=
  if x.1 < y.1 then true
  else if y.1 < x.1 then false
  else if x.2.1 < y.2.1 then true
  else if y.2.1 < x.2.1 then false
  else decide (x.2.2 < y.2.2)

/-- Least element of a nonempty list of heap entries (first among equals). -/
def findMin {α : Type} [LinearOrder α] :
    (α × α × String) → List (α × α × String) → α × α × String
  | x, [] => x
  | x, y :: rest => if entLt y x then findMin y rest else findMin x rest

/-- `heapq.heappop`: remove and return the least entry. -/
def popMin {α : Type} [LinearOrder α] :
    List (α × α × String) → Option ((α × α × String) × List (α × α × String))
  | [] => none
  | x :: rest =>
    let m := findMin x rest
    some (m, (x :: rest).erase m)

/-- Result type of the fueled `a_star_route` embedding. `noPath` models the
Python `return None` (used both for an unknown endpoint and for an exhausted
frontier); `fuelOut` is an artifact of the fueled embedding, proved
unreachable for graphs with nonnegative attributes. -/
inductive AStarResult where
  | fuelOut
  | noPath
  | found (p : List String)
deriving DecidableEq, Repr

/-- The body of the neighbor loop of `a_star_route`: given the popped city
`cur` with popped g-value `gc`, relax one neighbor, threading
(open-heap, came_from, g_score). -/
def relaxOne {α : Type} [LinearOrderedField α] (h : String → α) (gc : α) (cur : String)
    (st : List (α × α × String) × List (String × String) × List (String × α))
    (nb : String × Edge α) :
    List (α × α × String) × List (String × String) × List (String × α) :=
  let tg := gc + edge_cost_minutes nb.2
  let better : Bool :=
    match lookupA st.2.2 nb.1 with
    | some gn => decide (tg < gn)
    | none => true
  if better then
    ((tg + h nb.1, tg, nb.1) :: st.1, setA st.2.1 nb.1 cur, setA st.2.2 nb.1 tg)
  else st

/-- Relax all neighbors of `cur` in adjacency order. -/
def expand {α : Type} [LinearOrderedField α] (g : Graph α) (h : String → α) (gc : α)
    (cur : String) (heap : List (α × α × String)) (cf : List (String × String))
    (gs : List (String × α)) :
    List (α × α × String) × List (String × String) × List (String × α) :=
  (neighborsOf g cur).foldl (relaxOne h gc cur) (heap, cf, gs)

/-- Path reconstruction: follow `came_from` links, prepending each
predecessor (the Python code appends and reverses, which is the same list).
The fuel makes the `while current in came_from` loop structural; it is always
called with enough fuel. -/
def reconstruct (cf : List (String × String)) : Nat → String → List String → Option (List String)
  | 0, _, _ => none
  | fuel + 1, cur, acc =>
    match lookupA cf cur with
    | none => some acc
    | some prev => reconstruct cf fuel prev (prev :: acc)

/-- The `while open_heap:` loop of `a_star_route`, with explicit fuel. -/
def astarLoop {α : Type} [LinearOrderedField α] (g : Graph α) (h : String → α)
    (goal : String) :
    Nat → List (α × α × String) → List (String × String) → List (String × α) → AStarResult
  | 0, _, _, _ => .fuelOut
  | fuel + 1, heap, cf, gs =>
    match popMin heap with
    | none => .noPath
    | some ((_, gc, cur), rest) =>
      if cur = goal then
        match reconstruct cf (cf.length + 1) cur [cur] with
        | some p => .found p
        | none => .fuelOut
      else
        match expand g h gc cur rest cf gs with
        | (heap2, cf2, gs2) => astarLoop g h goal fuel heap2 cf2 gs2

/-- All city names mentioned by the graph (sources and destinations). -/
def nodeNames {α : Type} (g : Graph α) : List String :=
  (g.map Prod.fst ++ (g.map fun cn => cn.2.map Prod.fst).flatten).dedup

/-- The largest adjacency-list length of the graph. -/
def maxDeg {α : Type} (g : Graph α) : Nat :=
  g.foldr (fun cn acc => max cn.2.length acc) 0

/-- Fuel budget for the search loop: proved to dominate the potential
function of the loop, hence sufficient for termination on every graph with
nonnegative attributes. -/
def astarFuel {α : Type} (g : Graph α) : Nat :=
  2 + ((nodeNames g).length + 1) * (maxDeg g + 1) ^ ((nodeNames g).length + 1)

/-- `a_star_route` from app.py, parameterized by the known-city list, the
graph and the heuristic (the app instantiates these with `CITIES`, `GRAPH`
and `heuristic_time_min`). -/
def a_star_route {α : Type} [LinearOrderedField α] (cities : List String) (g : Graph α)
    (h : String → String → α) (start goal : String) : AStarResult :=
  if start ∈ cities ∧ goal ∈ cities then
    astarLoop g (fun n => h n goal) goal (astarFuel g)
      [(0 + h start goal, 0, start)] [] [(start, 0)]
  else .noPath

/-- Response of the `/api/route` endpoint. `clientError` carries the JSON
error message and HTTP status; `crash` models an uncaught Python exception
(a `KeyError` in `route_breakdown`), proved unreachable. -/
inductive RouteResp (α : Type) where
  | ok (path : List String) (breakdown : Breakdown α)
  | clientError (msg : String) (code : Nat)
  | crash
deriving DecidableEq

/-- Python truthiness of `data.get(...)` for a string field: `None` and the
empty string are falsy. -/
def truthy : Option String → Bool
  | none => false
  | some s => !(s = "")

/-- `get_route` (the `/api/route` handler) from app.py, parameterized like
`a_star_route`. -/
def get_route {α : Type} [LinearOrderedField α] [FloorRing α] (cities : List String)
    (g : Graph α) (h : String → String → α) (startQ endQ : Option String) : RouteResp α :=
  if truthy startQ = false ∨ truthy endQ = false then
    .clientError "Missing 'start' or 'end'" 400
  else
    let s := startQ.getD ""
    let e := endQ.getD ""
    if s = e then .ok [s] (zeroBreakdown α)
    else
      match a_star_route cities g h s e with
      | .found p =>
        if p.isEmpty then .clientError "No route found" 404
        else
          match route_breakdown g p with
          | some b => .ok p b
          | none => .crash
      | _ => .clientError "No route found" 404

/-- `if nb not in GRAPH: GRAPH[nb] = {}` — appended at the end, as for a
Python dict. -/
def ensureKey (g : Graph ℚ) (k : String) : Graph ℚ :=
  if (lookupA g k).isSome then g else g ++ [(k, [])]

/-- `GRAPH[a][b] = e` (key `a` assumed present; `setA` appends `b` at the end
of `a`'s adjacency if missing, as Python dict assignment does). -/
def setEdge (g : Graph ℚ) (a b : String) (e : Edge ℚ) : Graph ℚ :=
  g.map fun kn => if kn.1 = a then (kn.1, setA kn.2 b e) else kn

/-- In-place field update of the edge `a → b`, if present. -/
def modifyEdge (g : Graph ℚ) (a b : String) (f : Edge ℚ → Edge ℚ) : Graph ℚ :=
  g.map fun kn =>
    if kn.1 = a then
      (kn.1, kn.2.map fun be => if be.1 = b then (be.1, f be.2) else be)
    else kn

/-- The weather/risk overwrite `update_weather` applies to an edge
(`edge["weather_min"] = delay; edge["risk"] = risk`). -/
def fwdUpd (delay : ℤ) (rsk : ℚ) (e : Edge ℚ) : Edge ℚ :=
  { e with weather_min := (delay : ℚ), risk := rsk }

/-- The value held by the reverse edge `nb → city` right after
`applyNeighbor delay rsk city nb`: the overwritten original if the reverse
edge existed, otherwise the freshly created mirror (with `distance_km` and
`traffic_min` copied from the forward edge) carrying the new weather/risk. -/
def revVal (delay : ℤ) (rsk : ℚ) (city nb : String) (g : Graph ℚ) : Edge ℚ :=
  match lookupEdge g nb city with
  | some e => fwdUpd delay rsk e
  | none =>
    match lookupEdge g city nb with
    | some fwd => ⟨fwd.distance_km, fwd.traffic_min, (delay : ℚ), rsk⟩
    | none => ⟨0, 0, (delay : ℚ), rsk⟩

/-- One iteration of the neighbor loop of `update_weather`: ensure the
reverse edge exists (mirroring `distance_km`/`traffic_min` on creation), then
write `weather_min`/`risk` on both the forward and the reverse edge. -/
def applyNeighbor (delay : ℤ) (rsk : ℚ) (city nb : String) (g : Graph ℚ) : Graph ℚ :=
  let g1 := ensureKey g nb
  let g2 :=
    if (lookupEdge g1 nb city).isSome then g1
    else
      match lookupEdge g1 city nb with
      | some fwd => setEdge g1 nb city ⟨fwd.distance_km, fwd.traffic_min, 0, 1⟩
      | none => setEdge g1 nb city ⟨0, 0, 0, 1⟩
  let g3 := modifyEdge g2 city nb (fwdUpd delay rsk)
  modifyEdge g3 nb city (fwdUpd delay rsk)

/-- The per-city body of `update_weather`: snapshot the neighbor names, then
fold the neighbor update over them. -/
def applyCityWeather (delay : ℤ) (rsk : ℚ) (city : String) (g : Graph ℚ) : Graph ℚ :=
  (keysOf (neighborsOf g city)).foldl (fun acc nb => applyNeighbor delay rsk city nb acc) g

/-- The city sweep of `update_weather` over an arbitrary city list. -/
def sweep (w : String → ℤ × ℚ) : List String → Graph ℚ → Graph ℚ
  | [], g => g
  | c :: rest, g => sweep w rest (applyCityWeather (w c).1 (w c).2 c g)

/-- `update_weather` from app.py: for every city of `CITIES` in order, fetch
the weather (modelled by `w`, giving the `int(...)`-truncated delay and the
risk) and apply it to every touching edge. -/
def update_weather (w : String → ℤ × ℚ) (g : Graph ℚ) : Graph ℚ :=
  sweep w cityNames g

/-- The possible (delay, risk) outputs of `_category_to_delay_and_risk` in
weather_utils.py, branch by branch (Extreme/Squall/Tornado;
Thunderstorm/Rain; Drizzle/Mist/Fog/Haze/Smoke; Snow; default fair
weather). -/
def TableOutput (dr : ℤ × ℚ) : Prop :=
  (25 ≤ dr.1 ∧ dr.1 ≤ 30 ∧ 23 / 20 ≤ dr.2 ∧ dr.2 ≤ 13 / 10) ∨
  (10 ≤ dr.1 ∧ dr.1 ≤ 20 ∧ 27 / 25 ≤ dr.2 ∧ dr.2 ≤ 28 / 25) ∨
  (5 ≤ dr.1 ∧ dr.1 ≤ 10 ∧ 103 / 100 ≤ dr.2 ∧ dr.2 ≤ 53 / 50) ∨
  (10 ≤ dr.1 ∧ dr.1 ≤ 20 ∧ 107 / 100 ≤ dr.2 ∧ dr.2 ≤ 28 / 25) ∨
  (0 ≤ dr.1 ∧ dr.1 ≤ 3 ∧ 1 ≤ dr.2 ∧ dr.2 ≤ 51 / 50)

/-- Every adjacency list of `g` has duplicate-free destination keys (true of
any graph arising from Python dicts). -/
def AdjNodup {α : Type} (g : Graph α) : Prop :=
  ∀ c, (keysOf (neighborsOf g c)).Nodup

/-- `g` has no self-loop edges. -/
def NoSelf {α : Type} (g : Graph α) : Prop :=
  ∀ c, lookupEdge g c c = none

/-- Weather/risk symmetry of every edge leaving a city satisfying `P`. -/
def SymFor (g : Graph ℚ) (P : String → Prop) : Prop :=
  ∀ c, P c → ∀ n e, lookupEdge g c n = some e →
    ∃ e2, lookupEdge g n c = some e2 ∧ e.weather_min = e2.weather_min ∧ e.risk = e2.risk

/-- Every edge of `g` either carries the weather/risk of some city in `S`
(written by the sweep) or is an untouched edge of the base graph `g0` whose
source city is outside `S`. -/
def WrittenFor (w : String → ℤ × ℚ) (g0 g : Graph ℚ) (S : List String) : Prop :=
  ∀ a b e, lookupEdge g a b = some e →
    (∃ x ∈ S, e.weather_min = ((w x).1 : ℚ) ∧ e.risk = (w x).2) ∨
    (lookupEdge g0 a b = some e ∧ a ∉ S)

/-- All edge attributes of `g` are nonnegative. -/
def NonnegGraph {α : Type} [LinearOrderedField α] (g : Graph α) : Prop :=
  ∀ cn ∈ g, ∀ ne ∈ cn.2, 0 ≤ (ne.2 : Edge α).distance_km ∧ 0 ≤ ne.2.traffic_min ∧
    0 ≤ ne.2.weather_min ∧ 0 ≤ ne.2.risk

/-- A duplicate-free walk from `s` to `n` in `g`. -/
def IsSimplePath {α : Type} (g : Graph α) (s : String) (p : List String) (n : String) : Prop :=
  p.head? = some s ∧ p.getLast? = some n ∧ p.Nodup ∧ walkOK g p = true

/-- Every node of `p` has a g-score bounded by the cost of the corresponding
prefix of `p` (key invariant of the search's g-score table). -/
def Domination {α : Type} [LinearOrderedField α] (g : Graph α) (gs : List (String × α))
    (p : List String) : Prop :=
  ∀ i : Fin p.length, ∃ u, lookupA gs (p.get i) = some u ∧ u ≤ walkCost g (p.take (i + 1))

/-- `v` is realized as the cost of a simple path from `s` to `n` whose prefix
costs dominate the current g-scores. -/
def Witnessed {α : Type} [LinearOrderedField α] (g : Graph α) (s : String)
    (gs : List (String × α)) (v : α) (n : String) : Prop :=
  ∃ p, IsSimplePath g s p n ∧ walkCost g p = v ∧ Domination g gs p

/-- One parent-pointer step of the came_from table (child to parent). -/
def cfStep (cf : List (String × String)) (a b : String) : Prop :=
  lookupA cf a = some b

/-- The came_from table has no parent-pointer cycles. -/
def AcyclicCF (cf : List (String × String)) : Prop :=
  ∀ n, ¬ Relation.TransGen (cfStep cf) n n

/-- Enumeration of the duplicate-free walks out of `cur` avoiding `visited`,
of length at most `fuel + 1` (used only to bound the search's potential). -/
def extPaths {α : Type} (g : Graph α) : Nat → List String → String → List (List String)
  | 0, _, cur => [[cur]]
  | fuel + 1, visited, cur =>
    [cur] :: (neighborsOf g cur).foldr (fun nb acc =>
      if nb.1 ∈ visited ∨ nb.1 = cur then acc
      else (extPaths g fuel (cur :: visited) nb.1).map (cur :: ·) ++ acc) []

/-- The finite set of simple-path costs from `s` to `n` in `g`. -/
def spcosts {α : Type} [LinearOrderedField α] (g : Graph α) (s n : String) : Finset α :=
  (((extPaths g (nodeNames g).length [] s).filter (fun p => p.getLast? = some n)).map
    (walkCost g)).toFinset

/-- The rank of a g-score entry: how many simple-path costs lie strictly
below it (`none` plays the role of infinity). -/
def rankOf {α : Type} [LinearOrderedField α] (g : Graph α) (s n : String) : Option α → Nat
  | none => (spcosts g s n).card
  | some v => ((spcosts g s n).filter (fun u => u < v)).card

/-- The termination potential of the search loop. -/
def phiOf {α : Type} [LinearOrderedField α] (g : Graph α) (s : String)
    (heap : List (α × α × String)) (gs : List (String × α)) : Nat :=
  heap.length + ((nodeNames g).map (fun n => rankOf g s n (lookupA gs n))).sum

/-- The search-loop invariant: every open-heap entry carries a g-value that is
witnessed by a dominating simple path and bounds the node's current g-score;
the start keeps g-score 0; every came_from pair is a graph edge whose g-scores
are consistent; the parent pointers are acyclic; and every scored node other
than the start has a parent. -/
structure AInv {α : Type} [LinearOrderedField α] (g : Graph α) (start : String)
    (heap : List (α × α × String)) (cf : List (String × String))
    (gs : List (String × α)) : Prop where
  entries : ∀ ent ∈ heap, (∃ v, lookupA gs ent.2.2 = some v ∧ v ≤ ent.2.1) ∧
    Witnessed g start gs ent.2.1 ent.2.2
  gsStart : lookupA gs start = some 0
  cfEdge : ∀ yx ∈ cf, ∃ e, lookupEdge g (yx : String × String).2 yx.1 = some e ∧
    ∃ vy vx, lookupA gs yx.1 = some vy ∧ lookupA gs yx.2 = some vx ∧
      vx + edge_cost_minutes e ≤ vy
  acyc : AcyclicCF cf
  keysSub : ∀ nv ∈ gs, (nv : String × α).1 = start ∨ (lookupA cf nv.1).isSome = true
  gsNodup : (gs.map Prod.fst).Nodup
  cfNodup : (cf.map Prod.fst).Nodup

/-- A small partitioned test graph (components {A, B} and {C, D}), used to
exercise the exhausted-frontier branch of the search. -/
def GTEST : Graph ℚ :=
  [("A", [("B", ⟨10, 1, 0, 1⟩)]), ("B", [("A", ⟨10, 1, 0, 1⟩)]),
   ("C", [("D", ⟨5, 2, 0, 1⟩)]), ("D", [("C", ⟨5, 2, 0, 1⟩)])]

/-- Exact single-source shortest-path distances of the dataset under the
edge-cost model (a proof-layer certificate: each row is a feasible potential
whose feasibility is checked edge by edge in the theorems below). -/
def DIJ : List (String × List (String × ℚ)) := [
  ("Hyderabad", [("Hyderabad", 0), ("Warangal", 5649 / 40), ("Nizamabad", 32489 / 200), ("Karimnagar", 11991 / 80), ("Khammam", 7049 / 40), ("Mahabubnagar", 663 / 8), ("Nalgonda", 2266 / 25), ("Suryapet", 1281 / 10), ("Siddipet", 468 / 5), ("Medak", 2781 / 40)]),
  ("Warangal", [("Hyderabad", 1113 / 8), ("Warangal", 0), ("Nizamabad", 3959 / 20), ("Karimnagar", 3193 / 40), ("Khammam", 416 / 5), ("Mahabubnagar", 8659 / 40), ("Nalgonda", 4499 / 40), ("Suryapet", 11577 / 200), ("Siddipet", 9309 / 40), ("Medak", 4173 / 20)]),
  ("Nizamabad", [("Hyderabad", 6413 / 40), ("Warangal", 40233 / 200), ("Nizamabad", 0), ("Karimnagar", 12031 / 100), ("Khammam", 56873 / 200), ("Mahabubnagar", 1216 / 5), ("Nalgonda", 50193 / 200), ("Suryapet", 5181 / 20), ("Siddipet", 1591 / 10), ("Medak", 2626 / 25)]),
  ("Karimnagar", [("Hyderabad", 11823 / 80), ("Warangal", 16171 / 200), ("Nizamabad", 945 / 8), ("Karimnagar", 0), ("Khammam", 32811 / 200), ("Mahabubnagar", 18453 / 80), ("Nalgonda", 19333 / 100), ("Suryapet", 6937 / 50), ("Siddipet", 19311 / 80), ("Medak", 3477 / 16)]),
  ("Khammam", [("Hyderabad", 34821 / 200), ("Warangal", 416 / 5), ("Nizamabad", 5623 / 20), ("Karimnagar", 6521 / 40), ("Khammam", 0), ("Mahabubnagar", 12849 / 50), ("Nalgonda", 30973 / 200), ("Suryapet", 4011 / 40), ("Siddipet", 53541 / 200), ("Medak", 24363 / 100)]),
  ("Mahabubnagar", [("Hyderabad", 16371 / 200), ("Warangal", 42479 / 200), ("Nizamabad", 2443 / 10), ("Karimnagar", 92697 / 400), ("Khammam", 51161 / 200), ("Mahabubnagar", 0), ("Nalgonda", 10197 / 100), ("Suryapet", 15553 / 100), ("Siddipet", 35091 / 200), ("Medak", 7569 / 50)]),
  ("Nalgonda", [("Hyderabad", 1751 / 20), ("Warangal", 4417 / 40), ("Nizamabad", 49999 / 200), ("Karimnagar", 761 / 4), ("Khammam", 30767 / 200), ("Mahabubnagar", 104), ("Nalgonda", 0), ("Suryapet", 1339 / 25), ("Siddipet", 3623 / 20), ("Medak", 6283 / 40)]),
  ("Suryapet", [("Hyderabad", 2541 / 20), ("Warangal", 11373 / 200), ("Nizamabad", 50963 / 200), ("Karimnagar", 13669 / 100), ("Khammam", 4011 / 40), ("Mahabubnagar", 15859 / 100), ("Nalgonda", 5459 / 100), ("Suryapet", 0), ("Siddipet", 4413 / 20), ("Medak", 7863 / 40)]),
  ("Siddipet", [("Hyderabad", 468 / 5), ("Warangal", 4922 / 25), ("Nizamabad", 3952 / 25), ("Karimnagar", 4641 / 40), ("Khammam", 10793 / 40), ("Mahabubnagar", 7059 / 40), ("Nalgonda", 4606 / 25), ("Suryapet", 2217 / 10), ("Siddipet", 0), ("Medak", 1326 / 25)]),
  ("Medak", [("Hyderabad", 13287 / 200), ("Warangal", 10383 / 50), ("Nizamabad", 2626 / 25), ("Karimnagar", 34017 / 200), ("Khammam", 12133 / 50), ("Mahabubnagar", 14931 / 100), ("Nalgonda", 6283 / 40), ("Suryapet", 38907 / 200), ("Siddipet", 2703 / 50), ("Medak", 0)])
]

/-- The potential of node `v` for source `s` (0 for unknown names). -/
def PHI (s v : String) : ℚ :=
  (lookupA ((lookupA DIJ s).getD []) v).getD 0

/-- `φ` is a feasible dual for `g`: across every edge, the potential grows
by at most the edge cost. Every walk then costs at least the potential
difference of its endpoints. -/
def Feasible (φ : String → ℚ) (g : Graph ℚ) : Prop :=
  ∀ cn ∈ g, ∀ ne ∈ cn.2, φ (ne : String × Edge ℚ).1 ≤ φ cn.1 + edge_cost_minutes ne.2

/-- The six ordered city pairs on which the heuristic overshoots the true
optimal cost (the mock road distances there are shorter than the
great-circle distances). -/
def BADPAIRS : List (String × String) :=
  [("Suryapet", "Warangal"), ("Warangal", "Suryapet"),
   ("Mahabubnagar", "Nalgonda"), ("Nalgonda", "Mahabubnagar"),
   ("Siddipet", "Medak"), ("Medak", "Siddipet")]

/-- `math.atan2` (quadrant-aware arctangent), as used by `haversine_km`. -/
noncomputable def atan2 (y x : ℝ) : ℝ :=
  if 0 < x then Real.arctan (y / x)
  else if x < 0 then
    (if 0 ≤ y then Real.arctan (y / x) + Real.pi else Real.arctan (y / x) - Real.pi)
  else
    (if 0 < y then Real.pi / 2 else if y < 0 then -(Real.pi / 2) else 0)

/-- The intermediate value `a` computed inside `haversine_km` (a proof-layer
abbreviation; `haversine_km` below unfolds to it definitionally). -/
noncomputable def havA (lat1 lon1 lat2 lon2 : ℝ) : ℝ :=
  Real.sin ((lat2 - lat1) * Real.pi / 180 / 2) ^ 2 +
    Real.cos (lat1 * Real.pi / 180) * Real.cos (lat2 * Real.pi / 180) *
      Real.sin ((lon2 - lon1) * Real.pi / 180 / 2) ^ 2

/-- `haversine_km` from app.py (Python floats modelled as reals;
`radians x = x * π / 180`). -/
noncomputable def haversine_km (lat1 lon1 lat2 lon2 : ℝ) : ℝ :=
  2 * atan2
    (Real.sqrt (Real.sin ((lat2 - lat1) * Real.pi / 180 / 2) ^ 2 +
      Real.cos (lat1 * Real.pi / 180) * Real.cos (lat2 * Real.pi / 180) *
        Real.sin ((lon2 - lon1) * Real.pi / 180 / 2) ^ 2))
    (Real.sqrt (1 - (Real.sin ((lat2 - lat1) * Real.pi / 180 / 2) ^ 2 +
      Real.cos (lat1 * Real.pi / 180) * Real.cos (lat2 * Real.pi / 180) *
        Real.sin ((lon2 - lon1) * Real.pi / 180 / 2) ^ 2))) * 6371

/-- Latitude of a known city, as a real (`CITIES[c]["lat"]`). -/
noncomputable def cityLat (c : String) : ℝ :=
  (((lookupA CITIES c).map fun p => (p.1 : ℝ)).getD 0)

/-- Longitude of a known city, as a real (`CITIES[c]["lon"]`). -/
noncomputable def cityLon (c : String) : ℝ :=
  (((lookupA CITIES c).map fun p => (p.2 : ℝ)).getD 0)

/-- `heuristic_time_min` from app.py. -/
noncomputable def heuristic_time_min (a b : String) : ℝ :=
  haversine_km (cityLat a) (cityLon a) (cityLat b) (cityLon b) / KM_PER_MIN ℝ * (AVG_RISK : ℝ)


/-! ## Theorems -/

theorem walkOK_cons {α : Type} {g : Graph α} {a b : String} {rest : List String} :
    walkOK g (a :: b :: rest) = true ↔
      (lookupEdge g a b).isSome = true ∧ walkOK g (b :: rest) = true := by
  simp [walkOK]

theorem walkCost_cons {α : Type} [LinearOrderedField α] {g : Graph α} {a b : String}
    {rest : List String} {e : Edge α} (he : lookupEdge g a b = some e) :
    walkCost g (a :: b :: rest) = edge_cost_minutes e + walkCost g (b :: rest) := by
  simp [walkCost, he]

/-- The accumulator of `route_breakdown_go` tracks the walk cost exactly;
rounding happens once, at the end. -/
theorem route_breakdown_go_total {α : Type} [LinearOrderedField α] [FloorRing α]
    (g : Graph α) :
    ∀ (p : List String) (td tt tw cr ttm : α) (legs : List (Leg α)),
      walkOK g p = true →
      ∃ b, route_breakdown_go g (p.zip p.tail) td tt tw cr ttm legs = some b ∧
        b.estimated_total_time_min = round2 (ttm + walkCost g p)
  | [], td, tt, tw, cr, ttm, legs, _ => by
    refine ⟨_, rfl, ?_⟩
    simp [walkCost]
  | [a], td, tt, tw, cr, ttm, legs, _ => by
    refine ⟨_, rfl, ?_⟩
    simp [walkCost]
  | a :: b :: rest, td, tt, tw, cr, ttm, legs, hw => by
    obtain ⟨h1, h2⟩ := walkOK_cons.mp hw
    obtain ⟨e, he⟩ := Option.isSome_iff_exists.mp h1
    obtain ⟨b2, hb2, ht2⟩ := route_breakdown_go_total g (b :: rest) (td + e.distance_km)
      (tt + e.traffic_min) (tw + e.weather_min)
      (cr + ((e.distance_km / KM_PER_MIN α + e.traffic_min + e.weather_min) * e.risk -
        (e.distance_km / KM_PER_MIN α + e.traffic_min + e.weather_min)))
      (ttm + (e.distance_km / KM_PER_MIN α + e.traffic_min + e.weather_min) * e.risk)
      (legs ++ [⟨a, b, round2 e.distance_km, round2 e.traffic_min, round2 e.weather_min,
        round3 e.risk,
        round2 ((e.distance_km / KM_PER_MIN α + e.traffic_min + e.weather_min) * e.risk)⟩]) h2
    refine ⟨b2, ?_, ?_⟩
    · simpa [route_breakdown_go, he] using hb2
    · rw [ht2, walkCost_cons he]
      unfold edge_cost_minutes
      congr 1
      ring

/-- Claim C6: the total estimated time reported by the Route Accountant for a
path equals the sum of `edge_cost_minutes` over the path's consecutive edges
(the quantity the search accumulates as the goal's g-score), with the
2-decimal rounding applied only at the reporting boundary. -/
theorem C6_breakdown_matches_search_cost {α : Type} [LinearOrderedField α] [FloorRing α]
    (g : Graph α) (p : List String) (hp : walkOK g p = true) :
    ∃ b, route_breakdown g p = some b ∧
      b.estimated_total_time_min = round2 (walkCost g p) := by
  obtain ⟨b, h1, h2⟩ := route_breakdown_go_total g p 0 0 0 0 0 [] hp
  refine ⟨b, h1, ?_⟩
  rw [h2]
  congr 1
  ring

/-- Witness for C6 at the Hyderabad → Medak leg of the dataset. -/
theorem C6_witness :
    walkOK GRAPH ["Hyderabad", "Medak"] = true ∧
    ∃ b, route_breakdown GRAPH ["Hyderabad", "Medak"] = some b ∧
      b.estimated_total_time_min = round2 (walkCost GRAPH ["Hyderabad", "Medak"]) :=
  ⟨by decide, C6_breakdown_matches_search_cost GRAPH ["Hyderabad", "Medak"] (by decide)⟩

/-- Claim C3 (counterexample to the concrete value): the Hyderabad → Medak
edge cost is exactly 69.525 minutes, which differs from the claimed ≈ 70.5 by
0.975, so the claimed value is off by more than half a minute. -/
theorem C3_counterexample :
    (lookupEdge GRAPH "Hyderabad" "Medak").map edge_cost_minutes = some (2781 / 40) ∧
    |(2781 / 40 : ℚ) - 141 / 2| = 39 / 40 ∧ (1 / 2 : ℚ) < 39 / 40 := by
  refine ⟨?_, by norm_num [abs_sub_comm], by norm_num⟩
  norm_num [lookupEdge, lookupA, neighborsOf, GRAPH, edge_cost_minutes, KM_PER_MIN]

/-- Claim C3 (amended): for every edge the cost in minutes is
(distance_km / speedKmPerMin + traffic_min + weather_min) * risk with
speedKmPerMin = 80/60 km/min, and for the Hyderabad → Medak edge
{distance_km: 70, traffic_min: 15, weather_min: 0, risk: 1.03} this evaluates
to (70 / (4/3) + 15 + 0) * 1.03 = 69.525 ≈ 69.5 minutes (not 70.5). -/
theorem C3_edge_cost_model :
    (∀ e : Edge ℚ, edge_cost_minutes e =
      (e.distance_km / (AVERAGE_SPEED_KMH / 60) + e.traffic_min + e.weather_min) * e.risk) ∧
    lookupEdge GRAPH "Hyderabad" "Medak" = some ⟨70, 15, 0, 103 / 100⟩ ∧
    (lookupEdge GRAPH "Hyderabad" "Medak").map edge_cost_minutes = some (69525 / 1000) := by
  refine ⟨fun e => rfl, by simp [lookupEdge, lookupA, neighborsOf, GRAPH], ?_⟩
  norm_num [lookupEdge, lookupA, neighborsOf, GRAPH, edge_cost_minutes, KM_PER_MIN]

/-- Claim C7: for any (truthy) city name c, the route endpoint short-circuits
`planRoute(c, c)` to the one-city path [c] with the all-zero breakdown,
before the search is ever invoked (the result does not depend on the graph or
the heuristic at all). -/
theorem C7_same_city_short_circuit {α : Type} [LinearOrderedField α] [FloorRing α]
    (cities : List String) (g : Graph α) (h : String → String → α) (c : String)
    (hc : c ≠ "") :
    get_route cities g h (some c) (some c) = .ok [c] (zeroBreakdown α) := by
  unfold get_route
  simp [truthy, hc]

/-- Witness for C7 at c = "Hyderabad" over the dataset. -/
theorem C7_witness :
    get_route cityNames GRAPH (fun _ _ => (0 : ℚ)) (some "Hyderabad") (some "Hyderabad") =
      .ok ["Hyderabad"] (zeroBreakdown ℚ) :=
  C7_same_city_short_circuit cityNames GRAPH (fun _ _ => 0) "Hyderabad" (by decide)

/-- Claim C2 (amended): a route request naming an unknown endpoint does fail
before the search begins (`a_star_route` returns its None result from the
membership check), but it is surfaced as the very same generic
"No route found" / 404 response used for an exhausted search; there is no
distinct UnknownCity error anywhere in the code. -/
theorem C2_unknown_city_same_error {α : Type} [LinearOrderedField α] [FloorRing α]
    (cities : List String) (g : Graph α) (h : String → String → α) (s t : String)
    (hs : s ≠ "") (ht : t ≠ "") (hne : s ≠ t) (hunk : s ∉ cities ∨ t ∉ cities) :
    get_route cities g h (some s) (some t) = .clientError "No route found" 404 ∧
    a_star_route cities g h s t = .noPath := by
  have ha : a_star_route cities g h s t = .noPath := by
    unfold a_star_route
    rw [if_neg]
    intro hmem
    rcases hunk with h1 | h1
    · exact h1 hmem.1
    · exact h1 hmem.2
  refine ⟨?_, ha⟩
  unfold get_route
  simp [truthy, hs, ht, hne, ha]

/-- Witness for C2's amended statement: unknown goal "Atlantis" against the
dataset. -/
theorem C2_witness :
    get_route cityNames GRAPH (fun _ _ => (0 : ℚ)) (some "Hyderabad") (some "Atlantis") =
      .clientError "No route found" 404 ∧
    a_star_route cityNames GRAPH (fun _ _ => (0 : ℚ)) "Hyderabad" "Atlantis" = .noPath :=
  C2_unknown_city_same_error cityNames GRAPH (fun _ _ => 0) "Hyderabad" "Atlantis"
    (by decide) (by decide) (by decide) (Or.inr (by decide))

/-- Claim C1 (supporting fact for the code bug): on the dataset, the
two-leg route Warangal → Hyderabad → Mahabubnagar costs 222.0 minutes while
the route Warangal → Suryapet → Nalgonda → Mahabubnagar costs only 216.475
minutes, so the former is not a minimum-cost Warangal → Mahabubnagar path.
(The planner returns the former: the inadmissible heuristic, cf. C4, steers
the search away from the optimum.) -/
theorem C1_cheaper_route_exists :
    IsWalkFrom GRAPH "Warangal" "Mahabubnagar"
      ["Warangal", "Suryapet", "Nalgonda", "Mahabubnagar"] ∧
    IsWalkFrom GRAPH "Warangal" "Mahabubnagar" ["Warangal", "Hyderabad", "Mahabubnagar"] ∧
    walkCost GRAPH ["Warangal", "Suryapet", "Nalgonda", "Mahabubnagar"] = 216475 / 1000 ∧
    walkCost GRAPH ["Warangal", "Hyderabad", "Mahabubnagar"] = 222 ∧
    (216475 / 1000 : ℚ) < 222 := by
  refine ⟨by decide, by decide, ?_, ?_, by norm_num⟩
  · simp +decide only [walkCost, lookupEdge, lookupA, neighborsOf, GRAPH, edge_cost_minutes,
      KM_PER_MIN]
    norm_num
  · simp +decide only [walkCost, lookupEdge, lookupA, neighborsOf, GRAPH, edge_cost_minutes,
      KM_PER_MIN]
    norm_num

/-! ### Association-list and graph-update lemmas -/

theorem lookupA_setA_self {β : Type} (l : List (String × β)) (k : String) (v : β) :
    lookupA (setA l k v) k = some v := by
  induction l with
  | nil => simp [setA, lookupA]
  | cons kv rest ih =>
    obtain ⟨a, b⟩ := kv
    by_cases h : a = k
    · simp [setA, h, lookupA]
    · simp [setA, h, lookupA, ih]

theorem lookupA_setA_ne {β : Type} (l : List (String × β)) (k k' : String) (v : β)
    (h : k' ≠ k) : lookupA (setA l k v) k' = lookupA l k' := by
  induction l with
  | nil => simp [setA, lookupA, Ne.symm h]
  | cons kv rest ih =>
    obtain ⟨a, b⟩ := kv
    by_cases ha : a = k
    · subst ha
      simp [setA, lookupA, Ne.symm h]
    · simp only [setA, if_neg ha, lookupA]
      by_cases hx : a = k'
      · simp [hx]
      · simp [hx, ih]

theorem lookupA_isSome_iff_mem {β : Type} (l : List (String × β)) (k : String) :
    (lookupA l k).isSome = true ↔ k ∈ keysOf l := by
  induction l with
  | nil => simp [lookupA, keysOf]
  | cons kv rest ih =>
    obtain ⟨a, b⟩ := kv
    by_cases h : a = k
    · simp [lookupA, h, keysOf]
    · simp [lookupA, h, keysOf, ih, Ne.symm h]

theorem lookupA_eq_none_of_not_mem {β : Type} {l : List (String × β)} {k : String}
    (h : k ∉ keysOf l) : lookupA l k = none := by
  rcases ho : lookupA l k with _ | v
  · rfl
  · exact absurd ((lookupA_isSome_iff_mem l k).mp (by simp [ho])) h

theorem lookupA_mapIf {β : Type} (l : List (String × β)) (f : β → β) (a x : String) :
    lookupA (l.map fun kn => if kn.1 = a then (kn.1, f kn.2) else kn) x =
      if x = a then (lookupA l x).map f else lookupA l x := by
  induction l with
  | nil => by_cases h : x = a <;> simp [lookupA, h]
  | cons kv rest ih =>
    obtain ⟨k, b⟩ := kv
    simp only [List.map_cons]
    by_cases hka : k = a <;> by_cases hkx : k = x
    · subst hka; subst hkx
      rw [show ((if ((k, b) : String × β).1 = k then ((k : String), f b) else (k, b))) =
        (k, f b) from by simp]
      simp [lookupA]
    · subst hka
      rw [show ((if ((k, b) : String × β).1 = k then ((k : String), f b) else (k, b))) =
        (k, f b) from by simp]
      simp only [lookupA, if_neg hkx]
      rw [ih]
    · subst hkx
      rw [show ((if ((k, b) : String × β).1 = a then ((k : String), f b) else (k, b))) =
        (k, b) from by simp [hka]]
      simp [lookupA, hka, Ne.symm hka]
    · rw [show ((if ((k, b) : String × β).1 = a then ((k : String), f b) else (k, b))) =
        (k, b) from by simp [hka]]
      simp only [lookupA, if_neg hkx]
      rw [ih]

theorem keysOf_cons {β : Type} (a : String) (b : β) (l : List (String × β)) :
    keysOf ((a, b) :: l) = a :: keysOf l := rfl

theorem keysOf_mapIf {β : Type} (l : List (String × β)) (f : β → β) (a : String) :
    keysOf (l.map fun kn => if kn.1 = a then (kn.1, f kn.2) else kn) = keysOf l := by
  induction l with
  | nil => rfl
  | cons kv rest ih =>
    obtain ⟨k, b⟩ := kv
    simp only [List.map_cons]
    by_cases h : k = a
    · rw [show ((if ((k, b) : String × β).1 = a then ((k : String), f b) else (k, b))) =
        (k, f b) from by simp [h]]
      rw [keysOf_cons, keysOf_cons, ih]
    · rw [show ((if ((k, b) : String × β).1 = a then ((k : String), f b) else (k, b))) =
        (k, b) from by simp [h]]
      rw [keysOf_cons, keysOf_cons, ih]

theorem keysOf_setA {β : Type} (l : List (String × β)) (k : String) (v : β) :
    keysOf (setA l k v) = if k ∈ keysOf l then keysOf l else keysOf l ++ [k] := by
  induction l with
  | nil => simp [setA, keysOf]
  | cons kv rest ih =>
    obtain ⟨a, b⟩ := kv
    by_cases h : a = k
    · subst h
      simp [setA, keysOf_cons]
    · rw [show setA ((a, b) :: rest) k v = (a, b) :: setA rest k v from by simp [setA, h]]
      rw [keysOf_cons, keysOf_cons, ih]
      by_cases hm : k ∈ keysOf rest
      · simp [hm, Ne.symm h]
      · simp [hm, Ne.symm h]

theorem lookupA_append_of_isSome {β : Type} {l : List (String × β)} {x : String}
    (l2 : List (String × β)) (h : (lookupA l x).isSome = true) :
    lookupA (l ++ l2) x = lookupA l x := by
  induction l with
  | nil => simp [lookupA] at h
  | cons kv rest ih =>
    obtain ⟨a, b⟩ := kv
    by_cases ha : a = x
    · simp [lookupA, ha]
    · simp only [lookupA, if_neg ha] at h ⊢
      exact ih h

theorem lookupA_append_of_none {β : Type} {l : List (String × β)} {x : String}
    (l2 : List (String × β)) (h : lookupA l x = none) :
    lookupA (l ++ l2) x = lookupA l2 x := by
  induction l with
  | nil => simp [lookupA]
  | cons kv rest ih =>
    obtain ⟨a, b⟩ := kv
    by_cases ha : a = x
    · simp [lookupA, ha] at h
    · simp only [lookupA, if_neg ha] at h ⊢
      exact ih h

theorem lookupEdge_ensureKey (g : Graph ℚ) (k a b : String) :
    lookupEdge (ensureKey g k) a b = lookupEdge g a b := by
  unfold ensureKey
  by_cases hk : (lookupA g k).isSome
  · simp [hk]
  · simp only [hk, if_false, Bool.false_eq_true]
    unfold lookupEdge neighborsOf
    rcases ha : lookupA g a with _ | nbrs
    · rw [lookupA_append_of_none _ ha]
      by_cases hka : k = a
      · subst hka
        simp [lookupA]
      · simp [lookupA, hka]
    · rw [lookupA_append_of_isSome _ (by simp [ha]), ha]

theorem mem_keys_ensureKey (g : Graph ℚ) (k : String) :
    k ∈ keysOf (ensureKey g k) := by
  unfold ensureKey
  by_cases hk : (lookupA g k).isSome
  · simpa [hk] using (lookupA_isSome_iff_mem g k).mp hk
  · simp only [hk, if_false, Bool.false_eq_true, keysOf, List.map_append]
    exact List.mem_append_right _ (by simp)

theorem lookupEdge_setEdge (g : Graph ℚ) (a b : String) (e : Edge ℚ) (x y : String)
    (ha : a ∈ keysOf g) :
    lookupEdge (setEdge g a b e) x y =
      if x = a ∧ y = b then some e else lookupEdge g x y := by
  unfold setEdge lookupEdge neighborsOf
  rw [lookupA_mapIf g (fun nbrs => setA nbrs b e) a x]
  by_cases hx : x = a
  · subst hx
    rw [if_pos rfl]
    obtain ⟨nbrs, hn⟩ := Option.isSome_iff_exists.mp ((lookupA_isSome_iff_mem g x).mpr ha)
    rw [hn]
    by_cases hy : y = b
    · subst hy
      simp [lookupA_setA_self]
    · simp [lookupA_setA_ne _ _ _ _ hy, hy]
  · rw [if_neg hx, if_neg (by tauto)]

theorem lookupEdge_modifyEdge (g : Graph ℚ) (a b : String) (f : Edge ℚ → Edge ℚ)
    (x y : String) :
    lookupEdge (modifyEdge g a b f) x y =
      if x = a ∧ y = b then (lookupEdge g a b).map f else lookupEdge g x y := by
  unfold modifyEdge lookupEdge neighborsOf
  rw [lookupA_mapIf g (fun nbrs => nbrs.map fun be => if be.1 = b then (be.1, f be.2) else be) a x]
  by_cases hx : x = a
  · subst hx
    rw [if_pos rfl]
    rcases hn : lookupA g x with _ | nbrs
    · by_cases hy : y = b <;> simp [lookupA, hy, hn]
    · simp only [Option.map_some', Option.getD_some, true_and]
      rw [lookupA_mapIf nbrs f b y]
      by_cases hy : y = b
      · subst hy
        simp [hn]
      · simp [hy, hn]
  · rw [if_neg hx, if_neg (by tauto)]

theorem keysOf_neighborsOf_setEdge (g : Graph ℚ) (a b : String) (e : Edge ℚ) (c : String) :
    keysOf (neighborsOf (setEdge g a b e) c) =
      if c = a ∧ a ∈ keysOf g then
        (if b ∈ keysOf (neighborsOf g a) then keysOf (neighborsOf g a)
          else keysOf (neighborsOf g a) ++ [b])
      else keysOf (neighborsOf g c) := by
  unfold setEdge neighborsOf
  rw [lookupA_mapIf g (fun nbrs => setA nbrs b e) a c]
  by_cases hc : c = a
  · subst hc
    rcases hn : lookupA g c with _ | nbrs
    · have hnm : c ∉ keysOf g := by
        intro hm
        have hs := (lookupA_isSome_iff_mem g c).mpr hm
        rw [hn] at hs
        simp at hs
      simp [hnm, hn]
    · have hm : c ∈ keysOf g := (lookupA_isSome_iff_mem g c).mp (by simp [hn])
      simp only [if_pos rfl, Option.map_some', Option.getD_some, hm, and_true, true_and,
        eq_self_iff_true, if_true]
      rw [keysOf_setA]
  · simp [hc]

theorem keysOf_neighborsOf_modifyEdge (g : Graph ℚ) (a b : String) (f : Edge ℚ → Edge ℚ)
    (c : String) :
    keysOf (neighborsOf (modifyEdge g a b f) c) = keysOf (neighborsOf g c) := by
  unfold modifyEdge neighborsOf
  rw [lookupA_mapIf g (fun nbrs => nbrs.map fun be => if be.1 = b then (be.1, f be.2) else be) a c]
  by_cases hc : c = a
  · subst hc
    rcases hn : lookupA g c with _ | nbrs
    · simp [hn]
    · simp [hn, keysOf_mapIf]
  · simp [hc]

theorem keysOf_neighborsOf_ensureKey (g : Graph ℚ) (k c : String) :
    keysOf (neighborsOf (ensureKey g k) c) = keysOf (neighborsOf g c) := by
  unfold ensureKey neighborsOf
  by_cases hk : (lookupA g k).isSome
  · simp [hk]
  · simp only [hk, if_false, Bool.false_eq_true]
    rcases ha : lookupA g c with _ | nbrs
    · rw [lookupA_append_of_none _ ha]
      by_cases hkc : k = c
      · subst hkc
        simp [lookupA, keysOf]
      · simp [lookupA, hkc, keysOf]
    · rw [lookupA_append_of_isSome _ (by simp [ha]), ha]

/-! ### The per-neighbor weather update, characterized -/

theorem lookupEdge_applyNeighbor (d : ℤ) (r : ℚ) (city nb : String) (g : Graph ℚ)
    (hne : nb ≠ city) (x y : String) :
    lookupEdge (applyNeighbor d r city nb g) x y =
      if x = city ∧ y = nb then (lookupEdge g city nb).map (fwdUpd d r)
      else if x = nb ∧ y = city then some (revVal d r city nb g)
      else lookupEdge g x y := by
  have hg1 : ∀ u v, lookupEdge (ensureKey g nb) u v = lookupEdge g u v :=
    fun u v => lookupEdge_ensureKey g nb u v
  have hkey : nb ∈ keysOf (ensureKey g nb) := mem_keys_ensureKey g nb
  unfold applyNeighbor
  have hg2 : ∀ u v,
      lookupEdge
        (if (lookupEdge (ensureKey g nb) nb city).isSome then ensureKey g nb
          else
            match lookupEdge (ensureKey g nb) city nb with
            | some fwd => setEdge (ensureKey g nb) nb city ⟨fwd.distance_km, fwd.traffic_min, 0, 1⟩
            | none => setEdge (ensureKey g nb) nb city ⟨0, 0, 0, 1⟩) u v =
      if u = nb ∧ v = city then
        some
          (match lookupEdge g nb city with
            | some e => e
            | none =>
              match lookupEdge g city nb with
              | some fwd => ⟨fwd.distance_km, fwd.traffic_min, 0, 1⟩
              | none => ⟨0, 0, 0, 1⟩)
      else lookupEdge g u v := by
    intro u v
    by_cases hrev : (lookupEdge (ensureKey g nb) nb city).isSome
    · rw [if_pos hrev, hg1]
      rw [hg1 nb city] at hrev
      by_cases huv : u = nb ∧ v = city
      · obtain ⟨hu, hv⟩ := huv
        subst hu; subst hv
        rw [if_pos ⟨rfl, rfl⟩]
        obtain ⟨e, he⟩ := Option.isSome_iff_exists.mp hrev
        rw [he]
      · rw [if_neg huv]
    · rw [if_neg hrev]
      have hrevn : lookupEdge g nb city = none := by
        rcases h : lookupEdge g nb city with _ | e
        · rfl
        · rw [hg1 nb city, h] at hrev
          simp at hrev
      rcases hf : lookupEdge (ensureKey g nb) city nb with _ | fwd
      · rw [lookupEdge_setEdge _ _ _ _ _ _ hkey]
        rw [hg1 city nb] at hf
        by_cases huv : u = nb ∧ v = city
        · rw [if_pos huv, if_pos huv, hrevn, hf]
        · rw [if_neg huv, if_neg huv, hg1]
      · rw [lookupEdge_setEdge _ _ _ _ _ _ hkey]
        rw [hg1 city nb] at hf
        by_cases huv : u = nb ∧ v = city
        · rw [if_pos huv, if_pos huv, hrevn, hf]
        · rw [if_neg huv, if_neg huv, hg1]
  by_cases hA : x = city ∧ y = nb
  · obtain ⟨hx, hy⟩ := hA
    subst hx; subst hy
    rw [if_pos ⟨rfl, rfl⟩]
    rw [lookupEdge_modifyEdge]
    rw [if_neg (fun hc => hne hc.2)]
    rw [lookupEdge_modifyEdge]
    rw [if_pos ⟨rfl, rfl⟩]
    rw [hg2]
    rw [if_neg (fun hc => hne hc.2)]
  · rw [if_neg hA]
    by_cases hB : x = nb ∧ y = city
    · obtain ⟨hx, hy⟩ := hB
      subst hx; subst hy
      rw [if_pos ⟨rfl, rfl⟩]
      rw [lookupEdge_modifyEdge]
      rw [if_pos ⟨rfl, rfl⟩]
      rw [lookupEdge_modifyEdge]
      rw [if_neg (fun hc => hne hc.1)]
      rw [hg2]
      rw [if_pos ⟨rfl, rfl⟩]
      unfold revVal fwdUpd
      rcases lookupEdge g x y with _ | e
      · rcases lookupEdge g y x with _ | f
        · rfl
        · rfl
      · rfl
    · rw [if_neg hB]
      rw [lookupEdge_modifyEdge]
      rw [if_neg hB]
      rw [lookupEdge_modifyEdge]
      rw [if_neg hA]
      rw [hg2]
      rw [if_neg hB]

theorem keysOf_neighborsOf_applyNeighbor (d : ℤ) (r : ℚ) (city nb : String) (g : Graph ℚ)
    (hne : nb ≠ city) (c : String) :
    keysOf (neighborsOf (applyNeighbor d r city nb g) c) =
      if c = nb ∧ city ∉ keysOf (neighborsOf g nb) then
        keysOf (neighborsOf g nb) ++ [city]
      else keysOf (neighborsOf g c) := by
  have hkeys1 : ∀ u, keysOf (neighborsOf (ensureKey g nb) u) = keysOf (neighborsOf g u) :=
    fun u => keysOf_neighborsOf_ensureKey g nb u
  have hkey : nb ∈ keysOf (ensureKey g nb) := mem_keys_ensureKey g nb
  unfold applyNeighbor
  rw [keysOf_neighborsOf_modifyEdge, keysOf_neighborsOf_modifyEdge]
  by_cases hrev : (lookupEdge (ensureKey g nb) nb city).isSome
  · rw [if_pos hrev, hkeys1]
    have hmem : city ∈ keysOf (neighborsOf g nb) := by
      rw [lookupEdge_ensureKey] at hrev
      exact (lookupA_isSome_iff_mem _ _).mp hrev
    rw [if_neg (fun hc => hc.2 hmem)]
  · rw [if_neg hrev]
    have hmemn : city ∉ keysOf (neighborsOf g nb) := by
      intro hm
      rw [lookupEdge_ensureKey] at hrev
      exact hrev ((lookupA_isSome_iff_mem _ _).mpr hm)
    have hsetkeys : ∀ (e : Edge ℚ),
        keysOf (neighborsOf (setEdge (ensureKey g nb) nb city e) c) =
          if c = nb then keysOf (neighborsOf g nb) ++ [city]
          else keysOf (neighborsOf g c) := by
      intro e
      rw [keysOf_neighborsOf_setEdge]
      by_cases hc : c = nb
      · subst hc
        rw [if_pos ⟨rfl, hkey⟩]
        rw [if_neg (by rw [hkeys1]; exact hmemn)]
        rw [hkeys1, if_pos rfl]
      · rw [if_neg (fun hcc => hc hcc.1), hkeys1, if_neg hc]
    rcases hf : lookupEdge (ensureKey g nb) city nb with _ | fwd
    · rw [hsetkeys]
      by_cases hc : c = nb
      · rw [if_pos hc, if_pos ⟨hc, hmemn⟩]
      · rw [if_neg hc, if_neg (fun hcc => hc hcc.1)]
    · rw [hsetkeys]
      by_cases hc : c = nb
      · rw [if_pos hc, if_pos ⟨hc, hmemn⟩]
      · rw [if_neg hc, if_neg (fun hcc => hc hcc.1)]

theorem adjNodup_applyNeighbor {g : Graph ℚ} (h : AdjNodup g) (d : ℤ) (r : ℚ)
    {city nb : String} (hne : nb ≠ city) : AdjNodup (applyNeighbor d r city nb g) := by
  intro c
  rw [keysOf_neighborsOf_applyNeighbor d r city nb g hne c]
  by_cases hc : c = nb ∧ city ∉ keysOf (neighborsOf g nb)
  · rw [if_pos hc]
    simp [List.nodup_append, h nb, hc.2]
  · rw [if_neg hc]
    exact h c

theorem noSelf_applyNeighbor {g : Graph ℚ} (h : NoSelf g) (d : ℤ) (r : ℚ)
    {city nb : String} (hne : nb ≠ city) : NoSelf (applyNeighbor d r city nb g) := by
  intro c
  rw [lookupEdge_applyNeighbor d r city nb g hne c c]
  rw [if_neg (fun hc => hne (hc.2.symm.trans hc.1))]
  rw [if_neg (fun hc => hne (hc.1.symm.trans hc.2))]
  exact h c

/-! ### The per-city weather update, characterized -/

theorem revVal_weather_risk (d : ℤ) (r : ℚ) (city x : String) (g : Graph ℚ) :
    (revVal d r city x g).weather_min = (d : ℚ) ∧ (revVal d r city x g).risk = r := by
  unfold revVal fwdUpd
  rcases lookupEdge g x city with _ | e
  · rcases lookupEdge g city x with _ | f <;> exact ⟨rfl, rfl⟩
  · exact ⟨rfl, rfl⟩

theorem fwdUpd_weather_risk (d : ℤ) (r : ℚ) (e : Edge ℚ) :
    (fwdUpd d r e).weather_min = (d : ℚ) ∧ (fwdUpd d r e).risk = r := ⟨rfl, rfl⟩

theorem lookupEdge_foldAN (d : ℤ) (r : ℚ) (city : String) :
    ∀ (L : List String) (g : Graph ℚ), L.Nodup → city ∉ L →
      ∀ x y, lookupEdge (L.foldl (fun acc nb => applyNeighbor d r city nb acc) g) x y =
        if x = city ∧ y ∈ L then (lookupEdge g city y).map (fwdUpd d r)
        else if y = city ∧ x ∈ L then some (revVal d r city x g)
        else lookupEdge g x y
  | [], g, _, _, x, y => by simp
  | nb :: L2, g, hnd, hcm, x, y => by
    have hnbne : nb ≠ city := fun h => hcm (h ▸ List.mem_cons_self nb L2)
    have hnmem : nb ∉ L2 := (List.nodup_cons.mp hnd).1
    have hnd2 : L2.Nodup := (List.nodup_cons.mp hnd).2
    have hcm2 : city ∉ L2 := fun h => hcm (List.mem_cons_of_mem nb h)
    rw [List.foldl_cons]
    rw [lookupEdge_foldAN d r city L2 (applyNeighbor d r city nb g) hnd2 hcm2 x y]
    have hrev : ∀ u, u ∈ L2 →
        revVal d r city u (applyNeighbor d r city nb g) = revVal d r city u g := by
      intro u hu
      have hune : u ≠ nb := fun h => hnmem (h ▸ hu)
      have hucity : u ≠ city := fun h => hcm2 (h ▸ hu)
      unfold revVal
      rw [lookupEdge_applyNeighbor d r city nb g hnbne u city,
        lookupEdge_applyNeighbor d r city nb g hnbne city u]
      rw [if_neg (fun hc => hucity hc.1), if_neg (fun hc => hune hc.1)]
      rw [if_neg (fun hc => hune hc.2), if_neg (fun hc => hnbne hc.1.symm)]
    by_cases hx : x = city
    · by_cases hy2 : y ∈ L2
      · have hyne : y ≠ nb := fun h => hnmem (h ▸ hy2)
        have e1 : lookupEdge (applyNeighbor d r city nb g) city y = lookupEdge g city y := by
          rw [lookupEdge_applyNeighbor d r city nb g hnbne city y]
          rw [if_neg (fun hc => hyne hc.2), if_neg (fun hc => hnbne hc.1.symm)]
        conv_lhs => rw [if_pos ⟨hx, hy2⟩, e1]
        conv_rhs => rw [if_pos ⟨hx, List.mem_cons_of_mem nb hy2⟩]
      · by_cases hynb : y = nb
        · have e1 : lookupEdge (applyNeighbor d r city nb g) x y =
              (lookupEdge g city nb).map (fwdUpd d r) := by
            rw [lookupEdge_applyNeighbor d r city nb g hnbne x y]
            rw [if_pos ⟨hx, hynb⟩]
          conv_lhs => rw [if_neg (fun hc => hy2 hc.2), if_neg (fun hc => hnbne (hynb ▸ hc.1)), e1]
          conv_rhs => rw [if_pos ⟨hx, by simp [hynb]⟩]
          rw [hynb]
        · have e1 : lookupEdge (applyNeighbor d r city nb g) x y = lookupEdge g x y := by
            rw [lookupEdge_applyNeighbor d r city nb g hnbne x y]
            rw [if_neg (fun hc => hynb hc.2), if_neg (fun hc => hnbne (hc.1.symm.trans hx))]
          conv_lhs => rw [if_neg (fun hc => hy2 hc.2), if_neg (fun hc => hcm2 (hx ▸ hc.2)), e1]
          conv_rhs => rw [if_neg (fun hc => (by simp [hynb, hy2] : y ∉ nb :: L2) hc.2),
            if_neg (fun hc => hcm (hx ▸ hc.2))]
    · conv_lhs => rw [if_neg (fun hc => hx hc.1)]
      conv_rhs => rw [if_neg (fun hc => hx hc.1)]
      by_cases hyc : y = city
      · by_cases hx2 : x ∈ L2
        · conv_lhs => rw [if_pos ⟨hyc, hx2⟩]
          conv_rhs => rw [if_pos ⟨hyc, List.mem_cons_of_mem nb hx2⟩]
          rw [hrev x hx2]
        · by_cases hxnb : x = nb
          · have e1 : lookupEdge (applyNeighbor d r city nb g) x y =
                some (revVal d r city nb g) := by
              rw [lookupEdge_applyNeighbor d r city nb g hnbne x y]
              rw [if_neg (fun hc => hx hc.1), if_pos ⟨hxnb, hyc⟩]
            conv_lhs => rw [if_neg (fun hc => hx2 hc.2), e1]
            conv_rhs => rw [if_pos ⟨hyc, by simp [hxnb]⟩]
            rw [hxnb]
          · have e1 : lookupEdge (applyNeighbor d r city nb g) x y = lookupEdge g x y := by
              rw [lookupEdge_applyNeighbor d r city nb g hnbne x y]
              rw [if_neg (fun hc => hx hc.1), if_neg (fun hc => hxnb hc.1)]
            conv_lhs => rw [if_neg (fun hc => hx2 hc.2), e1]
            conv_rhs => rw [if_neg (fun hc => (by simp [hxnb, hx2] : x ∉ nb :: L2) hc.2)]
      · have e1 : lookupEdge (applyNeighbor d r city nb g) x y = lookupEdge g x y := by
          rw [lookupEdge_applyNeighbor d r city nb g hnbne x y]
          rw [if_neg (fun hc => hx hc.1), if_neg (fun hc => hyc hc.2)]
        conv_lhs => rw [if_neg (fun hc => hyc hc.1), e1]
        conv_rhs => rw [if_neg (fun hc => hyc hc.1)]

theorem city_not_mem_neighbors {g : Graph ℚ} {city : String}
    (hself : lookupEdge g city city = none) :
    city ∉ keysOf (neighborsOf g city) := by
  intro hm
  have hs := (lookupA_isSome_iff_mem (neighborsOf g city) city).mpr hm
  rw [show lookupA (neighborsOf g city) city = lookupEdge g city city from rfl, hself] at hs
  simp at hs

theorem lookupEdge_applyCityWeather (d : ℤ) (r : ℚ) (city : String) (g : Graph ℚ)
    (hnd : (keysOf (neighborsOf g city)).Nodup) (hself : lookupEdge g city city = none)
    (x y : String) :
    lookupEdge (applyCityWeather d r city g) x y =
      if x = city ∧ y ∈ keysOf (neighborsOf g city) then
        (lookupEdge g city y).map (fwdUpd d r)
      else if y = city ∧ x ∈ keysOf (neighborsOf g city) then some (revVal d r city x g)
      else lookupEdge g x y :=
  lookupEdge_foldAN d r city (keysOf (neighborsOf g city)) g hnd
    (city_not_mem_neighbors hself) x y

theorem adjNodup_foldAN (d : ℤ) (r : ℚ) (city : String) :
    ∀ (L : List String) (g : Graph ℚ), AdjNodup g → city ∉ L →
      AdjNodup (L.foldl (fun acc nb => applyNeighbor d r city nb acc) g)
  | [], g, h, _ => h
  | nb :: L2, g, h, hcm =>
    adjNodup_foldAN d r city L2 (applyNeighbor d r city nb g)
      (adjNodup_applyNeighbor h d r (fun hh => hcm (hh ▸ List.mem_cons_self nb L2)))
      (fun hh => hcm (List.mem_cons_of_mem nb hh))

theorem noSelf_foldAN (d : ℤ) (r : ℚ) (city : String) :
    ∀ (L : List String) (g : Graph ℚ), NoSelf g → city ∉ L →
      NoSelf (L.foldl (fun acc nb => applyNeighbor d r city nb acc) g)
  | [], g, h, _ => h
  | nb :: L2, g, h, hcm =>
    noSelf_foldAN d r city L2 (applyNeighbor d r city nb g)
      (noSelf_applyNeighbor h d r (fun hh => hcm (hh ▸ List.mem_cons_self nb L2)))
      (fun hh => hcm (List.mem_cons_of_mem nb hh))

theorem adjNodup_applyCityWeather {g : Graph ℚ} (hnd : AdjNodup g) (hns : NoSelf g)
    (d : ℤ) (r : ℚ) (city : String) : AdjNodup (applyCityWeather d r city g) :=
  adjNodup_foldAN d r city (keysOf (neighborsOf g city)) g hnd
    (city_not_mem_neighbors (hns city))

theorem noSelf_applyCityWeather {g : Graph ℚ} (hnd : AdjNodup g) (hns : NoSelf g)
    (d : ℤ) (r : ℚ) (city : String) : NoSelf (applyCityWeather d r city g) :=
  noSelf_foldAN d r city (keysOf (neighborsOf g city)) g hns
    (city_not_mem_neighbors (hns city))

theorem adjNodup_sweep (w : String → ℤ × ℚ) :
    ∀ (L : List String) (g : Graph ℚ), AdjNodup g → NoSelf g →
      AdjNodup (sweep w L g) ∧ NoSelf (sweep w L g)
  | [], g, h1, h2 => ⟨h1, h2⟩
  | c :: L2, g, h1, h2 =>
    adjNodup_sweep w L2 (applyCityWeather (w c).1 (w c).2 c g)
      (adjNodup_applyCityWeather h1 h2 (w c).1 (w c).2 c)
      (noSelf_applyCityWeather h1 h2 (w c).1 (w c).2 c)

/-! ### Sweep invariants and the weather claims -/

theorem symFor_mono {g : Graph ℚ} {P Q : String → Prop} (h : SymFor g P)
    (hq : ∀ c, Q c → P c) : SymFor g Q :=
  fun c hc => h c (hq c hc)

theorem mem_neighbors_of_lookupEdge {α : Type} {g : Graph α} {a b : String} {e : Edge α}
    (h : lookupEdge g a b = some e) : b ∈ keysOf (neighborsOf g a) := by
  apply (lookupA_isSome_iff_mem (neighborsOf g a) b).mp
  rw [show lookupA (neighborsOf g a) b = lookupEdge g a b from rfl, h]
  rfl

theorem lookupEdge_isSome_of_mem_neighbors {α : Type} {g : Graph α} {a b : String}
    (h : b ∈ keysOf (neighborsOf g a)) : (lookupEdge g a b).isSome = true :=
  (lookupA_isSome_iff_mem _ _).mpr h

theorem source_mem_keys_of_lookupEdge {α : Type} {g : Graph α} {a b : String} {e : Edge α}
    (h : lookupEdge g a b = some e) : a ∈ keysOf g := by
  apply (lookupA_isSome_iff_mem g a).mp
  rcases hg : lookupA g a with _ | nbrs
  · rw [show lookupEdge g a b = none from by unfold lookupEdge neighborsOf; rw [hg]; rfl] at h
    exact Option.noConfusion h
  · rfl

theorem symFor_applyCityWeather {g : Graph ℚ} (hnd : AdjNodup g) (hns : NoSelf g)
    {P : String → Prop} (hsym : SymFor g P) (d : ℤ) (r : ℚ) (city : String) :
    SymFor (applyCityWeather d r city g) (fun c => c = city ∨ P c) := by
  intro c hc n e he
  have hspec := fun u v => lookupEdge_applyCityWeather d r city g (hnd city) (hns city) u v
  rw [hspec c n] at he
  by_cases h1 : c = city ∧ n ∈ keysOf (neighborsOf g city)
  · rw [if_pos h1] at he
    obtain ⟨e0, he0, hfe⟩ := Option.map_eq_some'.mp he
    have hnnec : n ≠ city := fun hh => city_not_mem_neighbors (hns city) (hh ▸ h1.2)
    refine ⟨revVal d r city n g, ?_, ?_, ?_⟩
    · rw [hspec n c]
      rw [if_neg (fun hcc => hnnec hcc.1), if_pos ⟨h1.1, h1.2⟩]
    · rw [← hfe]
      exact ((fwdUpd_weather_risk d r e0).1).trans ((revVal_weather_risk d r city n g).1).symm
    · rw [← hfe]
      exact ((fwdUpd_weather_risk d r e0).2).trans ((revVal_weather_risk d r city n g).2).symm
  · rw [if_neg h1] at he
    by_cases h2 : n = city ∧ c ∈ keysOf (neighborsOf g city)
    · rw [if_pos h2] at he
      obtain ⟨ef, hef⟩ := Option.isSome_iff_exists.mp (lookupEdge_isSome_of_mem_neighbors h2.2)
      refine ⟨fwdUpd d r ef, ?_, ?_, ?_⟩
      · rw [hspec n c]
        rw [if_pos ⟨h2.1, h2.2⟩, hef]
        rfl
      · rw [← Option.some.inj he]
        rw [(revVal_weather_risk d r city c g).1, (fwdUpd_weather_risk d r ef).1]
      · rw [← Option.some.inj he]
        rw [(revVal_weather_risk d r city c g).2, (fwdUpd_weather_risk d r ef).2]
    · rw [if_neg h2] at he
      rcases hc with hcc | hcp
      · exact absurd ⟨hcc, hcc ▸ mem_neighbors_of_lookupEdge he⟩ h1
      · obtain ⟨e2, he2, hw, hr⟩ := hsym c hcp n e he
        refine ⟨e2, ?_, hw, hr⟩
        rw [hspec n c]
        rw [if_neg (fun hcc => h2 hcc), if_neg (fun hcc => h1 hcc), he2]

theorem symFor_sweep (w : String → ℤ × ℚ) :
    ∀ (L : List String) (g : Graph ℚ) (P : String → Prop), AdjNodup g → NoSelf g →
      SymFor g P → SymFor (sweep w L g) (fun c => c ∈ L ∨ P c)
  | [], _, _, _, _, h => symFor_mono h (fun c hc => by
      rcases hc with hh | hh
      · exact absurd hh (List.not_mem_nil c)
      · exact hh)
  | x :: L2, g, P, h1, h2, hsym => by
    have step := symFor_applyCityWeather h1 h2 hsym (w x).1 (w x).2 x
    have ih := symFor_sweep w L2 (applyCityWeather (w x).1 (w x).2 x g)
      (fun c => c = x ∨ P c)
      (adjNodup_applyCityWeather h1 h2 (w x).1 (w x).2 x)
      (noSelf_applyCityWeather h1 h2 (w x).1 (w x).2 x) step
    exact symFor_mono ih (fun c hc => by
      rcases hc with hh | hh
      · rcases List.mem_cons.mp hh with h3 | h3
        · exact Or.inr (Or.inl h3)
        · exact Or.inl h3
      · exact Or.inr (Or.inr hh))

theorem writtenFor_applyCityWeather {w : String → ℤ × ℚ} {g0 g : Graph ℚ} {S : List String}
    (hw : WrittenFor w g0 g S) (hnd : AdjNodup g) (hns : NoSelf g) (x : String) :
    WrittenFor w g0 (applyCityWeather (w x).1 (w x).2 x g) (x :: S) := by
  intro a b e he
  have hspec := fun u v => lookupEdge_applyCityWeather (w x).1 (w x).2 x g (hnd x) (hns x) u v
  rw [hspec a b] at he
  by_cases h1 : a = x ∧ b ∈ keysOf (neighborsOf g x)
  · rw [if_pos h1] at he
    obtain ⟨e0, he0, hfe⟩ := Option.map_eq_some'.mp he
    exact Or.inl ⟨x, List.mem_cons_self x S,
      by rw [← hfe]; exact (fwdUpd_weather_risk _ _ e0).1,
      by rw [← hfe]; exact (fwdUpd_weather_risk _ _ e0).2⟩
  · rw [if_neg h1] at he
    by_cases h2 : b = x ∧ a ∈ keysOf (neighborsOf g x)
    · rw [if_pos h2] at he
      have he' : e = revVal (w x).1 (w x).2 x a g := (Option.some.inj he).symm
      exact Or.inl ⟨x, List.mem_cons_self x S,
        by rw [he']; exact (revVal_weather_risk _ _ x a g).1,
        by rw [he']; exact (revVal_weather_risk _ _ x a g).2⟩
    · rw [if_neg h2] at he
      rcases hw a b e he with ⟨x2, hx2, hv⟩ | ⟨horig, hnm⟩
      · exact Or.inl ⟨x2, List.mem_cons_of_mem x hx2, hv⟩
      · refine Or.inr ⟨horig, fun hmem => ?_⟩
        rcases List.mem_cons.mp hmem with h3 | h3
        · exact h1 ⟨h3, h3 ▸ mem_neighbors_of_lookupEdge he⟩
        · exact hnm h3

theorem writtenFor_congr {w : String → ℤ × ℚ} {g0 g : Graph ℚ} {S S2 : List String}
    (hss : ∀ y, y ∈ S ↔ y ∈ S2) (h : WrittenFor w g0 g S) : WrittenFor w g0 g S2 := by
  intro a b e he
  rcases h a b e he with ⟨x, hx, hv⟩ | ⟨ho, hn⟩
  · exact Or.inl ⟨x, (hss x).mp hx, hv⟩
  · exact Or.inr ⟨ho, fun hm => hn ((hss a).mpr hm)⟩

theorem writtenFor_sweep (w : String → ℤ × ℚ) (g0 : Graph ℚ) :
    ∀ (L : List String) (g : Graph ℚ) (S : List String), AdjNodup g → NoSelf g →
      WrittenFor w g0 g S → WrittenFor w g0 (sweep w L g) (L ++ S)
  | [], _, _, _, _, h => h
  | x :: L2, g, S, h1, h2, hw => by
    have step := writtenFor_applyCityWeather hw h1 h2 x
    have ih := writtenFor_sweep w g0 L2 (applyCityWeather (w x).1 (w x).2 x g) (x :: S)
      (adjNodup_applyCityWeather h1 h2 (w x).1 (w x).2 x)
      (noSelf_applyCityWeather h1 h2 (w x).1 (w x).2 x) step
    exact writtenFor_congr (by intro y; simp; tauto) ih

theorem dt_applyCityWeather {g : Graph ℚ} (hnd : AdjNodup g) (hns : NoSelf g)
    (d : ℤ) (r : ℚ) (city : String) {a b : String} {e : Edge ℚ}
    (he : lookupEdge g a b = some e) :
    ∃ e2, lookupEdge (applyCityWeather d r city g) a b = some e2 ∧
      e2.distance_km = e.distance_km ∧ e2.traffic_min = e.traffic_min := by
  rw [lookupEdge_applyCityWeather d r city g (hnd city) (hns city) a b]
  by_cases h1 : a = city ∧ b ∈ keysOf (neighborsOf g city)
  · rw [if_pos h1]
    refine ⟨fwdUpd d r e, ?_, rfl, rfl⟩
    rw [show lookupEdge g city b = some e from h1.1 ▸ he]
    rfl
  · rw [if_neg h1]
    by_cases h2 : b = city ∧ a ∈ keysOf (neighborsOf g city)
    · rw [if_pos h2]
      refine ⟨revVal d r city a g, rfl, ?_, ?_⟩
      · unfold revVal
        rw [show lookupEdge g a city = some e from h2.1 ▸ he]
        rfl
      · unfold revVal
        rw [show lookupEdge g a city = some e from h2.1 ▸ he]
        rfl
    · rw [if_neg h2]
      exact ⟨e, he, rfl, rfl⟩

theorem dt_sweep (w : String → ℤ × ℚ) :
    ∀ (L : List String) (g : Graph ℚ), AdjNodup g → NoSelf g →
      ∀ a b e, lookupEdge g a b = some e →
      ∃ e2, lookupEdge (sweep w L g) a b = some e2 ∧
        e2.distance_km = e.distance_km ∧ e2.traffic_min = e.traffic_min
  | [], _, _, _, _, _, e, he => ⟨e, he, rfl, rfl⟩
  | x :: L2, g, h1, h2, a, b, e, he => by
    obtain ⟨e1, he1, hd1, ht1⟩ := dt_applyCityWeather h1 h2 (w x).1 (w x).2 x he
    obtain ⟨e2, he2, hd2, ht2⟩ := dt_sweep w L2 (applyCityWeather (w x).1 (w x).2 x g)
      (adjNodup_applyCityWeather h1 h2 (w x).1 (w x).2 x)
      (noSelf_applyCityWeather h1 h2 (w x).1 (w x).2 x) a b e1 he1
    exact ⟨e2, he2, hd2.trans hd1, ht2.trans ht1⟩

theorem sweep_creation (w : String → ℤ × ℚ) :
    ∀ (L : List String) (g : Graph ℚ), AdjNodup g → NoSelf g → L.Nodup →
      ∀ c n e0, c ∈ L → lookupEdge g c n = some e0 → lookupEdge g n c = none →
      ∃ e, lookupEdge (sweep w L g) n c = some e ∧
        e.distance_km = e0.distance_km ∧ e.traffic_min = e0.traffic_min
  | [], _, _, _, _, c, _, _, hcL, _, _ => absurd hcL (List.not_mem_nil c)
  | x :: L2, g, h1, h2, hnd, c, n, e0, hcL, hfwd, hrevn => by
    have hspec := fun u v =>
      lookupEdge_applyCityWeather (w x).1 (w x).2 x g (h1 x) (h2 x) u v
    by_cases hcx : c = x
    · have hnnec : n ≠ c := by
        intro hh
        rw [hh] at hfwd
        rw [h2 c] at hfwd
        exact Option.noConfusion hfwd
      have hmem : n ∈ keysOf (neighborsOf g x) := by
        have := mem_neighbors_of_lookupEdge hfwd
        rwa [hcx] at this
      have hval : lookupEdge (applyCityWeather (w x).1 (w x).2 x g) n c =
          some ⟨e0.distance_km, e0.traffic_min, (((w x).1 : ℤ) : ℚ), (w x).2⟩ := by
        rw [hspec n c]
        rw [if_neg (fun hcc => hnnec (hcc.1.trans hcx.symm))]
        rw [if_pos ⟨hcx, hmem⟩]
        unfold revVal
        rw [show lookupEdge g n x = none from hcx ▸ hrevn]
        rw [show lookupEdge g x n = some e0 from hcx ▸ hfwd]
      obtain ⟨e2, he2, hd, ht⟩ := dt_sweep w L2 (applyCityWeather (w x).1 (w x).2 x g)
        (adjNodup_applyCityWeather h1 h2 (w x).1 (w x).2 x)
        (noSelf_applyCityWeather h1 h2 (w x).1 (w x).2 x) n c _ hval
      exact ⟨e2, he2, hd, ht⟩
    · have hcL2 : c ∈ L2 := by
        rcases List.mem_cons.mp hcL with h3 | h3
        · exact absurd h3 hcx
        · exact h3
      obtain ⟨e1, he1, hd1, ht1⟩ := dt_applyCityWeather h1 h2 (w x).1 (w x).2 x hfwd
      have hb1 : ¬(n = x ∧ c ∈ keysOf (neighborsOf g x)) := by
        intro hcc
        have hs := lookupEdge_isSome_of_mem_neighbors hcc.2
        rw [← hcc.1, hrevn] at hs
        simp at hs
      have hb2 : ¬(c = x ∧ n ∈ keysOf (neighborsOf g x)) := fun hcc => hcx hcc.1
      have hrev2 : lookupEdge (applyCityWeather (w x).1 (w x).2 x g) n c = none := by
        rw [hspec n c, if_neg hb1, if_neg hb2]
        exact hrevn
      obtain ⟨e2, he2, hd2, ht2⟩ := sweep_creation w L2 (applyCityWeather (w x).1 (w x).2 x g)
        (adjNodup_applyCityWeather h1 h2 (w x).1 (w x).2 x)
        (noSelf_applyCityWeather h1 h2 (w x).1 (w x).2 x)
        (List.nodup_cons.mp hnd).2 c n e1 hcL2 he1 hrev2
      exact ⟨e2, he2, hd2.trans hd1, ht2.trans ht1⟩

theorem adjNodup_GRAPH : AdjNodup GRAPH := by
  intro c
  by_cases hc : c ∈ keysOf GRAPH
  · simp only [GRAPH, keysOf, List.map_cons, List.map_nil, List.mem_cons,
      List.not_mem_nil, or_false] at hc
    rcases hc with rfl | rfl | rfl | rfl | rfl | rfl | rfl | rfl | rfl | rfl <;> decide
  · unfold neighborsOf
    rw [lookupA_eq_none_of_not_mem hc]
    exact List.nodup_nil

theorem noSelf_GRAPH : NoSelf GRAPH := by
  intro c
  by_cases hc : c ∈ keysOf GRAPH
  · simp only [GRAPH, keysOf, List.map_cons, List.map_nil, List.mem_cons,
      List.not_mem_nil, or_false] at hc
    rcases hc with rfl | rfl | rfl | rfl | rfl | rfl | rfl | rfl | rfl | rfl <;> decide
  · unfold lookupEdge neighborsOf
    rw [lookupA_eq_none_of_not_mem hc]
    rfl

theorem cityNames_nodup : cityNames.Nodup := by decide

/-- Claim C5: after the weather-ingestion sweep, for every known city c and
every neighbor n of c in the updated graph, the forward edge (c, n) and the
reverse edge (n, c) carry identical weather_min and risk; and whenever the
reverse edge (n, c) was missing before the sweep, it now exists with
distance_km and traffic_min mirrored from the pre-sweep forward edge (c, n)
(which the sweep never modifies). This holds for every weather outcome w. -/
theorem C5_weather_sweep_symmetry (w : String → ℤ × ℚ) (c n : String)
    (hc : c ∈ cityNames) :
    (∀ e, lookupEdge (update_weather w GRAPH) c n = some e →
      ∃ e2, lookupEdge (update_weather w GRAPH) n c = some e2 ∧
        e.weather_min = e2.weather_min ∧ e.risk = e2.risk) ∧
    (∀ e0, lookupEdge GRAPH c n = some e0 → lookupEdge GRAPH n c = none →
      ∃ e, lookupEdge (update_weather w GRAPH) n c = some e ∧
        e.distance_km = e0.distance_km ∧ e.traffic_min = e0.traffic_min) := by
  constructor
  · intro e he
    have hs := symFor_sweep w cityNames GRAPH (fun _ => False) adjNodup_GRAPH noSelf_GRAPH
      (fun _ hf => hf.elim)
    exact hs c (Or.inl hc) n e he
  · intro e0 h1 h2
    exact sweep_creation w cityNames GRAPH adjNodup_GRAPH noSelf_GRAPH cityNames_nodup
      c n e0 hc h1 h2

/-- Witness for C5: the dataset lacks the reverse edge Karimnagar → Siddipet;
after any sweep it exists, mirroring distance 130 and traffic 12 from
Siddipet → Karimnagar. -/
theorem C5_witness :
    ∃ e, lookupEdge (update_weather (fun _ => (5, 21 / 20)) GRAPH) "Karimnagar" "Siddipet" =
      some e ∧ e.distance_km = 130 ∧ e.traffic_min = 12 :=
  (C5_weather_sweep_symmetry (fun _ => (5, 21 / 20)) "Siddipet" "Karimnagar" (by decide)).2
    ⟨130, 12, 1, 21 / 20⟩ (by simp [lookupEdge, lookupA, neighborsOf, GRAPH]) (by decide)

/-- Claim C9: after the sweep, every edge of the updated dataset graph
carries an integral weather_min in [0, 30] and a risk in [1.00, 1.30],
whenever the per-city weather values come from the category-to-delay table of
weather_utils.py. -/
theorem C9_weather_bounds (w : String → ℤ × ℚ) (hw : ∀ c ∈ cityNames, TableOutput (w c))
    (a b : String) (e : Edge ℚ)
    (he : lookupEdge (update_weather w GRAPH) a b = some e) :
    (∃ k : ℤ, e.weather_min = (k : ℚ) ∧ 0 ≤ k ∧ k ≤ 30) ∧ 1 ≤ e.risk ∧ e.risk ≤ 13 / 10 := by
  have base : WrittenFor w GRAPH GRAPH [] :=
    fun a2 _ _ he2 => Or.inr ⟨he2, List.not_mem_nil a2⟩
  have hfin := writtenFor_sweep w GRAPH cityNames GRAPH [] adjNodup_GRAPH noSelf_GRAPH base
  rw [List.append_nil] at hfin
  rcases hfin a b e he with ⟨x, hx, hwv, hrv⟩ | ⟨horig, hnm⟩
  · have ht := hw x hx
    refine ⟨⟨(w x).1, hwv, ?_, ?_⟩, ?_, ?_⟩
    · rcases ht with h | h | h | h | h <;> omega
    · rcases ht with h | h | h | h | h <;> omega
    · rw [hrv]
      rcases ht with h | h | h | h | h <;> linarith [h.2.2.1]
    · rw [hrv]
      rcases ht with h | h | h | h | h <;> linarith [h.2.2.2]
  · exact absurd ((by decide : ∀ x2 ∈ keysOf GRAPH, x2 ∈ cityNames) a
      (source_mem_keys_of_lookupEdge horig)) hnm

/-- Witness for C9 on the created Karimnagar → Siddipet edge under a fair
drizzle-category weather outcome. -/
theorem C9_witness :
    ∃ e, lookupEdge (update_weather (fun _ => (5, 21 / 20)) GRAPH) "Karimnagar" "Siddipet" =
      some e ∧ (∃ k : ℤ, e.weather_min = (k : ℚ) ∧ 0 ≤ k ∧ k ≤ 30) ∧
      1 ≤ e.risk ∧ e.risk ≤ 13 / 10 := by
  obtain ⟨e, he, _, _⟩ := sweep_creation (fun _ => (5, 21 / 20)) cityNames GRAPH adjNodup_GRAPH
    noSelf_GRAPH cityNames_nodup "Siddipet" "Karimnagar" ⟨130, 12, 1, 21 / 20⟩ (by decide)
    (by simp [lookupEdge, lookupA, neighborsOf, GRAPH]) (by decide)
  exact ⟨e, he, C9_weather_bounds (fun _ => (5, 21 / 20))
    (fun _ _ => Or.inr (Or.inr (Or.inl (by norm_num [TableOutput]))))
    "Karimnagar" "Siddipet" e he⟩

/-! ### A* search: basic list, walk and heap lemmas -/

theorem lookupA_mem {β : Type} {l : List (String × β)} {k : String} {v : β}
    (h : lookupA l k = some v) : (k, v) ∈ l := by
  induction l with
  | nil => simp [lookupA] at h
  | cons kv rest ih =>
    obtain ⟨a, b⟩ := kv
    by_cases ha : a = k
    · subst ha
      rw [show lookupA ((a, b) :: rest) a = some b from by simp [lookupA]] at h
      injection h with h2
      subst h2
      exact List.mem_cons_self _ _
    · simp only [lookupA, if_neg ha] at h
      exact List.mem_cons_of_mem _ (ih h)

theorem lookupA_eq_of_mem_nodup {β : Type} {l : List (String × β)} {k : String} {v : β}
    (hm : (k, v) ∈ l) (hnd : (l.map Prod.fst).Nodup) : lookupA l k = some v := by
  induction l with
  | nil => simp at hm
  | cons kv rest ih =>
    obtain ⟨a, b⟩ := kv
    simp only [List.map_cons, List.nodup_cons] at hnd
    rcases List.mem_cons.mp hm with h1 | h1
    · rw [← h1]
      simp [lookupA]
    · have hak : a ≠ k := by
        rintro rfl
        exact hnd.1 (List.mem_map.mpr ⟨(a, v), h1, rfl⟩)
      simp only [lookupA, if_neg hak]
      exact ih h1 hnd.2

theorem edge_mem_of_lookupEdge {α : Type} {g : Graph α} {a b : String} {e : Edge α}
    (he : lookupEdge g a b = some e) : ∃ nbrs, (a, nbrs) ∈ g ∧ (b, e) ∈ nbrs := by
  rcases hga : lookupA g a with _ | nbrs
  · rw [show lookupEdge g a b = none from by
      unfold lookupEdge neighborsOf; rw [hga]; rfl] at he
    exact Option.noConfusion he
  · have hb : lookupA nbrs b = some e := by
      simpa [lookupEdge, neighborsOf, hga] using he
    exact ⟨nbrs, lookupA_mem hga, lookupA_mem hb⟩

theorem edge_cost_nonneg {α : Type} [LinearOrderedField α] {g : Graph α}
    (hnn : NonnegGraph g) {a b : String} {e : Edge α}
    (he : lookupEdge g a b = some e) : 0 ≤ edge_cost_minutes e := by
  obtain ⟨nbrs, hg, hb⟩ := edge_mem_of_lookupEdge he
  obtain ⟨h1, h2, h3, h4⟩ := hnn (a, nbrs) hg (b, e) hb
  have hb0 : (0 : α) ≤ e.distance_km / KM_PER_MIN α + e.traffic_min + e.weather_min := by
    have hd : (0 : α) ≤ e.distance_km / KM_PER_MIN α := by
      apply div_nonneg h1
      norm_num [KM_PER_MIN]
    linarith
  exact mul_nonneg hb0 h4

theorem walkCost_nonneg {α : Type} [LinearOrderedField α] {g : Graph α}
    (hnn : NonnegGraph g) :
    ∀ p : List String, walkOK g p = true → 0 ≤ walkCost g p := by
  intro p
  induction p with
  | nil => intro _; simp [walkCost]
  | cons a rest ih =>
    cases rest with
    | nil => intro _; simp [walkCost]
    | cons b rest2 =>
      intro h
      obtain ⟨h1, h2⟩ := walkOK_cons.mp h
      obtain ⟨e, he⟩ := Option.isSome_iff_exists.mp h1
      rw [walkCost_cons he]
      exact add_nonneg (edge_cost_nonneg hnn he) (ih h2)

theorem walkOK_append_edge {α : Type} {g : Graph α} {m n : String} {e : Edge α} :
    ∀ {p : List String}, walkOK g p = true → p.getLast? = some m →
      lookupEdge g m n = some e → walkOK g (p ++ [n]) = true := by
  intro p
  induction p with
  | nil => intro _ h2 _; simp at h2
  | cons a rest ih =>
    cases rest with
    | nil =>
      intro _ h2 h3
      simp only [List.getLast?_singleton, Option.some.injEq] at h2
      subst h2
      simp [walkOK, h3]
    | cons b rest2 =>
      intro h1 h2 h3
      obtain ⟨ha, hb⟩ := walkOK_cons.mp h1
      rw [List.cons_append]
      rw [show (b :: rest2) ++ [n] = b :: (rest2 ++ [n]) from rfl] at *
      apply walkOK_cons.mpr
      refine ⟨ha, ?_⟩
      rw [List.getLast?_cons_cons] at h2
      exact ih hb h2 h3

theorem walkCost_append_edge {α : Type} [LinearOrderedField α] {g : Graph α}
    {m n : String} {e : Edge α} :
    ∀ {p : List String}, walkOK g p = true → p.getLast? = some m →
      lookupEdge g m n = some e →
      walkCost g (p ++ [n]) = walkCost g p + edge_cost_minutes e := by
  intro p
  induction p with
  | nil => intro _ h2 _; simp at h2
  | cons a rest ih =>
    cases rest with
    | nil =>
      intro _ h2 h3
      simp only [List.getLast?_singleton, Option.some.injEq] at h2
      subst h2
      rw [show ([a] : List String) ++ [n] = a :: n :: [] from rfl, walkCost_cons h3]
      simp [walkCost]
    | cons b rest2 =>
      intro h1 h2 h3
      obtain ⟨ha, hb⟩ := walkOK_cons.mp h1
      obtain ⟨e2, he2⟩ := Option.isSome_iff_exists.mp ha
      rw [List.getLast?_cons_cons] at h2
      rw [List.cons_append, show (b :: rest2) ++ [n] = b :: (rest2 ++ [n]) from rfl,
        walkCost_cons he2]
      have hih := ih hb h2 h3
      rw [List.cons_append] at hih
      rw [hih, walkCost_cons he2]
      ring

theorem walkCost_take_le {α : Type} [LinearOrderedField α] {g : Graph α}
    (hnn : NonnegGraph g) :
    ∀ (p : List String), walkOK g p = true → ∀ k, walkCost g (p.take k) ≤ walkCost g p := by
  intro p
  induction p with
  | nil => intro _ k; simp [walkCost]
  | cons a rest ih =>
    cases rest with
    | nil =>
      intro _ k
      cases k with
      | zero => simp [walkCost]
      | succ k2 => simp [walkCost]
    | cons b rest2 =>
      intro h k
      obtain ⟨ha, hb⟩ := walkOK_cons.mp h
      obtain ⟨e, he⟩ := Option.isSome_iff_exists.mp ha
      cases k with
      | zero =>
        simpa [walkCost] using walkCost_nonneg hnn _ h
      | succ k2 =>
        cases k2 with
        | zero =>
          rw [show (a :: b :: rest2).take 1 = [a] from rfl]
          simpa [walkCost] using walkCost_nonneg hnn _ h
        | succ k3 =>
          rw [show (a :: b :: rest2).take (k3 + 2) = a :: (b :: rest2).take (k3 + 1) from rfl]
          rw [show (b :: rest2).take (k3 + 1) = b :: rest2.take k3 from rfl]
          rw [walkCost_cons he, walkCost_cons he]
          have := ih hb (k3 + 1)
          rw [show (b :: rest2).take (k3 + 1) = b :: rest2.take k3 from rfl] at this
          linarith

theorem domination_mono {α : Type} [LinearOrderedField α] {g : Graph α}
    {gs gs' : List (String × α)}
    (hmono : ∀ n v, lookupA gs n = some v → ∃ v', lookupA gs' n = some v' ∧ v' ≤ v)
    {p : List String} (hd : Domination g gs p) : Domination g gs' p := by
  intro i
  obtain ⟨u, hu, hle⟩ := hd i
  obtain ⟨v', hv', hle'⟩ := hmono _ _ hu
  exact ⟨v', hv', le_trans hle' hle⟩

theorem witnessed_mono {α : Type} [LinearOrderedField α] {g : Graph α} {s : String}
    {gs gs' : List (String × α)}
    (hmono : ∀ n v, lookupA gs n = some v → ∃ v', lookupA gs' n = some v' ∧ v' ≤ v)
    {v : α} {n : String} (hw : Witnessed g s gs v n) : Witnessed g s gs' v n := by
  obtain ⟨p, hp1, hp2, hp3⟩ := hw
  exact ⟨p, hp1, hp2, domination_mono hmono hp3⟩

theorem setA_lookup_mono {α : Type} [LinearOrderedField α] {gs : List (String × α)}
    {nb : String} {tg : α}
    (hcond : ∀ v0, lookupA gs nb = some v0 → tg ≤ v0) :
    ∀ n v, lookupA gs n = some v → ∃ v', lookupA (setA gs nb tg) n = some v' ∧ v' ≤ v := by
  intro n v hv
  by_cases hn : n = nb
  · subst hn
    exact ⟨tg, lookupA_setA_self gs n tg, hcond v hv⟩
  · exact ⟨v, by rw [lookupA_setA_ne gs nb n tg hn]; exact hv, le_refl v⟩

theorem mem_setA_of_ne {β : Type} {l : List (String × β)} {k n : String} {w v : β}
    (h : (n, v) ∈ setA l k w) (hne : n ≠ k) : (n, v) ∈ l := by
  induction l with
  | nil =>
    simp only [setA, List.mem_singleton, Prod.mk.injEq] at h
    exact absurd h.1 hne
  | cons kv rest ih =>
    obtain ⟨a, b⟩ := kv
    by_cases ha : a = k
    · rw [show setA ((a, b) :: rest) k w = (a, w) :: rest from by simp [setA, ha]] at h
      rcases List.mem_cons.mp h with h1 | h1
      · rw [Prod.mk.injEq] at h1
        exact absurd (h1.1.trans ha) hne
      · exact List.mem_cons_of_mem _ h1
    · rw [show setA ((a, b) :: rest) k w = (a, b) :: setA rest k w from by simp [setA, ha]] at h
      rcases List.mem_cons.mp h with h1 | h1
      · exact List.mem_cons.mpr (Or.inl h1)
      · exact List.mem_cons_of_mem _ (ih h1)

theorem nodup_keys_setA {β : Type} {l : List (String × β)} (k : String) (v : β)
    (h : (l.map Prod.fst).Nodup) : ((setA l k v).map Prod.fst).Nodup := by
  have hk := keysOf_setA l k v
  unfold keysOf at hk
  rw [hk]
  by_cases hm : k ∈ l.map Prod.fst
  · rwa [if_pos hm]
  · rw [if_neg hm]
    apply List.Nodup.append h (List.nodup_singleton k)
    intro a ha hak
    rw [List.mem_singleton] at hak
    subst hak
    exact hm ha

theorem entLt_true_fst_le {α : Type} [LinearOrder α] {x y : α × α × String}
    (h : entLt x y = true) : x.1 ≤ y.1 := by
  unfold entLt at h
  split_ifs at h with h1 h2 h3 h4
  all_goals first
    | exact le_of_lt h1
    | exact le_of_not_lt h2
    | simp at h

theorem entLt_false_fst_le {α : Type} [LinearOrder α] {x y : α × α × String}
    (h : entLt x y = false) : y.1 ≤ x.1 := by
  unfold entLt at h
  split_ifs at h with h1 h2 h3 h4
  all_goals first
    | exact le_of_lt h2
    | exact le_of_not_lt h1
    | simp at h

theorem findMin_fst_le {α : Type} [LinearOrder α] :
    ∀ (xs : List (α × α × String)) (x : α × α × String),
      (findMin x xs).1 ≤ x.1 ∧ ∀ y ∈ xs, (findMin x xs).1 ≤ y.1 := by
  intro xs
  induction xs with
  | nil => intro x; exact ⟨le_refl _, by simp⟩
  | cons y rest ih =>
    intro x
    unfold findMin
    by_cases h : entLt y x = true
    · rw [if_pos h]
      obtain ⟨ha, hb⟩ := ih y
      refine ⟨le_trans ha (entLt_true_fst_le h), ?_⟩
      intro z hz
      rcases List.mem_cons.mp hz with rfl | hz2
      · exact ha
      · exact hb z hz2
    · rw [if_neg h]
      have h' : entLt y x = false := by
        revert h; cases entLt y x <;> simp
      obtain ⟨ha, hb⟩ := ih x
      refine ⟨ha, ?_⟩
      intro z hz
      rcases List.mem_cons.mp hz with rfl | hz2
      · exact le_trans ha (entLt_false_fst_le h')
      · exact hb z hz2

theorem findMin_mem {α : Type} [LinearOrder α] :
    ∀ (xs : List (α × α × String)) (x : α × α × String), findMin x xs ∈ x :: xs := by
  intro xs
  induction xs with
  | nil => intro x; simp [findMin]
  | cons y rest ih =>
    intro x
    unfold findMin
    by_cases h : entLt y x = true
    · rw [if_pos h]
      exact List.mem_cons_of_mem x (ih y)
    · rw [if_neg h]
      rcases List.mem_cons.mp (ih x) with h1 | h1
      · rw [h1]; exact List.mem_cons_self _ _
      · exact List.mem_cons_of_mem _ (List.mem_cons_of_mem _ h1)

theorem popMin_some {α : Type} [LinearOrder α] {l : List (α × α × String)}
    {m : α × α × String} {rest : List (α × α × String)}
    (h : popMin l = some (m, rest)) :
    m ∈ l ∧ rest = l.erase m ∧ (∀ y ∈ l, m.1 ≤ y.1) := by
  cases l with
  | nil => simp [popMin] at h
  | cons x xs =>
    unfold popMin at h
    simp only [Option.some.injEq, Prod.mk.injEq] at h
    obtain ⟨h1, h2⟩ := h
    subst h1
    subst h2
    refine ⟨findMin_mem xs x, rfl, ?_⟩
    intro y hy
    obtain ⟨ha, hb⟩ := findMin_fst_le xs x
    rcases List.mem_cons.mp hy with rfl | hy2
    · exact ha
    · exact hb y hy2

theorem acyclicCF_nil : AcyclicCF [] := by
  intro n h
  have hno : ∀ a b : String, ¬ cfStep ([] : List (String × String)) a b := by
    intro a b hs
    simp [cfStep, lookupA] at hs
  cases h with
  | single h1 => exact hno _ _ h1
  | tail _ h2 => exact hno _ _ h2

theorem transGen_setA_decomp {cf : List (String × String)} {nb cur : String} :
    ∀ {a b : String}, Relation.TransGen (cfStep (setA cf nb cur)) a b →
      Relation.TransGen (cfStep cf) a b ∨
        (Relation.ReflTransGen (cfStep cf) a nb ∧
          Relation.ReflTransGen (cfStep cf) cur b) := by
  intro a b h
  induction h with
  | single h1 =>
    by_cases ha : a = nb
    · subst ha
      unfold cfStep at h1
      rw [lookupA_setA_self] at h1
      injection h1 with h2
      right
      exact ⟨Relation.ReflTransGen.refl, h2 ▸ Relation.ReflTransGen.refl⟩
    · left
      apply Relation.TransGen.single
      unfold cfStep at h1 ⊢
      rwa [lookupA_setA_ne cf nb a cur ha] at h1
  | tail hab hbc ih =>
    rename_i b2 c2
    by_cases hb : b2 = nb
    · subst hb
      unfold cfStep at hbc
      rw [lookupA_setA_self] at hbc
      injection hbc with h2
      right
      subst h2
      rcases ih with h3 | h3
      · exact ⟨h3.to_reflTransGen, Relation.ReflTransGen.refl⟩
      · exact ⟨h3.1, Relation.ReflTransGen.refl⟩
    · have hstep : cfStep cf b2 c2 := by
        unfold cfStep at hbc ⊢
        rwa [lookupA_setA_ne cf nb b2 cur hb] at hbc
      rcases ih with h3 | h3
      · exact Or.inl (h3.tail hstep)
      · exact Or.inr ⟨h3.1, h3.2.tail hstep⟩

theorem acyclicCF_setA {cf : List (String × String)} {nb cur : String}
    (hac : AcyclicCF cf) (hno : ¬ Relation.ReflTransGen (cfStep cf) cur nb) :
    AcyclicCF (setA cf nb cur) := by
  intro n h
  rcases transGen_setA_decomp h with h1 | ⟨h1, h2⟩
  · exact hac n h1
  · exact hno (h2.trans h1)

theorem cf_chain_value_le {α : Type} [LinearOrderedField α] {g : Graph α}
    {cf : List (String × String)} {gs : List (String × α)} (hnn : NonnegGraph g)
    (hcf : ∀ yx ∈ cf, ∃ e, lookupEdge g (yx : String × String).2 yx.1 = some e ∧
      ∃ vy vx, lookupA gs yx.1 = some vy ∧ lookupA gs yx.2 = some vx ∧
        vx + edge_cost_minutes e ≤ vy) :
    ∀ {a b : String}, Relation.ReflTransGen (cfStep cf) a b →
      a = b ∨ ∃ va vb, lookupA gs a = some va ∧ lookupA gs b = some vb ∧ vb ≤ va := by
  intro a b h
  induction h with
  | refl => exact Or.inl rfl
  | tail hab hstep ih =>
    rename_i b2 c2
    obtain ⟨e, he, vy, vx, hvy, hvx, hle⟩ := hcf (b2, c2) (lookupA_mem hstep)
    have hc : vx ≤ vy := le_trans (le_add_of_nonneg_right (edge_cost_nonneg hnn he)) hle
    rcases ih with rfl | ⟨va, vb, hva, hvb, hle2⟩
    · exact Or.inr ⟨vy, vx, hvy, hvx, hc⟩
    · right
      rw [hvy] at hvb
      injection hvb with h3
      exact ⟨va, vx, hva, hvx, le_trans hc (h3 ▸ hle2)⟩

/-! ### A* search: path enumeration, rank and potential lemmas -/

theorem extPaths_zero {α : Type} (g : Graph α) (visited : List String) (cur : String) :
    extPaths g 0 visited cur = [[cur]] := by
  rfl

theorem extPaths_succ {α : Type} (g : Graph α) (f : Nat) (visited : List String)
    (cur : String) :
    extPaths g (f + 1) visited cur = [cur] :: (neighborsOf g cur).foldr (fun nb acc =>
      if nb.1 ∈ visited ∨ nb.1 = cur then acc
      else (extPaths g f (cur :: visited) nb.1).map (fun t => cur :: t) ++ acc) [] := by
  rfl

theorem self_mem_extPaths {α : Type} (g : Graph α) (fuel : Nat) (visited : List String)
    (cur : String) : [cur] ∈ extPaths g fuel visited cur := by
  cases fuel with
  | zero => rw [extPaths_zero]; exact List.mem_cons_self _ _
  | succ f => rw [extPaths_succ]; exact List.mem_cons_self _ _

theorem mem_relax_foldr {α : Type} (g : Graph α) (fuel : Nat) (visited : List String)
    (cur b : String) (e : Edge α) (q : List String) :
    ∀ L : List (String × Edge α), (b, e) ∈ L → ¬(b ∈ visited ∨ b = cur) →
      q ∈ extPaths g fuel (cur :: visited) b →
      (cur :: q) ∈ L.foldr (fun nb acc =>
        if nb.1 ∈ visited ∨ nb.1 = cur then acc
        else (extPaths g fuel (cur :: visited) nb.1).map (fun t => cur :: t) ++ acc) [] := by
  intro L
  induction L with
  | nil => intro hm; simp at hm
  | cons x xs ih =>
    intro hm hng hq
    rw [List.foldr_cons]
    rcases List.mem_cons.mp hm with h1 | h1
    · simp only [← h1]
      rw [if_neg hng]
      exact List.mem_append.mpr (Or.inl (List.mem_map.mpr ⟨q, hq, rfl⟩))
    · by_cases hx : x.1 ∈ visited ∨ x.1 = cur
      · rw [if_pos hx]; exact ih h1 hng hq
      · rw [if_neg hx]
        exact List.mem_append.mpr (Or.inr (ih h1 hng hq))

theorem extPaths_complete {α : Type} {g : Graph α} :
    ∀ (p : List String) (fuel : Nat) (visited : List String) (cur : String),
      p.head? = some cur → p.Nodup → walkOK g p = true →
      (∀ x ∈ p, x ∉ visited) → p.length ≤ fuel + 1 →
      p ∈ extPaths g fuel visited cur := by
  intro p
  induction p with
  | nil => intro fuel visited cur h1 _ _ _ _; simp at h1
  | cons a rest ih =>
    intro fuel visited cur h1 h2 h3 h4 h5
    simp only [List.head?_cons, Option.some.injEq] at h1
    subst h1
    cases rest with
    | nil => exact self_mem_extPaths g fuel visited a
    | cons b rest2 =>
      cases fuel with
      | zero =>
        exfalso
        simp only [List.length_cons] at h5
        omega
      | succ f =>
        obtain ⟨ha, hb⟩ := walkOK_cons.mp h3
        obtain ⟨e, he⟩ := Option.isSome_iff_exists.mp ha
        have hbe : (b, e) ∈ neighborsOf g a :=
          lookupA_mem (show lookupA (neighborsOf g a) b = some e from he)
        have hng : ¬(b ∈ visited ∨ b = a) := by
          rintro (hv | rfl)
          · exact h4 b (List.mem_cons_of_mem _ (List.mem_cons_self _ _)) hv
          · exact (List.nodup_cons.mp h2).1 (List.mem_cons_self _ _)
        have hq : (b :: rest2) ∈ extPaths g f (a :: visited) b := by
          apply ih f (a :: visited) b rfl (List.nodup_cons.mp h2).2 hb
          · intro x hx hmem
            rcases List.mem_cons.mp hmem with h6 | hv
            · rw [h6] at hx
              exact (List.nodup_cons.mp h2).1 hx
            · exact h4 x (List.mem_cons_of_mem _ hx) hv
          · simp only [List.length_cons] at h5 ⊢
            omega
        rw [extPaths_succ]
        exact List.mem_cons_of_mem _
          (mem_relax_foldr g f visited a b e (b :: rest2) (neighborsOf g a) hbe hng hq)

theorem length_le_maxDeg_of_mem {α : Type} {g : Graph α} {c : String}
    {nbrs : List (String × Edge α)} (hm : (c, nbrs) ∈ g) : nbrs.length ≤ maxDeg g := by
  induction g with
  | nil => simp at hm
  | cons kv rest ih =>
    unfold maxDeg
    rw [List.foldr_cons]
    rcases List.mem_cons.mp hm with h1 | h1
    · rw [← h1]
      exact le_max_left _ _
    · exact le_trans (ih h1) (le_max_right _ _)

theorem neighbors_length_le_maxDeg {α : Type} (g : Graph α) (c : String) :
    (neighborsOf g c).length ≤ maxDeg g := by
  unfold neighborsOf
  rcases hg : lookupA g c with _ | nbrs
  · simp
  · simp only [Option.getD_some]
    exact length_le_maxDeg_of_mem (lookupA_mem hg)

theorem extPaths_length_le {α : Type} (g : Graph α) :
    ∀ (fuel : Nat) (visited : List String) (cur : String),
      (extPaths g fuel visited cur).length ≤ (maxDeg g + 1) ^ (fuel + 1) := by
  intro fuel
  induction fuel with
  | zero =>
    intro visited cur
    rw [extPaths_zero]
    simp [pow_succ]
  | succ f ih =>
    intro visited cur
    rw [extPaths_succ]
    have hfold : ∀ L : List (String × Edge α),
        (L.foldr (fun nb acc =>
          if nb.1 ∈ visited ∨ nb.1 = cur then acc
          else (extPaths g f (cur :: visited) nb.1).map (fun t => cur :: t) ++ acc)
          []).length ≤ L.length * (maxDeg g + 1) ^ (f + 1) := by
      intro L
      induction L with
      | nil => simp
      | cons x xs ihL =>
        rw [List.foldr_cons, List.length_cons]
        by_cases hx : x.1 ∈ visited ∨ x.1 = cur
        · rw [if_pos hx]
          exact le_trans ihL (Nat.mul_le_mul_right _ (Nat.le_succ _))
        · rw [if_neg hx, List.length_append, List.length_map]
          have h1 := ih (cur :: visited) x.1
          have h2 : (xs.length + 1) * (maxDeg g + 1) ^ (f + 1)
              = (maxDeg g + 1) ^ (f + 1) + xs.length * (maxDeg g + 1) ^ (f + 1) := by
            ring
          rw [h2]
          exact Nat.add_le_add h1 ihL
    have h1 : ((neighborsOf g cur).foldr (fun nb acc =>
        if nb.1 ∈ visited ∨ nb.1 = cur then acc
        else (extPaths g f (cur :: visited) nb.1).map (fun t => cur :: t) ++ acc)
        []).length ≤ maxDeg g * (maxDeg g + 1) ^ (f + 1) :=
      le_trans (hfold _) (Nat.mul_le_mul_right _ (neighbors_length_le_maxDeg g cur))
    have hB : 1 ≤ (maxDeg g + 1) ^ (f + 1) := Nat.one_le_pow _ _ (Nat.succ_pos _)
    rw [List.length_cons, pow_succ]
    exact le_trans (Nat.add_le_add_right h1 1)
      (le_trans (Nat.add_le_add_left hB _) (le_of_eq (by ring)))

theorem dest_mem_nodeNames {α : Type} {g : Graph α} {a b : String} {e : Edge α}
    (he : lookupEdge g a b = some e) : b ∈ nodeNames g := by
  obtain ⟨nbrs, hg, hb⟩ := edge_mem_of_lookupEdge he
  unfold nodeNames
  rw [List.mem_dedup]
  apply List.mem_append.mpr
  right
  rw [List.mem_flatten]
  refine ⟨nbrs.map Prod.fst, ?_, ?_⟩
  · exact List.mem_map.mpr ⟨(a, nbrs), hg, rfl⟩
  · exact List.mem_map.mpr ⟨(b, e), hb, rfl⟩

theorem source_mem_nodeNames {α : Type} {g : Graph α} {a b : String} {e : Edge α}
    (he : lookupEdge g a b = some e) : a ∈ nodeNames g := by
  obtain ⟨nbrs, hg, _⟩ := edge_mem_of_lookupEdge he
  unfold nodeNames
  rw [List.mem_dedup]
  exact List.mem_append.mpr (Or.inl (List.mem_map.mpr ⟨(a, nbrs), hg, rfl⟩))

theorem walk_tail_subset_nodeNames {α : Type} {g : Graph α} :
    ∀ {p : List String}, walkOK g p = true → ∀ x ∈ p.tail, x ∈ nodeNames g := by
  intro p
  induction p with
  | nil => intro _ x hx; simp at hx
  | cons a rest ih =>
    cases rest with
    | nil => intro _ x hx; simp at hx
    | cons b rest2 =>
      intro h x hx
      obtain ⟨ha, hb⟩ := walkOK_cons.mp h
      obtain ⟨e, he⟩ := Option.isSome_iff_exists.mp ha
      rcases List.mem_cons.mp hx with rfl | hx2
      · exact dest_mem_nodeNames he
      · exact ih hb x hx2

theorem mem_spcosts {α : Type} [LinearOrderedField α] {g : Graph α} {s n : String}
    {p : List String} (h1 : IsSimplePath g s p n) : walkCost g p ∈ spcosts g s n := by
  obtain ⟨hh, hl, hnd, hwk⟩ := h1
  unfold spcosts
  rw [List.mem_toFinset]
  apply List.mem_map.mpr
  refine ⟨p, ?_, rfl⟩
  rw [List.mem_filter]
  refine ⟨?_, by simp [hl]⟩
  apply extPaths_complete p (nodeNames g).length [] s hh hnd hwk (by simp)
  have hsub : ∀ x ∈ p, x ∈ s :: nodeNames g := by
    intro x hx
    cases p with
    | nil => simp at hx
    | cons a rest =>
      simp only [List.head?_cons, Option.some.injEq] at hh
      rcases List.mem_cons.mp hx with rfl | hx2
      · rw [hh]; exact List.mem_cons_self _ _
      · exact List.mem_cons_of_mem _ (walk_tail_subset_nodeNames hwk x hx2)
  have hcard : p.length ≤ (s :: nodeNames g).length := by
    have hc1 : p.toFinset.card = p.length := by
      rw [List.card_toFinset, List.dedup_eq_self.mpr hnd]
    calc p.length = p.toFinset.card := hc1.symm
      _ ≤ (s :: nodeNames g).toFinset.card := by
          apply Finset.card_le_card
          intro x hx
          rw [List.mem_toFinset] at hx ⊢
          exact hsub x hx
      _ ≤ (s :: nodeNames g).length := List.toFinset_card_le _
  simpa using hcard

theorem rankOf_le_card {α : Type} [LinearOrderedField α] (g : Graph α) (s n : String)
    (o : Option α) : rankOf g s n o ≤ (spcosts g s n).card := by
  cases o with
  | none => exact le_refl _
  | some v => exact Finset.card_le_card (Finset.filter_subset _ _)

theorem rankOf_none {α : Type} [LinearOrderedField α] (g : Graph α) (s n : String) :
    rankOf g s n none = (spcosts g s n).card := by
  rfl

theorem rankOf_some {α : Type} [LinearOrderedField α] (g : Graph α) (s n : String)
    (v : α) : rankOf g s n (some v) = ((spcosts g s n).filter (fun u => u < v)).card := by
  rfl

theorem rank_decrease {α : Type} [LinearOrderedField α] {g : Graph α} {s n : String}
    {tg : α} (hmem : tg ∈ spcosts g s n) (o : Option α)
    (ho : ∀ v, o = some v → tg < v) :
    rankOf g s n (some tg) + 1 ≤ rankOf g s n o := by
  cases o with
  | none =>
    rw [rankOf_none, rankOf_some]
    have h1 : ((spcosts g s n).filter (fun u => u < tg)).card < (spcosts g s n).card := by
      apply Finset.card_lt_card
      rw [Finset.ssubset_def]
      refine ⟨Finset.filter_subset _ _, ?_⟩
      intro hsub
      have h2 := hsub hmem
      rw [Finset.mem_filter] at h2
      exact lt_irrefl tg h2.2
    omega
  | some v =>
    have hv := ho v rfl
    rw [rankOf_some, rankOf_some]
    have h1 : ((spcosts g s n).filter (fun u => u < tg)).card <
        ((spcosts g s n).filter (fun u => u < v)).card := by
      apply Finset.card_lt_card
      rw [Finset.ssubset_def]
      constructor
      · intro x hx
        rw [Finset.mem_filter] at hx ⊢
        exact ⟨hx.1, lt_trans hx.2 hv⟩
      · intro hsub
        have hm2 : tg ∈ (spcosts g s n).filter (fun u => u < v) :=
          Finset.mem_filter.mpr ⟨hmem, hv⟩
        have h2 := hsub hm2
        rw [Finset.mem_filter] at h2
        exact lt_irrefl tg h2.2
    omega

theorem sum_map_lt_of_point (f f' : String → Nat) {l : List String} (hnd : l.Nodup)
    {nb : String} (hmem : nb ∈ l) (heq : ∀ x ∈ l, x ≠ nb → f' x = f x)
    (hlt : f' nb + 1 ≤ f nb) :
    (l.map f').sum + 1 ≤ (l.map f).sum := by
  obtain ⟨l1, l2, rfl⟩ := List.append_of_mem hmem
  rw [List.map_append, List.map_cons, List.sum_append, List.sum_cons,
    List.map_append, List.map_cons, List.sum_append, List.sum_cons]
  have hparts := List.nodup_append.mp hnd
  have hnb1 : nb ∉ l1 := fun hx => hparts.2.2 hx (List.mem_cons_self _ _)
  have hnb2 : nb ∉ l2 := (List.nodup_cons.mp hparts.2.1).1
  have e1 : l1.map f' = l1.map f :=
    List.map_congr_left fun x hx =>
      heq x (List.mem_append.mpr (Or.inl hx)) (fun hxx => hnb1 (hxx ▸ hx))
  have e2 : l2.map f' = l2.map f :=
    List.map_congr_left fun x hx =>
      heq x (List.mem_append.mpr (Or.inr (List.mem_cons_of_mem _ hx)))
        (fun hxx => hnb2 (hxx ▸ hx))
  rw [e1, e2]
  omega

theorem phi_relax_update {α : Type} [LinearOrderedField α] {g : Graph α} {s : String}
    {heap : List (α × α × String)} {gs : List (String × α)} {nb : String} {tg : α}
    (ent : α × α × String) (hnb : nb ∈ nodeNames g) (hmem : tg ∈ spcosts g s nb)
    (hcond : ∀ v, lookupA gs nb = some v → tg < v) :
    phiOf g s (ent :: heap) (setA gs nb tg) ≤ phiOf g s heap gs := by
  unfold phiOf
  rw [List.length_cons]
  have hnd : (nodeNames g).Nodup := by
    unfold nodeNames
    exact List.nodup_dedup _
  have heq : ∀ x ∈ nodeNames g, x ≠ nb →
      rankOf g s x (lookupA (setA gs nb tg) x) = rankOf g s x (lookupA gs x) := by
    intro x _ hxne
    rw [lookupA_setA_ne gs nb x tg hxne]
  have hlt : rankOf g s nb (lookupA (setA gs nb tg) nb) + 1
      ≤ rankOf g s nb (lookupA gs nb) := by
    rw [lookupA_setA_self]
    exact rank_decrease hmem (lookupA gs nb) hcond
  have hsum := sum_map_lt_of_point
    (fun n2 => rankOf g s n2 (lookupA gs n2))
    (fun n2 => rankOf g s n2 (lookupA (setA gs nb tg) n2)) hnd hnb heq hlt
  omega

/-! ### A* search: preservation of the loop invariant under relaxation -/

theorem relaxOne_eq {α : Type} [LinearOrderedField α] (hh : String → α) (gc : α)
    (cur : String) (heap : List (α × α × String)) (cf : List (String × String))
    (gs : List (String × α)) (nb : String) (e : Edge α) :
    relaxOne hh gc cur (heap, cf, gs) (nb, e) =
      if (match lookupA gs nb with
          | some gn => decide (gc + edge_cost_minutes e < gn)
          | none => true) = true then
        ((gc + edge_cost_minutes e + hh nb, gc + edge_cost_minutes e, nb) :: heap,
          setA cf nb cur, setA gs nb (gc + edge_cost_minutes e))
      else (heap, cf, gs) := by
  rfl

theorem mem_setA_key_eq {β : Type} {l : List (String × β)} {k : String} {v w : β}
    (hnd : (l.map Prod.fst).Nodup) (h : (k, w) ∈ setA l k v) : w = v := by
  have h2 := lookupA_eq_of_mem_nodup h (nodup_keys_setA k v hnd)
  rw [lookupA_setA_self] at h2
  injection h2 with h3
  exact h3.symm

theorem relaxOne_preserve {α : Type} [LinearOrderedField α] {g : Graph α} {start : String}
    (hh : String → α) {gc : α} {cur : String}
    {heap : List (α × α × String)} {cf : List (String × String)} {gs : List (String × α)}
    (hnn : NonnegGraph g)
    (hinv : AInv g start heap cf gs)
    (hcw : Witnessed g start gs gc cur)
    (hvc : ∃ vc, lookupA gs cur = some vc ∧ vc ≤ gc)
    {nb : String} {e : Edge α} (he : lookupEdge g cur nb = some e) :
    AInv g start (relaxOne hh gc cur (heap, cf, gs) (nb, e)).1
        (relaxOne hh gc cur (heap, cf, gs) (nb, e)).2.1
        (relaxOne hh gc cur (heap, cf, gs) (nb, e)).2.2 ∧
      Witnessed g start (relaxOne hh gc cur (heap, cf, gs) (nb, e)).2.2 gc cur ∧
      (∃ vc, lookupA (relaxOne hh gc cur (heap, cf, gs) (nb, e)).2.2 cur = some vc ∧
        vc ≤ gc) ∧
      phiOf g start (relaxOne hh gc cur (heap, cf, gs) (nb, e)).1
        (relaxOne hh gc cur (heap, cf, gs) (nb, e)).2.2 ≤ phiOf g start heap gs := by
  have hcost : 0 ≤ edge_cost_minutes e := edge_cost_nonneg hnn he
  obtain ⟨vc, hvcl, hvcle⟩ := hvc
  obtain ⟨p, hsp, hpc, hdom⟩ := hcw
  have hgc0 : 0 ≤ gc := hpc ▸ walkCost_nonneg hnn p hsp.2.2.2
  rw [relaxOne_eq]
  by_cases hbet : (match lookupA gs nb with
      | some gn => decide (gc + edge_cost_minutes e < gn)
      | none => true) = true
  case neg =>
    rw [if_neg hbet]
    exact ⟨hinv, ⟨p, hsp, hpc, hdom⟩, ⟨vc, hvcl, hvcle⟩, le_refl _⟩
  case pos =>
    rw [if_pos hbet]
    dsimp only
    set tg := gc + edge_cost_minutes e with htg
    have hcond : ∀ v, lookupA gs nb = some v → tg < v := by
      intro v hv
      rw [hv] at hbet
      simpa using hbet
    have hnbcur : nb ≠ cur := by
      rintro rfl
      have h2 := hcond vc hvcl
      linarith
    have hnbstart : nb ≠ start := by
      rintro rfl
      have h2 := hcond 0 hinv.gsStart
      linarith
    obtain ⟨hh1, hl1, hnd1, hwk1⟩ := hsp
    have hnbp : nb ∉ p := by
      intro hmem
      obtain ⟨i, hi⟩ := List.mem_iff_get.mp hmem
      obtain ⟨u, hu, hule⟩ := hdom i
      rw [hi] at hu
      have h2 := hcond u hu
      have h3 := walkCost_take_le hnn p hwk1 (i + 1)
      rw [hpc] at h3
      linarith
    have hsp' : IsSimplePath g start (p ++ [nb]) nb := by
      refine ⟨?_, ?_, ?_, ?_⟩
      · cases p with
        | nil => simp at hh1
        | cons a rest => simpa using hh1
      · simp
      · refine List.Nodup.append hnd1 (List.nodup_singleton _) ?_
        intro x hx hx2
        rw [List.mem_singleton] at hx2
        subst hx2
        exact hnbp hx
      · exact walkOK_append_edge hwk1 hl1 he
    have hpc' : walkCost g (p ++ [nb]) = tg := by
      rw [walkCost_append_edge hwk1 hl1 he, hpc]
    have hmono : ∀ n v, lookupA gs n = some v →
        ∃ v', lookupA (setA gs nb tg) n = some v' ∧ v' ≤ v :=
      setA_lookup_mono (fun v0 hv0 => le_of_lt (hcond v0 hv0))
    have hdom' : Domination g (setA gs nb tg) (p ++ [nb]) := by
      intro i
      by_cases hilt : (i : Nat) < p.length
      · have hget : (p ++ [nb]).get i = p.get ⟨i, hilt⟩ := by
          simp [List.get_eq_getElem, List.getElem_append_left hilt]
        have htake : (p ++ [nb]).take ((i : Nat) + 1) = p.take ((i : Nat) + 1) :=
          List.take_append_of_le_length (by omega)
        obtain ⟨u, hu, hule⟩ := hdom ⟨i, hilt⟩
        obtain ⟨u', hu', hule'⟩ := hmono _ _ hu
        refine ⟨u', ?_, ?_⟩
        · rw [hget]; exact hu'
        · rw [htake]; exact le_trans hule' hule
      · have hieq : (i : Nat) = p.length := by
          have h2 := i.2
          simp only [List.length_append, List.length_singleton] at h2
          omega
        have hget : (p ++ [nb]).get i = nb := by
          simp [List.get_eq_getElem, hieq]
        have htake : (p ++ [nb]).take ((i : Nat) + 1) = p ++ [nb] := by
          apply List.take_of_length_le
          simp [List.length_append, hieq]
        refine ⟨tg, ?_, ?_⟩
        · rw [hget, lookupA_setA_self]
        · rw [htake, hpc']
    refine ⟨?_, ⟨p, ⟨hh1, hl1, hnd1, hwk1⟩, hpc, domination_mono hmono hdom⟩,
      ⟨vc, by rw [lookupA_setA_ne gs nb cur tg (Ne.symm hnbcur)]; exact hvcl, hvcle⟩, ?_⟩
    · refine ⟨?_, ?_, ?_, ?_, ?_, ?_, ?_⟩
      · intro ent2 hent2
        rcases List.mem_cons.mp hent2 with h2 | h2
        · rw [h2]
          refine ⟨⟨tg, by rw [lookupA_setA_self], le_refl tg⟩, ?_⟩
          exact ⟨p ++ [nb], hsp', hpc', hdom'⟩
        · obtain ⟨⟨v, hv, hvle2⟩, hw⟩ := hinv.entries ent2 h2
          refine ⟨?_, witnessed_mono hmono hw⟩
          obtain ⟨v', hv', hvle'⟩ := hmono _ _ hv
          exact ⟨v', hv', le_trans hvle' hvle2⟩
      · rw [lookupA_setA_ne gs nb start tg (Ne.symm hnbstart)]
        exact hinv.gsStart
      · intro yx hyx
        by_cases hy : yx.1 = nb
        · have hyx2 : (nb, yx.2) ∈ setA cf nb cur := by
            have h3 : (yx.1, yx.2) ∈ setA cf nb cur := by simpa using hyx
            rwa [hy] at h3
          have hcur2 : yx.2 = cur := mem_setA_key_eq hinv.cfNodup hyx2
          refine ⟨e, ?_, tg, vc, ?_, ?_, ?_⟩
          · rw [hcur2, hy]; exact he
          · rw [hy, lookupA_setA_self]
          · rw [hcur2, lookupA_setA_ne gs nb cur tg (Ne.symm hnbcur)]
            exact hvcl
          · rw [htg]; linarith
        · have hmem2 : yx ∈ cf := by
            have h3 : (yx.1, yx.2) ∈ setA cf nb cur := by simpa using hyx
            have h4 := mem_setA_of_ne h3 hy
            simpa using h4
          obtain ⟨e2, he2, vy, vx, hvy, hvx, hle2⟩ := hinv.cfEdge yx hmem2
          obtain ⟨vx', hvx', hvxle⟩ := hmono _ _ hvx
          refine ⟨e2, he2, vy, vx', ?_, hvx', by linarith⟩
          rw [lookupA_setA_ne gs nb yx.1 tg hy]
          exact hvy
      · apply acyclicCF_setA hinv.acyc
        intro hchain
        rcases cf_chain_value_le hnn hinv.cfEdge hchain with heq2 | hv2
        · exact hnbcur heq2.symm
        · obtain ⟨va, vb, hva, hvb2, hlevb⟩ := hv2
          rw [hvcl] at hva
          injection hva with h3
          have h4 := hcond vb hvb2
          rw [← h3] at hlevb
          linarith
      · intro nv hnv
        by_cases hn : nv.1 = nb
        · right
          rw [hn, lookupA_setA_self]
          rfl
        · have h3 : (nv.1, nv.2) ∈ setA gs nb tg := by simpa using hnv
          have h4 := mem_setA_of_ne h3 hn
          rcases hinv.keysSub (nv.1, nv.2) h4 with h5 | h5
          · exact Or.inl h5
          · right
            rwa [lookupA_setA_ne cf nb nv.1 cur hn]
      · exact nodup_keys_setA nb tg hinv.gsNodup
      · exact nodup_keys_setA nb cur hinv.cfNodup
    · exact phi_relax_update (tg + hh nb, tg, nb) (dest_mem_nodeNames he)
        (hpc' ▸ mem_spcosts hsp') hcond

theorem expand_preserve {α : Type} [LinearOrderedField α] {g : Graph α} {start : String}
    (hh : String → α) {gc : α} {cur : String} (hnn : NonnegGraph g) (hadj : AdjNodup g) :
    ∀ (L : List (String × Edge α)) (heap : List (α × α × String))
      (cf : List (String × String)) (gs : List (String × α)),
      (∀ x ∈ L, x ∈ neighborsOf g cur) →
      AInv g start heap cf gs →
      Witnessed g start gs gc cur →
      (∃ vc, lookupA gs cur = some vc ∧ vc ≤ gc) →
      AInv g start (L.foldl (relaxOne hh gc cur) (heap, cf, gs)).1
          (L.foldl (relaxOne hh gc cur) (heap, cf, gs)).2.1
          (L.foldl (relaxOne hh gc cur) (heap, cf, gs)).2.2 ∧
        phiOf g start (L.foldl (relaxOne hh gc cur) (heap, cf, gs)).1
          (L.foldl (relaxOne hh gc cur) (heap, cf, gs)).2.2 ≤ phiOf g start heap gs := by
  intro L
  induction L with
  | nil =>
    intro heap cf gs _ hinv _ _
    exact ⟨hinv, le_refl _⟩
  | cons x xs ih =>
    obtain ⟨nbx, ex⟩ := x
    intro heap cf gs hsub hinv hw hvc
    rw [List.foldl_cons]
    have hx := hsub (nbx, ex) (List.mem_cons_self _ _)
    have hedge : lookupEdge g cur nbx = some ex := by
      apply lookupA_eq_of_mem_nodup hx
      have h2 := hadj cur
      unfold keysOf at h2
      exact h2
    obtain ⟨hinv1, hw1, hvc1, hphi1⟩ := relaxOne_preserve hh hnn hinv hw hvc hedge
    obtain ⟨ha, hb⟩ := ih (relaxOne hh gc cur (heap, cf, gs) (nbx, ex)).1
      (relaxOne hh gc cur (heap, cf, gs) (nbx, ex)).2.1
      (relaxOne hh gc cur (heap, cf, gs) (nbx, ex)).2.2
      (fun y hy => hsub y (List.mem_cons_of_mem _ hy)) hinv1 hw1 hvc1
    exact ⟨ha, le_trans hb hphi1⟩

/-! ### A* search: reconstruction, the fueled loop, and termination -/

theorem reconstruct_ok {α : Type} [LinearOrderedField α] {g : Graph α} {start : String}
    {cf : List (String × String)} {gs : List (String × α)}
    (hcf : ∀ yx ∈ cf, ∃ e, lookupEdge g (yx : String × String).2 yx.1 = some e ∧
      ∃ vy vx, lookupA gs yx.1 = some vy ∧ lookupA gs yx.2 = some vx ∧
        vx + edge_cost_minutes e ≤ vy)
    (hacyc : AcyclicCF cf)
    (hks : ∀ nv ∈ gs, (nv : String × α).1 = start ∨ (lookupA cf nv.1).isSome = true)
    (hcfnd : (cf.map Prod.fst).Nodup) :
    ∀ (fuel : Nat) (used : List String) (cur : String) (acc : List String) (vcur : α),
      lookupA gs cur = some vcur →
      used.Nodup → (∀ u ∈ used, u ∈ cf.map Prod.fst) →
      (∀ u ∈ used, Relation.TransGen (cfStep cf) u cur) →
      cf.length + 1 ≤ fuel + used.length →
      walkOK g acc = true → acc.head? = some cur →
      ∃ res, reconstruct cf fuel cur acc = some res ∧ walkOK g res = true ∧
        res.head? = some start ∧ res.getLast? = acc.getLast? := by
  intro fuel
  induction fuel with
  | zero =>
    intro used cur acc vcur _ hund husub _ hfl _ _
    exfalso
    have h1 : used.length ≤ (cf.map Prod.fst).length := by
      have hc1 : used.toFinset.card = used.length := by
        rw [List.card_toFinset, List.dedup_eq_self.mpr hund]
      calc used.length = used.toFinset.card := hc1.symm
        _ ≤ (cf.map Prod.fst).toFinset.card := by
            apply Finset.card_le_card
            intro x hx
            rw [List.mem_toFinset] at hx ⊢
            exact husub x hx
        _ ≤ (cf.map Prod.fst).length := List.toFinset_card_le _
    rw [List.length_map] at h1
    omega
  | succ f ihf =>
    intro used cur acc vcur hvcur hund husub hreach hfl hwacc hhacc
    rw [show reconstruct cf (f + 1) cur acc = (match lookupA cf cur with
      | none => some acc
      | some prev => reconstruct cf f prev (prev :: acc)) from rfl]
    rcases hcur : lookupA cf cur with _ | prev
    · have hcs : cur = start := by
        rcases hks (cur, vcur) (lookupA_mem hvcur) with h5 | h5
        · exact h5
        · rw [hcur] at h5
          simp at h5
      exact ⟨acc, rfl, hwacc, hcs ▸ hhacc, rfl⟩
    · have hcu : cur ∉ used := fun hmem => hacyc cur (hreach cur hmem)
      obtain ⟨e, he, vy, vx, hvy, hvx, hle⟩ := hcf (cur, prev) (lookupA_mem hcur)
      have hwacc' : walkOK g (prev :: acc) = true := by
        cases acc with
        | nil => simp at hhacc
        | cons a rest =>
          simp only [List.head?_cons, Option.some.injEq] at hhacc
          apply walkOK_cons.mpr
          refine ⟨?_, hwacc⟩
          rw [hhacc, he]
          rfl
      obtain ⟨res, hres, hw2, hh2, hl2⟩ := ihf (cur :: used) prev (prev :: acc) vx hvx
        (List.nodup_cons.mpr ⟨hcu, hund⟩)
        (by
          intro u hu
          rcases List.mem_cons.mp hu with rfl | hu2
          · have hsome : (lookupA cf u).isSome = true := by rw [hcur]; rfl
            have := (lookupA_isSome_iff_mem cf u).mp hsome
            unfold keysOf at this
            exact this
          · exact husub u hu2)
        (by
          intro u hu
          rcases List.mem_cons.mp hu with rfl | hu2
          · exact Relation.TransGen.single hcur
          · exact (hreach u hu2).tail hcur)
        (by simp only [List.length_cons]; omega)
        hwacc' rfl
      refine ⟨res, hres, hw2, hh2, ?_⟩
      rw [hl2]
      cases acc with
      | nil => simp at hhacc
      | cons a rest => rw [List.getLast?_cons_cons]

theorem astarLoop_succ {α : Type} [LinearOrderedField α] (g : Graph α) (hh : String → α)
    (goal : String) (f : Nat) (heap : List (α × α × String))
    (cf : List (String × String)) (gs : List (String × α)) :
    astarLoop g hh goal (f + 1) heap cf gs =
      match popMin heap with
      | none => .noPath
      | some ((_, gc, cur), rest) =>
        if cur = goal then
          match reconstruct cf (cf.length + 1) cur [cur] with
          | some p => .found p
          | none => .fuelOut
        else
          match expand g hh gc cur rest cf gs with
          | (heap2, cf2, gs2) => astarLoop g hh goal f heap2 cf2 gs2 := by
  rfl

theorem astarLoop_pop_none {α : Type} [LinearOrderedField α] (g : Graph α)
    (hh : String → α) (goal : String) (f : Nat) (heap : List (α × α × String))
    (cf : List (String × String)) (gs : List (String × α))
    (hp : popMin heap = none) :
    astarLoop g hh goal (f + 1) heap cf gs = .noPath := by
  rw [astarLoop_succ, hp]

theorem astarLoop_pop_some {α : Type} [LinearOrderedField α] (g : Graph α)
    (hh : String → α) (goal : String) (f : Nat) (heap : List (α × α × String))
    (cf : List (String × String)) (gs : List (String × α)) (fv gc : α) (cur : String)
    (rest : List (α × α × String))
    (hp : popMin heap = some ((fv, gc, cur), rest)) :
    astarLoop g hh goal (f + 1) heap cf gs =
      if cur = goal then
        match reconstruct cf (cf.length + 1) cur [cur] with
        | some p => AStarResult.found p
        | none => AStarResult.fuelOut
      else
        astarLoop g hh goal f (expand g hh gc cur rest cf gs).1
          (expand g hh gc cur rest cf gs).2.1 (expand g hh gc cur rest cf gs).2.2 := by
  rw [astarLoop_succ, hp]

theorem astarLoop_spec {α : Type} [LinearOrderedField α] {g : Graph α}
    {start goal : String} (hh : String → α) (hnn : NonnegGraph g) (hadj : AdjNodup g) :
    ∀ (fuel : Nat) (heap : List (α × α × String)) (cf : List (String × String))
      (gs : List (String × α)),
      AInv g start heap cf gs →
      phiOf g start heap gs < fuel →
      astarLoop g hh goal fuel heap cf gs ≠ .fuelOut ∧
      ∀ p, astarLoop g hh goal fuel heap cf gs = .found p → IsWalkFrom g start goal p := by
  intro fuel
  induction fuel with
  | zero =>
    intro heap cf gs _ hphi
    exact absurd hphi (by omega)
  | succ f ihf =>
    intro heap cf gs hinv hphi
    rcases hp : popMin heap with _ | mrest
    · rw [astarLoop_pop_none g hh goal f heap cf gs hp]
      exact ⟨fun hcon => AStarResult.noConfusion hcon,
        fun p hp2 => AStarResult.noConfusion hp2⟩
    · obtain ⟨⟨fv, gc, cur⟩, rest⟩ := mrest
      rw [astarLoop_pop_some g hh goal f heap cf gs fv gc cur rest hp]
      obtain ⟨hmem, hrest, _⟩ := popMin_some hp
      obtain ⟨⟨vcur, hvcur, hvle⟩, hwit⟩ := hinv.entries _ hmem
      dsimp only at hvcur hvle hwit
      by_cases hgoal : cur = goal
      · rw [if_pos hgoal]
        subst hgoal
        obtain ⟨res, hres, hw2, hh2, hl2⟩ := reconstruct_ok hinv.cfEdge hinv.acyc
          hinv.keysSub hinv.cfNodup (cf.length + 1) [] cur [cur] vcur hvcur
          List.nodup_nil (by simp) (by simp) (by simp) rfl rfl
        rw [hres]
        show AStarResult.found res ≠ .fuelOut ∧
          ∀ p, AStarResult.found res = .found p → IsWalkFrom g start cur p
        constructor
        · exact fun hcon => AStarResult.noConfusion hcon
        · intro p hp2
          injection hp2 with hp3
          subst hp3
          refine ⟨hw2, hh2, ?_⟩
          rw [hl2]
          rfl
      · rw [if_neg hgoal]
        have hinvrest : AInv g start rest cf gs :=
          ⟨fun ent hent => hinv.entries ent (by
              rw [hrest] at hent
              exact List.mem_of_mem_erase hent),
            hinv.gsStart, hinv.cfEdge, hinv.acyc, hinv.keysSub, hinv.gsNodup,
            hinv.cfNodup⟩
        obtain ⟨hinv2, hphi2⟩ := expand_preserve hh hnn hadj (neighborsOf g cur)
          rest cf gs (fun x hx => hx) hinvrest hwit ⟨vcur, hvcur, hvle⟩
        have hlen : rest.length + 1 = heap.length := by
          rw [hrest, List.length_erase_of_mem hmem]
          have : 0 < heap.length := List.length_pos.mpr (List.ne_nil_of_mem hmem)
          omega
        have hphirest : phiOf g start rest gs + 1 = phiOf g start heap gs := by
          unfold phiOf
          omega
        have hphi2' : phiOf g start (expand g hh gc cur rest cf gs).1
            (expand g hh gc cur rest cf gs).2.2 ≤ phiOf g start rest gs := hphi2
        exact ihf (expand g hh gc cur rest cf gs).1 (expand g hh gc cur rest cf gs).2.1
          (expand g hh gc cur rest cf gs).2.2 hinv2 (by omega)

theorem aInv_init {α : Type} [LinearOrderedField α] (g : Graph α) (start : String)
    (f0 : α) : AInv g start [(f0, 0, start)] [] [(start, 0)] := by
  refine ⟨?_, ?_, ?_, acyclicCF_nil, ?_, ?_, ?_⟩
  · intro ent hent
    rw [List.mem_singleton] at hent
    subst hent
    refine ⟨⟨0, by simp [lookupA], le_refl 0⟩, ?_⟩
    refine ⟨[start], ⟨rfl, by simp, List.nodup_singleton _, rfl⟩, by simp [walkCost], ?_⟩
    intro i
    refine ⟨0, ?_, ?_⟩
    · rw [show [start].get i = start from by
        have h2 := i.2
        simp only [List.length_singleton] at h2
        have hi0 : (i : Nat) = 0 := by omega
        simp [List.get_eq_getElem, hi0]]
      simp [lookupA]
    · rw [List.take_succ_cons, List.take_nil]
      simp [walkCost]
  · simp [lookupA]
  · intro yx hyx
    simp at hyx
  · intro nv hnv
    rw [List.mem_singleton] at hnv
    exact Or.inl (by rw [hnv])
  · simp
  · simp

theorem phi_init_lt {α : Type} [LinearOrderedField α] (g : Graph α) (start : String)
    (ent : α × α × String) (gs0 : List (String × α)) :
    phiOf g start [ent] gs0 < astarFuel g := by
  unfold phiOf astarFuel
  rw [List.length_singleton]
  have hsum : ((nodeNames g).map (fun n => rankOf g start n (lookupA gs0 n))).sum
      ≤ (nodeNames g).length * ((maxDeg g + 1) ^ ((nodeNames g).length + 1)) := by
    have hb : ∀ x ∈ (nodeNames g).map (fun n => rankOf g start n (lookupA gs0 n)),
        x ≤ (maxDeg g + 1) ^ ((nodeNames g).length + 1) := by
      intro x hx
      obtain ⟨n, hn, rfl⟩ := List.mem_map.mp hx
      calc rankOf g start n (lookupA gs0 n)
          ≤ (spcosts g start n).card := rankOf_le_card g start n _
        _ ≤ (((extPaths g (nodeNames g).length [] start).filter
              (fun p => p.getLast? = some n)).map (walkCost g)).length := by
            unfold spcosts
            exact List.toFinset_card_le _
        _ ≤ (extPaths g (nodeNames g).length [] start).length := by
            rw [List.length_map]
            exact List.length_filter_le _ _
        _ ≤ (maxDeg g + 1) ^ ((nodeNames g).length + 1) :=
            extPaths_length_le g _ [] start
    have h2 := List.sum_le_card_nsmul
      ((nodeNames g).map (fun n => rankOf g start n (lookupA gs0 n)))
      ((maxDeg g + 1) ^ ((nodeNames g).length + 1)) hb
    simpa [smul_eq_mul] using h2
  have h3 : (nodeNames g).length * ((maxDeg g + 1) ^ ((nodeNames g).length + 1))
      ≤ ((nodeNames g).length + 1) * ((maxDeg g + 1) ^ ((nodeNames g).length + 1)) :=
    Nat.mul_le_mul_right _ (Nat.le_succ _)
  calc 1 + ((nodeNames g).map (fun n => rankOf g start n (lookupA gs0 n))).sum
      ≤ 1 + (nodeNames g).length * ((maxDeg g + 1) ^ ((nodeNames g).length + 1)) :=
        Nat.add_le_add_left hsum 1
    _ ≤ 1 + ((nodeNames g).length + 1) * ((maxDeg g + 1) ^ ((nodeNames g).length + 1)) :=
        Nat.add_le_add_left h3 1
    _ < 2 + ((nodeNames g).length + 1) * ((maxDeg g + 1) ^ ((nodeNames g).length + 1)) :=
        Nat.add_lt_add_right (by norm_num) _

theorem astar_terminates {α : Type} [LinearOrderedField α] (cities : List String)
    (g : Graph α) (h : String → String → α) (start goal : String)
    (hnn : NonnegGraph g) (hadj : AdjNodup g) :
    a_star_route cities g h start goal ≠ .fuelOut ∧
      ∀ p, a_star_route cities g h start goal = .found p → IsWalkFrom g start goal p := by
  unfold a_star_route
  by_cases hc : start ∈ cities ∧ goal ∈ cities
  · rw [if_pos hc]
    exact astarLoop_spec (fun n => h n goal) hnn hadj (astarFuel g)
      [(0 + h start goal, 0, start)] [] [(start, 0)]
      (aInv_init g start (0 + h start goal))
      (phi_init_lt g start (0 + h start goal, 0, start) [(start, 0)])
  · rw [if_neg hc]
    exact ⟨fun hcon => AStarResult.noConfusion hcon,
      fun p hp => AStarResult.noConfusion hp⟩

theorem walk_stays_in_closed {α : Type} {g : Graph α} {S : List String}
    (hclosed : ∀ a ∈ S, ∀ be ∈ neighborsOf g a, (be : String × Edge α).1 ∈ S) :
    ∀ p : List String, walkOK g p = true → ∀ a, p.head? = some a → a ∈ S →
      ∀ b, p.getLast? = some b → b ∈ S := by
  intro p
  induction p with
  | nil => intro _ a ha; simp at ha
  | cons x rest ih =>
    cases rest with
    | nil =>
      intro _ a ha hS b hb
      simp only [List.head?_cons, Option.some.injEq] at ha
      simp only [List.getLast?_singleton, Option.some.injEq] at hb
      rw [← hb, ha]
      exact hS
    | cons y rest2 =>
      intro h a ha hS b hb
      obtain ⟨he, hw⟩ := walkOK_cons.mp h
      obtain ⟨e, hee⟩ := Option.isSome_iff_exists.mp he
      simp only [List.head?_cons, Option.some.injEq] at ha
      have hxS : x ∈ S := by rw [ha]; exact hS
      have hyS : y ∈ S := hclosed x hxS (y, e) (lookupA_mem hee)
      rw [List.getLast?_cons_cons] at hb
      exact ih hw y rfl hyS b hb

theorem no_walk_of_closed {α : Type} {g : Graph α} {S : List String} {s t : String}
    (hs : s ∈ S) (ht : t ∉ S)
    (hclosed : ∀ a ∈ S, ∀ be ∈ neighborsOf g a, (be : String × Edge α).1 ∈ S) :
    ¬ ∃ p, IsWalkFrom g s t p := by
  rintro ⟨p, hwk, hh, hl⟩
  exact ht (walk_stays_in_closed hclosed p hwk s hh hs t hl)

theorem astar_noPath_of_no_walk {α : Type} [LinearOrderedField α] (cities : List String)
    (g : Graph α) (h : String → String → α) (start goal : String)
    (hnn : NonnegGraph g) (hadj : AdjNodup g)
    (hnw : ¬ ∃ p, IsWalkFrom g start goal p) :
    a_star_route cities g h start goal = .noPath := by
  obtain ⟨hfo, hfound⟩ := astar_terminates cities g h start goal hnn hadj
  rcases hres : a_star_route cities g h start goal with _ | _ | p
  · exact absurd hres hfo
  · rfl
  · exact absurd ⟨p, hfound p hres⟩ hnw

/-! ### Claims C10, C8 and the C2 counterexample -/

theorem nonnegGraph_GRAPH : NonnegGraph GRAPH := by
  unfold NonnegGraph GRAPH
  norm_num [List.forall_mem_cons]
  repeat' apply And.intro
  all_goals
    intro a b hab
    repeat'
      first
      | (rcases hab with ⟨rfl, rfl⟩ | hab)
      | (rcases hab with ⟨rfl, rfl⟩)
    all_goals subst_vars
    all_goals norm_num

theorem nonnegGraph_GTEST : NonnegGraph GTEST := by
  unfold NonnegGraph GTEST
  norm_num [List.forall_mem_cons]
  repeat' apply And.intro
  all_goals
    intro a b hab
    repeat'
      first
      | (rcases hab with ⟨rfl, rfl⟩ | hab)
      | (rcases hab with ⟨rfl, rfl⟩)
    all_goals subst_vars
    all_goals norm_num

theorem adjNodup_GTEST : AdjNodup GTEST := by
  intro c
  unfold neighborsOf
  rcases h : lookupA GTEST c with _ | nbrs
  · simp [keysOf]
  · have hm := lookupA_mem h
    simp only [GTEST] at hm
    fin_cases hm <;> simp [keysOf]

theorem no_walk_GTEST : ¬ ∃ p, IsWalkFrom GTEST "A" "C" p := by
  apply @no_walk_of_closed ℚ GTEST ["A", "B"] "A" "C" (by decide) (by decide)
  intro a ha be hbe
  fin_cases ha
  · simp [GTEST, neighborsOf, lookupA] at hbe
    simp [hbe]
  · simp [GTEST, neighborsOf, lookupA] at hbe
    simp [hbe]

/-- Claim C10: over any finite graph with nonnegative edge attributes (with
duplicate-free adjacency keys, as is automatic for a graph held in Python
dicts), `a_star_route` terminates for every request and every heuristic:
the fueled embedding of the unbounded `while open_heap:` loop never runs out
of fuel, so the function returns either a found path or `None`. -/
theorem C10_termination {α : Type} [LinearOrderedField α] (cities : List String)
    (g : Graph α) (h : String → String → α) (start goal : String)
    (hnn : NonnegGraph g) (hadj : AdjNodup g) :
    a_star_route cities g h start goal = .noPath ∨
      ∃ p, a_star_route cities g h start goal = .found p := by
  obtain ⟨hfo, _⟩ := astar_terminates cities g h start goal hnn hadj
  rcases hres : a_star_route cities g h start goal with _ | _ | p
  · exact absurd hres hfo
  · exact Or.inl rfl
  · exact Or.inr ⟨p, rfl⟩

theorem C10_witness :
    a_star_route cityNames GRAPH (fun _ _ => (0 : ℚ)) "Hyderabad" "Khammam" = .noPath ∨
      ∃ p, a_star_route cityNames GRAPH (fun _ _ => (0 : ℚ)) "Hyderabad" "Khammam" =
        .found p :=
  C10_termination cityNames GRAPH (fun _ _ => 0) "Hyderabad" "Khammam"
    nonnegGraph_GRAPH adjNodup_GRAPH

/-- Claim C8: for every pair of distinct known cities with no connecting walk
in a (partitioned) graph with nonnegative attributes, the search exhausts its
frontier and returns `None`, and the route handler reports the non-fatal
"No route found" / 404 error. -/
theorem C8_route_not_found {α : Type} [LinearOrderedField α] [FloorRing α]
    (cities : List String) (g : Graph α) (h : String → String → α) (s t : String)
    (hnn : NonnegGraph g) (hadj : AdjNodup g)
    (hsc : s ∈ cities) (htc : t ∈ cities)
    (hs : s ≠ "") (ht : t ≠ "") (hne : s ≠ t)
    (hnw : ¬ ∃ p, IsWalkFrom g s t p) :
    a_star_route cities g h s t = .noPath ∧
      get_route cities g h (some s) (some t) = .clientError "No route found" 404 := by
  have ha := astar_noPath_of_no_walk cities g h s t hnn hadj hnw
  refine ⟨ha, ?_⟩
  unfold get_route
  simp [truthy, hs, ht, hne, ha]

theorem C8_witness :
    a_star_route ["A", "B", "C", "D"] GTEST (fun _ _ => (0 : ℚ)) "A" "C" = .noPath ∧
      get_route ["A", "B", "C", "D"] GTEST (fun _ _ => (0 : ℚ)) (some "A") (some "C") =
        .clientError "No route found" 404 :=
  C8_route_not_found ["A", "B", "C", "D"] GTEST (fun _ _ => 0) "A" "C"
    nonnegGraph_GTEST adjNodup_GTEST (by decide) (by decide) (by decide) (by decide)
    (by decide) no_walk_GTEST

/-- Counterexample to claim C2: the request Hyderabad → Atlantis names an
unknown endpoint, yet the handler answers with exactly the same
"No route found" / 404 response that a genuinely exhausted search produces
(here: A → C on the partitioned test graph). The code has no distinct
UnknownCity error. -/
theorem C2_counterexample :
    get_route cityNames GRAPH (fun _ _ => (0 : ℚ)) (some "Hyderabad") (some "Atlantis") =
      .clientError "No route found" 404 ∧
    get_route ["A", "B", "C", "D"] GTEST (fun _ _ => (0 : ℚ)) (some "A") (some "C") =
      .clientError "No route found" 404 := by
  constructor
  · have ha : a_star_route cityNames GRAPH (fun _ _ => (0 : ℚ)) "Hyderabad" "Atlantis"
        = .noPath := by
      unfold a_star_route
      rw [if_neg]
      intro hmem
      have := hmem.2
      revert this
      decide
    unfold get_route
    simp [truthy, ha]
  · have ha : a_star_route ["A", "B", "C", "D"] GTEST (fun _ _ => (0 : ℚ)) "A" "C"
        = .noPath :=
      astar_noPath_of_no_walk ["A", "B", "C", "D"] GTEST (fun _ _ => 0) "A" "C"
        nonnegGraph_GTEST adjNodup_GTEST no_walk_GTEST
    unfold get_route
    simp [truthy, ha]

/-! ### C4: analytic bounds for the haversine heuristic -/

theorem sin_sq_le_sq_aux (t : ℝ) (h : 0 ≤ t) : Real.sin t ^ 2 ≤ t ^ 2 := by
  have hs := Real.sin_le h
  rcases le_or_lt t 1 with h2 | h2
  · have hnn : 0 ≤ Real.sin t :=
      Real.sin_nonneg_of_nonneg_of_le_pi h (by linarith [Real.pi_gt_three])
    exact sq_le_sq' (by linarith) hs
  · exact sq_le_sq' (by linarith [Real.neg_one_le_sin t]) hs

theorem sin_sq_le_sq (t : ℝ) : Real.sin t ^ 2 ≤ t ^ 2 := by
  rcases le_or_lt 0 t with h | h
  · exact sin_sq_le_sq_aux t h
  · have h2 := sin_sq_le_sq_aux (-t) (by linarith)
    rwa [Real.sin_neg, neg_sq, neg_sq] at h2

theorem cos_le_quartic (x : ℝ) (h : |x| ≤ 1) :
    Real.cos x ≤ 1 - x ^ 2 / 2 + 5 * x ^ 4 / 96 := by
  have hb := (abs_le.mp (Real.cos_bound h)).2
  have he : |x| ^ 4 = x ^ 4 := by
    rw [← abs_pow]
    exact abs_of_nonneg (by positivity)
  rw [he] at hb
  linarith

theorem cos_ge_quartic (x : ℝ) (h : |x| ≤ 1) :
    1 - x ^ 2 / 2 - 5 * x ^ 4 / 96 ≤ Real.cos x := by
  have hb := (abs_le.mp (Real.cos_bound h)).1
  have he : |x| ^ 4 = x ^ 4 := by
    rw [← abs_pow]
    exact abs_of_nonneg (by positivity)
  rw [he] at hb
  linarith

theorem sin_sq_ge_quartic (t : ℝ) (h : (2 * t) ^ 2 ≤ 1) :
    t ^ 2 - 5 * t ^ 4 / 12 ≤ Real.sin t ^ 2 := by
  have habs : |2 * t| ≤ 1 := by
    rw [← sq_le_one_iff_abs_le_one]
    exact h
  have hb := cos_le_quartic (2 * t) habs
  have hexp : (2 * t) ^ 2 = 4 * t ^ 2 := by ring
  have hexp2 : (2 * t) ^ 4 = 16 * t ^ 4 := by ring
  rw [hexp, hexp2] at hb
  rw [Real.sin_sq_eq_half_sub]
  linarith

theorem pi_lb : (3141592 / 1000000 : ℝ) < Real.pi := by
  have h := Real.pi_gt_3141592
  norm_num at h ⊢
  linarith

theorem pi_ub : Real.pi < (3141593 / 1000000 : ℝ) := by
  have h := Real.pi_lt_3141593
  norm_num at h ⊢
  linarith

theorem lat_angle_bounds (la : ℝ) (h0 : 0 ≤ la) (hu : la ≤ 20) :
    la * (3141592 / 1000000) / 180 ≤ la * Real.pi / 180 ∧
      la * Real.pi / 180 ≤ la * (3141593 / 1000000) / 180 ∧
      0 ≤ la * Real.pi / 180 ∧ la * Real.pi / 180 ≤ 1 ∧
      la * Real.pi / 180 ≤ Real.pi / 2 := by
  have hpl := pi_lb
  have hpu := pi_ub
  have hpi0 : (0 : ℝ) < Real.pi := by linarith
  have h1 := mul_le_mul_of_nonneg_left hpl.le h0
  have h2 := mul_le_mul_of_nonneg_left hpu.le h0
  have h3 : la * Real.pi ≤ 20 * (3141593 / 1000000) :=
    le_trans (mul_le_mul_of_nonneg_right hu hpi0.le)
      (by nlinarith)
  have h4 : la * Real.pi ≤ 90 * Real.pi :=
    mul_le_mul_of_nonneg_right (by linarith) hpi0.le
  refine ⟨by linarith, by linarith, by positivity, by linarith, by linarith⟩

theorem cos_lat_le (la c : ℝ) (h0 : 0 ≤ la) (hu : la ≤ 20)
    (hc : 1 - (la * (3141592 / 1000000) / 180) ^ 2 / 2
      + 5 * (la * (3141593 / 1000000) / 180) ^ 4 / 96 ≤ c) :
    Real.cos (la * Real.pi / 180) ≤ c := by
  obtain ⟨hl, hu2, hnn, h1, _⟩ := lat_angle_bounds la h0 hu
  have hq := cos_le_quartic (la * Real.pi / 180) (by rw [abs_of_nonneg hnn]; exact h1)
  have hxl0 : 0 ≤ la * (3141592 / 1000000) / 180 := by positivity
  have h2 : (la * (3141592 / 1000000) / 180) ^ 2 ≤ (la * Real.pi / 180) ^ 2 :=
    pow_le_pow_left hxl0 hl 2
  have h3 : (la * Real.pi / 180) ^ 4 ≤ (la * (3141593 / 1000000) / 180) ^ 4 :=
    pow_le_pow_left hnn hu2 4
  linarith

theorem cos_lat_ge (la c : ℝ) (h0 : 0 ≤ la) (hu : la ≤ 20)
    (hc : c ≤ 1 - (la * (3141593 / 1000000) / 180) ^ 2 / 2
      - 5 * (la * (3141593 / 1000000) / 180) ^ 4 / 96) :
    c ≤ Real.cos (la * Real.pi / 180) := by
  obtain ⟨hl, hu2, hnn, h1, _⟩ := lat_angle_bounds la h0 hu
  have hq := cos_ge_quartic (la * Real.pi / 180) (by rw [abs_of_nonneg hnn]; exact h1)
  have h2 : (la * Real.pi / 180) ^ 2 ≤ (la * (3141593 / 1000000) / 180) ^ 2 :=
    pow_le_pow_left hnn hu2 2
  have h3 : (la * Real.pi / 180) ^ 4 ≤ (la * (3141593 / 1000000) / 180) ^ 4 :=
    pow_le_pow_left hnn hu2 4
  linarith

theorem cos_lat_nonneg (la : ℝ) (h0 : 0 ≤ la) (hu : la ≤ 20) :
    0 ≤ Real.cos (la * Real.pi / 180) := by
  obtain ⟨_, _, hnn, _, h5⟩ := lat_angle_bounds la h0 hu
  exact Real.cos_nonneg_of_mem_Icc ⟨by linarith [Real.pi_gt_three], h5⟩

theorem delta_sin_sq_le (d : ℝ) :
    Real.sin (d * Real.pi / 180 / 2) ^ 2 ≤ (d * (3141593 / 1000000) / 360) ^ 2 := by
  have h := sin_sq_le_sq (d * Real.pi / 180 / 2)
  have hpu := pi_ub
  have hpi0 : (0 : ℝ) < Real.pi := by linarith [pi_lb]
  have hsq : (d * Real.pi / 180 / 2) ^ 2 = d ^ 2 * Real.pi ^ 2 / 129600 := by ring
  have hsq2 : (d * (3141593 / 1000000) / 360) ^ 2
      = d ^ 2 * (3141593 / 1000000) ^ 2 / 129600 := by ring
  have hp2 : Real.pi ^ 2 ≤ (3141593 / 1000000 : ℝ) ^ 2 := by nlinarith
  have hd2 : 0 ≤ d ^ 2 := sq_nonneg d
  calc Real.sin (d * Real.pi / 180 / 2) ^ 2 ≤ (d * Real.pi / 180 / 2) ^ 2 := h
    _ = d ^ 2 * Real.pi ^ 2 / 129600 := hsq
    _ ≤ d ^ 2 * (3141593 / 1000000) ^ 2 / 129600 := by nlinarith
    _ = (d * (3141593 / 1000000) / 360) ^ 2 := hsq2.symm

theorem delta_sin_sq_ge (d : ℝ) (hd : d ^ 2 ≤ 100) :
    (d * (3141592 / 1000000) / 360) ^ 2 - 5 * (d * (3141593 / 1000000) / 360) ^ 4 / 12
      ≤ Real.sin (d * Real.pi / 180 / 2) ^ 2 := by
  have hpl := pi_lb
  have hpu := pi_ub
  have hpi0 : (0 : ℝ) < Real.pi := by linarith
  have h2t : (2 * (d * Real.pi / 180 / 2)) ^ 2 ≤ 1 := by
    have he : (2 * (d * Real.pi / 180 / 2)) ^ 2 = d ^ 2 * Real.pi ^ 2 / 32400 := by
      ring
    rw [he]
    have hp2 : Real.pi ^ 2 ≤ 10 := by nlinarith
    nlinarith [sq_nonneg d]
  have h := sin_sq_ge_quartic (d * Real.pi / 180 / 2) h2t
  have he2 : (d * Real.pi / 180 / 2) ^ 2 = d ^ 2 * Real.pi ^ 2 / 129600 := by ring
  have he4 : (d * Real.pi / 180 / 2) ^ 4 = d ^ 4 * Real.pi ^ 4 / 129600 ^ 2 := by ring
  have hl2 : (d * (3141592 / 1000000) / 360) ^ 2 ≤ (d * Real.pi / 180 / 2) ^ 2 := by
    rw [he2, show (d * (3141592 / 1000000) / 360) ^ 2
      = d ^ 2 * (3141592 / 1000000) ^ 2 / 129600 from by ring]
    have hp2 : (3141592 / 1000000 : ℝ) ^ 2 ≤ Real.pi ^ 2 := by nlinarith
    nlinarith [sq_nonneg d]
  have hu4 : (d * Real.pi / 180 / 2) ^ 4 ≤ (d * (3141593 / 1000000) / 360) ^ 4 := by
    rw [he4, show (d * (3141593 / 1000000) / 360) ^ 4
      = d ^ 4 * (3141593 / 1000000) ^ 4 / 129600 ^ 2 from by ring]
    have hp2 : Real.pi ^ 2 ≤ (3141593 / 1000000 : ℝ) ^ 2 := by nlinarith
    have hp4 : Real.pi ^ 4 ≤ (3141593 / 1000000 : ℝ) ^ 4 := by
      have h1 := pow_le_pow_left (sq_nonneg Real.pi) hp2 2
      calc Real.pi ^ 4 = (Real.pi ^ 2) ^ 2 := by ring
        _ ≤ ((3141593 / 1000000 : ℝ) ^ 2) ^ 2 := h1
        _ = (3141593 / 1000000 : ℝ) ^ 4 := by ring
    have hd4 : 0 ≤ d ^ 4 := by positivity
    nlinarith [mul_le_mul_of_nonneg_left hp4 hd4]
  linarith

theorem havA_le (la1 lo1 la2 lo2 c1 c2 Au : ℝ)
    (h0a : 0 ≤ la1) (h0b : 0 ≤ la2) (hua : la1 ≤ 20) (hub2 : la2 ≤ 20)
    (hc1 : 1 - (la1 * (3141592 / 1000000) / 180) ^ 2 / 2
      + 5 * (la1 * (3141593 / 1000000) / 180) ^ 4 / 96 ≤ c1)
    (hc2 : 1 - (la2 * (3141592 / 1000000) / 180) ^ 2 / 2
      + 5 * (la2 * (3141593 / 1000000) / 180) ^ 4 / 96 ≤ c2)
    (hc10 : 0 ≤ c1) (hc20 : 0 ≤ c2)
    (hAu : ((la2 - la1) * (3141593 / 1000000) / 360) ^ 2
      + c1 * c2 * ((lo2 - lo1) * (3141593 / 1000000) / 360) ^ 2 ≤ Au) :
    havA la1 lo1 la2 lo2 ≤ Au := by
  have hcos1 := cos_lat_le la1 c1 h0a hua hc1
  have hcos2 := cos_lat_le la2 c2 h0b hub2 hc2
  have hcos1nn := cos_lat_nonneg la1 h0a hua
  have hcos2nn := cos_lat_nonneg la2 h0b hub2
  have hs1 := delta_sin_sq_le (la2 - la1)
  have hs2 := delta_sin_sq_le (lo2 - lo1)
  have hsnn : 0 ≤ Real.sin ((lo2 - lo1) * Real.pi / 180 / 2) ^ 2 := sq_nonneg _
  have h1 : Real.cos (la1 * Real.pi / 180) * Real.cos (la2 * Real.pi / 180)
      ≤ c1 * c2 := mul_le_mul hcos1 hcos2 hcos2nn hc10
  have h1nn : 0 ≤ Real.cos (la1 * Real.pi / 180) * Real.cos (la2 * Real.pi / 180) :=
    mul_nonneg hcos1nn hcos2nn
  have hprod : Real.cos (la1 * Real.pi / 180) * Real.cos (la2 * Real.pi / 180) *
      Real.sin ((lo2 - lo1) * Real.pi / 180 / 2) ^ 2
      ≤ c1 * c2 * ((lo2 - lo1) * (3141593 / 1000000) / 360) ^ 2 :=
    le_trans (mul_le_mul_of_nonneg_right h1 hsnn)
      (mul_le_mul_of_nonneg_left hs2 (mul_nonneg hc10 hc20))
  unfold havA
  linarith

theorem havA_ge (la1 lo1 la2 lo2 cl1 cl2 Al : ℝ)
    (h0a : 0 ≤ la1) (h0b : 0 ≤ la2) (hua : la1 ≤ 20) (hub2 : la2 ≤ 20)
    (hd1 : (la2 - la1) ^ 2 ≤ 100) (hd2 : (lo2 - lo1) ^ 2 ≤ 100)
    (hcl1 : cl1 ≤ 1 - (la1 * (3141593 / 1000000) / 180) ^ 2 / 2
      - 5 * (la1 * (3141593 / 1000000) / 180) ^ 4 / 96)
    (hcl2 : cl2 ≤ 1 - (la2 * (3141593 / 1000000) / 180) ^ 2 / 2
      - 5 * (la2 * (3141593 / 1000000) / 180) ^ 4 / 96)
    (hcl10 : 0 ≤ cl1) (hcl20 : 0 ≤ cl2)
    (hs2l : 0 ≤ ((lo2 - lo1) * (3141592 / 1000000) / 360) ^ 2
      - 5 * ((lo2 - lo1) * (3141593 / 1000000) / 360) ^ 4 / 12)
    (hAl : Al ≤ ((la2 - la1) * (3141592 / 1000000) / 360) ^ 2
        - 5 * ((la2 - la1) * (3141593 / 1000000) / 360) ^ 4 / 12
      + cl1 * cl2 * (((lo2 - lo1) * (3141592 / 1000000) / 360) ^ 2
        - 5 * ((lo2 - lo1) * (3141593 / 1000000) / 360) ^ 4 / 12)) :
    Al ≤ havA la1 lo1 la2 lo2 := by
  have hcos1 := cos_lat_ge la1 cl1 h0a hua hcl1
  have hcos2 := cos_lat_ge la2 cl2 h0b hub2 hcl2
  have hcos1nn := cos_lat_nonneg la1 h0a hua
  have hcos2nn := cos_lat_nonneg la2 h0b hub2
  have hs1 := delta_sin_sq_ge (la2 - la1) hd1
  have hs2 := delta_sin_sq_ge (lo2 - lo1) hd2
  have h1 : cl1 * cl2 ≤ Real.cos (la1 * Real.pi / 180) * Real.cos (la2 * Real.pi / 180) :=
    mul_le_mul hcos1 hcos2 hcl20 hcos1nn
  have h1nn : 0 ≤ Real.cos (la1 * Real.pi / 180) * Real.cos (la2 * Real.pi / 180) :=
    mul_nonneg hcos1nn hcos2nn
  have hprod : cl1 * cl2 * (((lo2 - lo1) * (3141592 / 1000000) / 360) ^ 2
        - 5 * ((lo2 - lo1) * (3141593 / 1000000) / 360) ^ 4 / 12)
      ≤ Real.cos (la1 * Real.pi / 180) * Real.cos (la2 * Real.pi / 180) *
        Real.sin ((lo2 - lo1) * Real.pi / 180 / 2) ^ 2 :=
    le_trans (mul_le_mul_of_nonneg_right h1 hs2l)
      (mul_le_mul_of_nonneg_left hs2 h1nn)
  unfold havA
  linarith

theorem havA_nonneg (la1 lo1 la2 lo2 : ℝ) (h0a : 0 ≤ la1) (h0b : 0 ≤ la2)
    (hua : la1 ≤ 20) (hub2 : la2 ≤ 20) : 0 ≤ havA la1 lo1 la2 lo2 := by
  have hcos1nn := cos_lat_nonneg la1 h0a hua
  have hcos2nn := cos_lat_nonneg la2 h0b hub2
  unfold havA
  have h1 : 0 ≤ Real.sin ((la2 - la1) * Real.pi / 180 / 2) ^ 2 := sq_nonneg _
  have h2 : 0 ≤ Real.sin ((lo2 - lo1) * Real.pi / 180 / 2) ^ 2 := sq_nonneg _
  exact add_nonneg h1 (mul_nonneg (mul_nonneg hcos1nn hcos2nn) h2)

theorem haversine_eq_arcsin (la1 lo1 la2 lo2 : ℝ)
    (hA0 : 0 ≤ havA la1 lo1 la2 lo2) (hA1 : havA la1 lo1 la2 lo2 < 1) :
    haversine_km la1 lo1 la2 lo2
      = 2 * Real.arcsin (Real.sqrt (havA la1 lo1 la2 lo2)) * 6371 := by
  have hxpos : 0 < Real.sqrt (1 - havA la1 lo1 la2 lo2) :=
    Real.sqrt_pos.mpr (by linarith)
  have hz2 : Real.sqrt (havA la1 lo1 la2 lo2) ^ 2 = havA la1 lo1 la2 lo2 :=
    Real.sq_sqrt hA0
  have hlt1 : Real.sqrt (havA la1 lo1 la2 lo2) < 1 := by
    nlinarith [Real.sqrt_nonneg (havA la1 lo1 la2 lo2)]
  have hmem : Real.sqrt (havA la1 lo1 la2 lo2) ∈ Set.Ioo (-1 : ℝ) 1 :=
    ⟨by linarith [Real.sqrt_nonneg (havA la1 lo1 la2 lo2)], hlt1⟩
  rw [show haversine_km la1 lo1 la2 lo2
    = 2 * atan2 (Real.sqrt (havA la1 lo1 la2 lo2))
      (Real.sqrt (1 - havA la1 lo1 la2 lo2)) * 6371 from rfl]
  rw [atan2, if_pos hxpos, Real.arcsin_eq_arctan hmem, hz2]

theorem haversine_le_of (la1 lo1 la2 lo2 q : ℝ)
    (hA0 : 0 ≤ havA la1 lo1 la2 lo2)
    (hA : havA la1 lo1 la2 lo2 ≤ q ^ 2) (hq0 : 0 < q) (hqs : q ≤ 1 / 40) :
    haversine_km la1 lo1 la2 lo2 ≤ 2 * (q + q ^ 3) * 6371 := by
  have hq2 : q ^ 2 ≤ 1 / 1600 := by nlinarith
  have heq := haversine_eq_arcsin la1 lo1 la2 lo2 hA0 (by nlinarith)
  have hs : Real.sqrt (havA la1 lo1 la2 lo2) ≤ q :=
    le_trans (Real.sqrt_le_sqrt hA) (le_of_eq (Real.sqrt_sq hq0.le))
  have hy0 : 0 < q + q ^ 3 := by nlinarith [pow_pos hq0 3]
  have hy1 : q + q ^ 3 ≤ 1 := by nlinarith [pow_pos hq0 3]
  have hcube := Real.sin_gt_sub_cube hy0 hy1
  have hq3 : 0 < q ^ 3 := pow_pos hq0 3
  have he1 : (q + q ^ 3) ^ 3 = q ^ 3 * (1 + q ^ 2) ^ 3 := by ring
  have he2 : (1 + q ^ 2) ^ 3 ≤ 2 := by nlinarith
  have he3 : (q + q ^ 3) ^ 3 ≤ 2 * q ^ 3 := by
    rw [he1]
    nlinarith
  have hqy : q ≤ (q + q ^ 3) - (q + q ^ 3) ^ 3 / 4 := by linarith
  have hsin : Real.sqrt (havA la1 lo1 la2 lo2) ≤ Real.sin (q + q ^ 3) := by
    linarith
  have harc := Real.monotone_arcsin hsin
  rw [Real.arcsin_sin (by linarith [Real.pi_gt_three])
    (by linarith [Real.pi_gt_three])] at harc
  rw [heq]
  linarith

theorem haversine_ge_of (la1 lo1 la2 lo2 q : ℝ)
    (hA0 : 0 ≤ havA la1 lo1 la2 lo2) (hAu : havA la1 lo1 la2 lo2 ≤ 1 / 2)
    (hq : q ^ 2 ≤ havA la1 lo1 la2 lo2) (hq0 : 0 ≤ q) :
    2 * q * 6371 ≤ haversine_km la1 lo1 la2 lo2 := by
  have heq := haversine_eq_arcsin la1 lo1 la2 lo2 hA0 (by linarith)
  have hsq : q ≤ Real.sqrt (havA la1 lo1 la2 lo2) :=
    le_trans (le_of_eq (Real.sqrt_sq hq0).symm) (Real.sqrt_le_sqrt hq)
  have hle1 : Real.sqrt (havA la1 lo1 la2 lo2) ≤ 1 :=
    Real.sqrt_le_one.mpr (by linarith)
  have harcsin : Real.sqrt (havA la1 lo1 la2 lo2)
      ≤ Real.arcsin (Real.sqrt (havA la1 lo1 la2 lo2)) := by
    have h0 : 0 ≤ Real.arcsin (Real.sqrt (havA la1 lo1 la2 lo2)) :=
      Real.arcsin_nonneg.mpr (Real.sqrt_nonneg (havA la1 lo1 la2 lo2))
    have h1 := Real.sin_le h0
    rwa [Real.sin_arcsin (by linarith [Real.sqrt_nonneg (havA la1 lo1 la2 lo2)])
      hle1] at h1
  rw [heq]
  linarith

theorem heuristic_eq (a b : String) :
    heuristic_time_min a b
      = haversine_km (cityLat a) (cityLon a) (cityLat b) (cityLon b) * (63 / 80) := by
  unfold heuristic_time_min
  rw [show KM_PER_MIN ℝ = 4 / 3 from by norm_num [KM_PER_MIN]]
  rw [show ((AVG_RISK : ℚ) : ℝ) = 21 / 20 from by norm_num [AVG_RISK]]
  ring

/-! ### C4: dual potentials and certificate lemmas -/

theorem walk_ge_phi {φ : String → ℚ} {g : Graph ℚ} (hfeas : Feasible φ g) :
    ∀ (p : List String) (a b : String), walkOK g p = true →
      p.head? = some a → p.getLast? = some b → φ b - φ a ≤ walkCost g p := by
  intro p
  induction p with
  | nil => intro a b _ h; simp at h
  | cons x rest ih =>
    cases rest with
    | nil =>
      intro a b _ ha hb
      simp only [List.head?_cons, Option.some.injEq] at ha
      simp only [List.getLast?_singleton, Option.some.injEq] at hb
      rw [← ha, ← hb]
      simp [walkCost]
    | cons y rest2 =>
      intro a b h ha hb
      obtain ⟨he, hw⟩ := walkOK_cons.mp h
      obtain ⟨e, hee⟩ := Option.isSome_iff_exists.mp he
      simp only [List.head?_cons, Option.some.injEq] at ha
      rw [List.getLast?_cons_cons] at hb
      have hstep : φ y ≤ φ x + edge_cost_minutes e := by
        obtain ⟨nbrs, hg, hb2⟩ := edge_mem_of_lookupEdge hee
        exact hfeas (x, nbrs) hg (y, e) hb2
      have hih := ih y b hw rfl hb
      rw [walkCost_cons hee, ← ha]
      linarith

theorem admissible_of_cert (a b : String) (la1 lo1 la2 lo2 c1 c2 q : ℚ)
    (hla : cityLat a = (la1 : ℝ)) (hloa : cityLon a = (lo1 : ℝ))
    (hlb : cityLat b = (la2 : ℝ)) (hlob : cityLon b = (lo2 : ℝ))
    (h0a : 0 ≤ la1) (h0b : 0 ≤ la2) (hua : la1 ≤ 20) (hub2 : la2 ≤ 20)
    (hc1 : (1 : ℚ) - (la1 * (3141592 / 1000000) / 180) ^ 2 / 2
      + 5 * (la1 * (3141593 / 1000000) / 180) ^ 4 / 96 ≤ c1)
    (hc2 : (1 : ℚ) - (la2 * (3141592 / 1000000) / 180) ^ 2 / 2
      + 5 * (la2 * (3141593 / 1000000) / 180) ^ 4 / 96 ≤ c2)
    (hc10 : 0 ≤ c1) (hc20 : 0 ≤ c2)
    (hq : ((la2 - la1) * (3141593 / 1000000) / 360) ^ 2
      + c1 * c2 * ((lo2 - lo1) * (3141593 / 1000000) / 360) ^ 2 ≤ q ^ 2)
    (hq0 : 0 < q) (hqs : q ≤ 1 / 40)
    (hfeas : Feasible (PHI a) GRAPH)
    (hphia : PHI a a = 0)
    (hfin : 2 * (q + q ^ 3) * 6371 * (63 / 80) ≤ PHI a b) :
    ∀ p, IsWalkFrom GRAPH a b p →
      heuristic_time_min a b ≤ ((walkCost GRAPH p : ℚ) : ℝ) := by
  intro p hp
  obtain ⟨hwk, hhd, hlast⟩ := hp
  have hcost : PHI a b ≤ walkCost GRAPH p := by
    have h1 := walk_ge_phi hfeas p a b hwk hhd hlast
    rw [hphia] at h1
    linarith
  have hAle : havA (la1 : ℝ) (lo1 : ℝ) (la2 : ℝ) (lo2 : ℝ) ≤ ((q : ℝ)) ^ 2 := by
    apply havA_le _ _ _ _ ((c1 : ℝ)) ((c2 : ℝ)) _
      (by exact_mod_cast h0a) (by exact_mod_cast h0b)
      (by exact_mod_cast hua) (by exact_mod_cast hub2)
      (by have h2 := hc1; rify at h2; exact h2) (by have h2 := hc2; rify at h2; exact h2)
      (by exact_mod_cast hc10) (by exact_mod_cast hc20)
      (by have h2 := hq; rify at h2; exact h2)
  have hA0 : 0 ≤ havA (la1 : ℝ) (lo1 : ℝ) (la2 : ℝ) (lo2 : ℝ) :=
    havA_nonneg _ _ _ _ (by exact_mod_cast h0a) (by exact_mod_cast h0b)
      (by exact_mod_cast hua) (by exact_mod_cast hub2)
  have hhav := haversine_le_of (la1 : ℝ) (lo1 : ℝ) (la2 : ℝ) (lo2 : ℝ) (q : ℝ) hA0 hAle
    (by exact_mod_cast hq0) (by have h2 := hqs; rify at h2; exact h2)
  rw [heuristic_eq, hla, hloa, hlb, hlob]
  have hfin2 : 2 * ((q : ℝ) + (q : ℝ) ^ 3) * 6371 * (63 / 80) ≤ ((PHI a b : ℚ) : ℝ) := by
    have h2 := hfin
    rify at h2
    exact h2
  have hcost2 : ((PHI a b : ℚ) : ℝ) ≤ ((walkCost GRAPH p : ℚ) : ℝ) := by
    exact_mod_cast hcost
  linarith

theorem inadmissible_of_cert (a b : String) (la1 lo1 la2 lo2 cl1 cl2 ql W : ℚ)
    (hla : cityLat a = (la1 : ℝ)) (hloa : cityLon a = (lo1 : ℝ))
    (hlb : cityLat b = (la2 : ℝ)) (hlob : cityLon b = (lo2 : ℝ))
    (h0a : 0 ≤ la1) (h0b : 0 ≤ la2) (hua : la1 ≤ 20) (hub2 : la2 ≤ 20)
    (hd1 : (la2 - la1) ^ 2 ≤ 100) (hd2 : (lo2 - lo1) ^ 2 ≤ 100)
    (hcl1 : cl1 ≤ (1 : ℚ) - (la1 * (3141593 / 1000000) / 180) ^ 2 / 2
      - 5 * (la1 * (3141593 / 1000000) / 180) ^ 4 / 96)
    (hcl2 : cl2 ≤ (1 : ℚ) - (la2 * (3141593 / 1000000) / 180) ^ 2 / 2
      - 5 * (la2 * (3141593 / 1000000) / 180) ^ 4 / 96)
    (hcl10 : 0 ≤ cl1) (hcl20 : 0 ≤ cl2)
    (hs2l : 0 ≤ ((lo2 - lo1) * (3141592 / 1000000) / 360) ^ 2
      - 5 * ((lo2 - lo1) * (3141593 / 1000000) / 360) ^ 4 / 12)
    (hql : ql ^ 2 ≤ ((la2 - la1) * (3141592 / 1000000) / 360) ^ 2
        - 5 * ((la2 - la1) * (3141593 / 1000000) / 360) ^ 4 / 12
      + cl1 * cl2 * (((lo2 - lo1) * (3141592 / 1000000) / 360) ^ 2
        - 5 * ((lo2 - lo1) * (3141593 / 1000000) / 360) ^ 4 / 12))
    (hql0 : 0 ≤ ql)
    (hc1one : (1 : ℚ) - (la1 * (3141592 / 1000000) / 180) ^ 2 / 2
      + 5 * (la1 * (3141593 / 1000000) / 180) ^ 4 / 96 ≤ 1)
    (hc2one : (1 : ℚ) - (la2 * (3141592 / 1000000) / 180) ^ 2 / 2
      + 5 * (la2 * (3141593 / 1000000) / 180) ^ 4 / 96 ≤ 1)
    (hAu2 : ((la2 - la1) * (3141593 / 1000000) / 360) ^ 2
      + 1 * 1 * ((lo2 - lo1) * (3141593 / 1000000) / 360) ^ 2 ≤ 1 / 2)
    (p0 : List String) (hp0 : IsWalkFrom GRAPH a b p0)
    (hW : walkCost GRAPH p0 = W)
    (hfin : W < 2 * ql * 6371 * (63 / 80)) :
    ∃ p, IsWalkFrom GRAPH a b p ∧
      ((walkCost GRAPH p : ℚ) : ℝ) < heuristic_time_min a b := by
  refine ⟨p0, hp0, ?_⟩
  have hA0 : 0 ≤ havA (la1 : ℝ) (lo1 : ℝ) (la2 : ℝ) (lo2 : ℝ) :=
    havA_nonneg _ _ _ _ (by exact_mod_cast h0a) (by exact_mod_cast h0b)
      (by exact_mod_cast hua) (by exact_mod_cast hub2)
  have hAub : havA (la1 : ℝ) (lo1 : ℝ) (la2 : ℝ) (lo2 : ℝ) ≤ 1 / 2 := by
    apply havA_le _ _ _ _ 1 1 _
      (by exact_mod_cast h0a) (by exact_mod_cast h0b)
      (by exact_mod_cast hua) (by exact_mod_cast hub2)
      (by have h2 := hc1one; rify at h2; exact h2) (by have h2 := hc2one; rify at h2; exact h2)
      (by norm_num) (by norm_num)
      (by have h2 := hAu2; rify at h2; exact h2)
  have hAlb : ((ql : ℝ)) ^ 2 ≤ havA (la1 : ℝ) (lo1 : ℝ) (la2 : ℝ) (lo2 : ℝ) := by
    apply havA_ge _ _ _ _ ((cl1 : ℝ)) ((cl2 : ℝ)) _
      (by exact_mod_cast h0a) (by exact_mod_cast h0b)
      (by exact_mod_cast hua) (by exact_mod_cast hub2)
      (by have h2 := hd1; rify at h2; exact h2) (by have h2 := hd2; rify at h2; exact h2)
      (by have h2 := hcl1; rify at h2; exact h2) (by have h2 := hcl2; rify at h2; exact h2)
      (by exact_mod_cast hcl10) (by exact_mod_cast hcl20)
      (by have h2 := hs2l; rify at h2; exact h2)
      (by have h2 := hql; rify at h2; exact h2)
  have hhav := haversine_ge_of (la1 : ℝ) (lo1 : ℝ) (la2 : ℝ) (lo2 : ℝ) (ql : ℝ)
    hA0 hAub hAlb (by exact_mod_cast hql0)
  rw [heuristic_eq, hla, hloa, hlb, hlob, hW]
  have hfin2 : ((W : ℚ) : ℝ) < 2 * (ql : ℝ) * 6371 * (63 / 80) := by
    have h2 := hfin
    rify at h2
    exact h2
  linarith

/-! ### C4: per-city constants and per-pair certificates -/

theorem clat_0 : cityLat "Hyderabad" = ((3477/200 : ℚ) : ℝ) := by
  simp [cityLat, CITIES, lookupA]

theorem clon_0 : cityLon "Hyderabad" = ((784867/10000 : ℚ) : ℝ) := by
  simp [cityLon, CITIES, lookupA]

theorem phiself_0 : PHI "Hyderabad" "Hyderabad" = 0 := by
  simp +decide only [PHI, DIJ, lookupA, Option.getD_some]

theorem cosub_0 : (1 : ℚ) - ((3477/200) * (3141592 / 1000000) / 180) ^ 2 / 2
    + 5 * ((3477/200) * (3141593 / 1000000) / 180) ^ 4 / 96 ≤ (119301/125000) := by
  norm_num

theorem PHI_feas_0 : Feasible (PHI "Hyderabad") GRAPH := by
  unfold Feasible GRAPH
  norm_num [List.forall_mem_cons]
  repeat' apply And.intro
  all_goals
    intro a b hab
    repeat'
      first
      | (rcases hab with ⟨rfl, rfl⟩ | hab)
      | (rcases hab with ⟨rfl, rfl⟩)
    all_goals subst_vars
    all_goals simp +decide only [PHI, DIJ, lookupA, Option.getD_some]
    all_goals norm_num [edge_cost_minutes, KM_PER_MIN]

theorem clat_1 : cityLat "Warangal" = ((179689/10000 : ℚ) : ℝ) := by
  simp [cityLat, CITIES, lookupA]

theorem clon_1 : cityLon "Warangal" = ((795941/10000 : ℚ) : ℝ) := by
  simp [cityLon, CITIES, lookupA]

theorem phiself_1 : PHI "Warangal" "Warangal" = 0 := by
  simp +decide only [PHI, DIJ, lookupA, Option.getD_some]

theorem cosub_1 : (1 : ℚ) - ((179689/10000) * (3141592 / 1000000) / 180) ^ 2 / 2
    + 5 * ((179689/10000) * (3141593 / 1000000) / 180) ^ 4 / 96 ≤ (9513263/10000000) := by
  norm_num

theorem PHI_feas_1 : Feasible (PHI "Warangal") GRAPH := by
  unfold Feasible GRAPH
  norm_num [List.forall_mem_cons]
  repeat' apply And.intro
  all_goals
    intro a b hab
    repeat'
      first
      | (rcases hab with ⟨rfl, rfl⟩ | hab)
      | (rcases hab with ⟨rfl, rfl⟩)
    all_goals subst_vars
    all_goals simp +decide only [PHI, DIJ, lookupA, Option.getD_some]
    all_goals norm_num [edge_cost_minutes, KM_PER_MIN]

theorem clat_2 : cityLat "Nizamabad" = ((7469/400 : ℚ) : ℝ) := by
  simp [cityLat, CITIES, lookupA]

theorem clon_2 : cityLon "Nizamabad" = ((780941/10000 : ℚ) : ℝ) := by
  simp [cityLon, CITIES, lookupA]

theorem phiself_2 : PHI "Nizamabad" "Nizamabad" = 0 := by
  simp +decide only [PHI, DIJ, lookupA, Option.getD_some]

theorem cosub_2 : (1 : ℚ) - ((7469/400) * (3141592 / 1000000) / 180) ^ 2 / 2
    + 5 * ((7469/400) * (3141593 / 1000000) / 180) ^ 4 / 96 ≤ (9474833/10000000) := by
  norm_num

theorem PHI_feas_2 : Feasible (PHI "Nizamabad") GRAPH := by
  unfold Feasible GRAPH
  norm_num [List.forall_mem_cons]
  repeat' apply And.intro
  all_goals
    intro a b hab
    repeat'
      first
      | (rcases hab with ⟨rfl, rfl⟩ | hab)
      | (rcases hab with ⟨rfl, rfl⟩)
    all_goals subst_vars
    all_goals simp +decide only [PHI, DIJ, lookupA, Option.getD_some]
    all_goals norm_num [edge_cost_minutes, KM_PER_MIN]

theorem clat_3 : cityLat "Karimnagar" = ((92193/5000 : ℚ) : ℝ) := by
  simp [cityLat, CITIES, lookupA]

theorem clon_3 : cityLon "Karimnagar" = ((98911/1250 : ℚ) : ℝ) := by
  simp [cityLon, CITIES, lookupA]

theorem phiself_3 : PHI "Karimnagar" "Karimnagar" = 0 := by
  simp +decide only [PHI, DIJ, lookupA, Option.getD_some]

theorem cosub_3 : (1 : ℚ) - ((92193/5000) * (3141592 / 1000000) / 180) ^ 2 / 2
    + 5 * ((92193/5000) * (3141593 / 1000000) / 180) ^ 4 / 96 ≤ (1897553/2000000) := by
  norm_num

theorem PHI_feas_3 : Feasible (PHI "Karimnagar") GRAPH := by
  unfold Feasible GRAPH
  norm_num [List.forall_mem_cons]
  repeat' apply And.intro
  all_goals
    intro a b hab
    repeat'
      first
      | (rcases hab with ⟨rfl, rfl⟩ | hab)
      | (rcases hab with ⟨rfl, rfl⟩)
    all_goals subst_vars
    all_goals simp +decide only [PHI, DIJ, lookupA, Option.getD_some]
    all_goals norm_num [edge_cost_minutes, KM_PER_MIN]

theorem clat_4 : cityLat "Khammam" = ((172473/10000 : ℚ) : ℝ) := by
  simp [cityLat, CITIES, lookupA]

theorem clon_4 : cityLon "Khammam" = ((400757/5000 : ℚ) : ℝ) := by
  simp [cityLon, CITIES, lookupA]

theorem phiself_4 : PHI "Khammam" "Khammam" = 0 := by
  simp +decide only [PHI, DIJ, lookupA, Option.getD_some]

theorem cosub_4 : (1 : ℚ) - ((172473/10000) * (3141592 / 1000000) / 180) ^ 2 / 2
    + 5 * ((172473/10000) * (3141593 / 1000000) / 180) ^ 4 / 96 ≤ (1910241/2000000) := by
  norm_num

theorem PHI_feas_4 : Feasible (PHI "Khammam") GRAPH := by
  unfold Feasible GRAPH
  norm_num [List.forall_mem_cons]
  repeat' apply And.intro
  all_goals
    intro a b hab
    repeat'
      first
      | (rcases hab with ⟨rfl, rfl⟩ | hab)
      | (rcases hab with ⟨rfl, rfl⟩)
    all_goals subst_vars
    all_goals simp +decide only [PHI, DIJ, lookupA, Option.getD_some]
    all_goals norm_num [edge_cost_minutes, KM_PER_MIN]

theorem clat_5 : cityLat "Mahabubnagar" = ((6697/400 : ℚ) : ℝ) := by
  simp [cityLat, CITIES, lookupA]

theorem clon_5 : cityLon "Mahabubnagar" = ((38993/500 : ℚ) : ℝ) := by
  simp [cityLon, CITIES, lookupA]

theorem phiself_5 : PHI "Mahabubnagar" "Mahabubnagar" = 0 := by
  simp +decide only [PHI, DIJ, lookupA, Option.getD_some]

theorem cosub_5 : (1 : ℚ) - ((6697/400) * (3141592 / 1000000) / 180) ^ 2 / 2
    + 5 * ((6697/400) * (3141593 / 1000000) / 180) ^ 4 / 96 ≤ (478843/500000) := by
  norm_num

theorem PHI_feas_5 : Feasible (PHI "Mahabubnagar") GRAPH := by
  unfold Feasible GRAPH
  norm_num [List.forall_mem_cons]
  repeat' apply And.intro
  all_goals
    intro a b hab
    repeat'
      first
      | (rcases hab with ⟨rfl, rfl⟩ | hab)
      | (rcases hab with ⟨rfl, rfl⟩)
    all_goals subst_vars
    all_goals simp +decide only [PHI, DIJ, lookupA, Option.getD_some]
    all_goals norm_num [edge_cost_minutes, KM_PER_MIN]

theorem clat_6 : cityLat "Nalgonda" = ((17051/1000 : ℚ) : ℝ) := by
  simp [cityLat, CITIES, lookupA]

theorem clon_6 : cityLon "Nalgonda" = ((79267/1000 : ℚ) : ℝ) := by
  simp [cityLon, CITIES, lookupA]

theorem phiself_6 : PHI "Nalgonda" "Nalgonda" = 0 := by
  simp +decide only [PHI, DIJ, lookupA, Option.getD_some]

theorem cosub_6 : (1 : ℚ) - ((17051/1000) * (3141592 / 1000000) / 180) ^ 2 / 2
    + 5 * ((17051/1000) * (3141593 / 1000000) / 180) ^ 4 / 96 ≤ (9561269/10000000) := by
  norm_num

theorem PHI_feas_6 : Feasible (PHI "Nalgonda") GRAPH := by
  unfold Feasible GRAPH
  norm_num [List.forall_mem_cons]
  repeat' apply And.intro
  all_goals
    intro a b hab
    repeat'
      first
      | (rcases hab with ⟨rfl, rfl⟩ | hab)
      | (rcases hab with ⟨rfl, rfl⟩)
    all_goals subst_vars
    all_goals simp +decide only [PHI, DIJ, lookupA, Option.getD_some]
    all_goals norm_num [edge_cost_minutes, KM_PER_MIN]

theorem clat_7 : cityLat "Suryapet" = ((85683/5000 : ℚ) : ℝ) := by
  simp [cityLat, CITIES, lookupA]

theorem clon_7 : cityLon "Suryapet" = ((79619/1000 : ℚ) : ℝ) := by
  simp [cityLon, CITIES, lookupA]

theorem phiself_7 : PHI "Suryapet" "Suryapet" = 0 := by
  simp +decide only [PHI, DIJ, lookupA, Option.getD_some]

theorem cosub_7 : (1 : ℚ) - ((85683/5000) * (3141592 / 1000000) / 180) ^ 2 / 2
    + 5 * ((85683/5000) * (3141593 / 1000000) / 180) ^ 4 / 96 ≤ (4778447/5000000) := by
  norm_num

theorem PHI_feas_7 : Feasible (PHI "Suryapet") GRAPH := by
  unfold Feasible GRAPH
  norm_num [List.forall_mem_cons]
  repeat' apply And.intro
  all_goals
    intro a b hab
    repeat'
      first
      | (rcases hab with ⟨rfl, rfl⟩ | hab)
      | (rcases hab with ⟨rfl, rfl⟩)
    all_goals subst_vars
    all_goals simp +decide only [PHI, DIJ, lookupA, Option.getD_some]
    all_goals norm_num [edge_cost_minutes, KM_PER_MIN]

theorem clat_8 : cityLat "Siddipet" = ((181/10 : ℚ) : ℝ) := by
  simp [cityLat, CITIES, lookupA]

theorem clon_8 : cityLon "Siddipet" = ((1577/20 : ℚ) : ℝ) := by
  simp [cityLon, CITIES, lookupA]

theorem phiself_8 : PHI "Siddipet" "Siddipet" = 0 := by
  simp +decide only [PHI, DIJ, lookupA, Option.getD_some]

theorem cosub_8 : (1 : ℚ) - ((181/10) * (3141592 / 1000000) / 180) ^ 2 / 2
    + 5 * ((181/10) * (3141593 / 1000000) / 180) ^ 4 / 96 ≤ (9506209/10000000) := by
  norm_num

theorem PHI_feas_8 : Feasible (PHI "Siddipet") GRAPH := by
  unfold Feasible GRAPH
  norm_num [List.forall_mem_cons]
  repeat' apply And.intro
  all_goals
    intro a b hab
    repeat'
      first
      | (rcases hab with ⟨rfl, rfl⟩ | hab)
      | (rcases hab with ⟨rfl, rfl⟩)
    all_goals subst_vars
    all_goals simp +decide only [PHI, DIJ, lookupA, Option.getD_some]
    all_goals norm_num [edge_cost_minutes, KM_PER_MIN]

theorem clat_9 : cityLat "Medak" = ((71/4 : ℚ) : ℝ) := by
  simp [cityLat, CITIES, lookupA]

theorem clon_9 : cityLon "Medak" = ((78279/1000 : ℚ) : ℝ) := by
  simp [cityLon, CITIES, lookupA]

theorem phiself_9 : PHI "Medak" "Medak" = 0 := by
  simp +decide only [PHI, DIJ, lookupA, Option.getD_some]

theorem cosub_9 : (1 : ℚ) - ((71/4) * (3141592 / 1000000) / 180) ^ 2 / 2
    + 5 * ((71/4) * (3141593 / 1000000) / 180) ^ 4 / 96 ≤ (952493/1000000) := by
  norm_num

theorem PHI_feas_9 : Feasible (PHI "Medak") GRAPH := by
  unfold Feasible GRAPH
  norm_num [List.forall_mem_cons]
  repeat' apply And.intro
  all_goals
    intro a b hab
    repeat'
      first
      | (rcases hab with ⟨rfl, rfl⟩ | hab)
      | (rcases hab with ⟨rfl, rfl⟩)
    all_goals subst_vars
    all_goals simp +decide only [PHI, DIJ, lookupA, Option.getD_some]
    all_goals norm_num [edge_cost_minutes, KM_PER_MIN]

theorem coslb_1 : (1900637/2000000) ≤ (1 : ℚ) - ((179689/10000) * (3141593 / 1000000) / 180) ^ 2 / 2
    - 5 * ((179689/10000) * (3141593 / 1000000) / 180) ^ 4 / 96 := by
  norm_num

theorem cosone_1 : (1 : ℚ) - ((179689/10000) * (3141592 / 1000000) / 180) ^ 2 / 2
    + 5 * ((179689/10000) * (3141593 / 1000000) / 180) ^ 4 / 96 ≤ 1 := by
  norm_num

theorem coslb_5 : (9569263/10000000) ≤ (1 : ℚ) - ((6697/400) * (3141593 / 1000000) / 180) ^ 2 / 2
    - 5 * ((6697/400) * (3141593 / 1000000) / 180) ^ 4 / 96 := by
  norm_num

theorem cosone_5 : (1 : ℚ) - ((6697/400) * (3141592 / 1000000) / 180) ^ 2 / 2
    + 5 * ((6697/400) * (3141593 / 1000000) / 180) ^ 4 / 96 ≤ 1 := by
  norm_num

theorem coslb_6 : (9553097/10000000) ≤ (1 : ℚ) - ((17051/1000) * (3141593 / 1000000) / 180) ^ 2 / 2
    - 5 * ((17051/1000) * (3141593 / 1000000) / 180) ^ 4 / 96 := by
  norm_num

theorem cosone_6 : (1 : ℚ) - ((17051/1000) * (3141592 / 1000000) / 180) ^ 2 / 2
    + 5 * ((17051/1000) * (3141593 / 1000000) / 180) ^ 4 / 96 ≤ 1 := by
  norm_num

theorem coslb_7 : (9548557/10000000) ≤ (1 : ℚ) - ((85683/5000) * (3141593 / 1000000) / 180) ^ 2 / 2
    - 5 * ((85683/5000) * (3141593 / 1000000) / 180) ^ 4 / 96 := by
  norm_num

theorem cosone_7 : (1 : ℚ) - ((85683/5000) * (3141592 / 1000000) / 180) ^ 2 / 2
    + 5 * ((85683/5000) * (3141593 / 1000000) / 180) ^ 4 / 96 ≤ 1 := by
  norm_num

theorem coslb_8 : (4747917/5000000) ≤ (1 : ℚ) - ((181/10) * (3141593 / 1000000) / 180) ^ 2 / 2
    - 5 * ((181/10) * (3141593 / 1000000) / 180) ^ 4 / 96 := by
  norm_num

theorem cosone_8 : (1 : ℚ) - ((181/10) * (3141592 / 1000000) / 180) ^ 2 / 2
    + 5 * ((181/10) * (3141593 / 1000000) / 180) ^ 4 / 96 ≤ 1 := by
  norm_num

theorem coslb_9 : (4757667/5000000) ≤ (1 : ℚ) - ((71/4) * (3141593 / 1000000) / 180) ^ 2 / 2
    - 5 * ((71/4) * (3141593 / 1000000) / 180) ^ 4 / 96 := by
  norm_num

theorem cosone_9 : (1 : ℚ) - ((71/4) * (3141592 / 1000000) / 180) ^ 2 / 2
    + 5 * ((71/4) * (3141593 / 1000000) / 180) ^ 4 / 96 ≤ 1 := by
  norm_num

theorem adm_0_1 : ∀ p, IsWalkFrom GRAPH "Hyderabad" "Warangal" p →
    heuristic_time_min "Hyderabad" "Warangal" ≤ ((walkCost GRAPH p : ℚ) : ℝ) :=
  admissible_of_cert "Hyderabad" "Warangal" (3477/200) (784867/10000) (179689/10000) (795941/10000)
    (119301/125000) (9513263/10000000) (2104837/200000000) clat_0 clon_0 clat_1 clon_1
    (by norm_num) (by norm_num) (by norm_num) (by norm_num) cosub_0 cosub_1
    (by norm_num) (by norm_num) (by norm_num) (by norm_num) (by norm_num)
    PHI_feas_0 phiself_0 (by simp +decide only [PHI, DIJ, lookupA, Option.getD_some]; norm_num)

theorem adm_0_2 : ∀ p, IsWalkFrom GRAPH "Hyderabad" "Nizamabad" p →
    heuristic_time_min "Hyderabad" "Nizamabad" ≤ ((walkCost GRAPH p : ℚ) : ℝ) :=
  admissible_of_cert "Hyderabad" "Nizamabad" (3477/200) (784867/10000) (7469/400) (780941/10000)
    (119301/125000) (9474833/10000000) (1169839/100000000) clat_0 clon_0 clat_2 clon_2
    (by norm_num) (by norm_num) (by norm_num) (by norm_num) cosub_0 cosub_2
    (by norm_num) (by norm_num) (by norm_num) (by norm_num) (by norm_num)
    PHI_feas_0 phiself_0 (by simp +decide only [PHI, DIJ, lookupA, Option.getD_some]; norm_num)

theorem adm_0_3 : ∀ p, IsWalkFrom GRAPH "Hyderabad" "Karimnagar" p →
    heuristic_time_min "Hyderabad" "Karimnagar" ≤ ((walkCost GRAPH p : ℚ) : ℝ) :=
  admissible_of_cert "Hyderabad" "Karimnagar" (3477/200) (784867/10000) (92193/5000) (98911/1250)
    (119301/125000) (1897553/2000000) (2125731/200000000) clat_0 clon_0 clat_3 clon_3
    (by norm_num) (by norm_num) (by norm_num) (by norm_num) cosub_0 cosub_3
    (by norm_num) (by norm_num) (by norm_num) (by norm_num) (by norm_num)
    PHI_feas_0 phiself_0 (by simp +decide only [PHI, DIJ, lookupA, Option.getD_some]; norm_num)

theorem adm_0_4 : ∀ p, IsWalkFrom GRAPH "Hyderabad" "Khammam" p →
    heuristic_time_min "Hyderabad" "Khammam" ≤ ((walkCost GRAPH p : ℚ) : ℝ) :=
  admissible_of_cert "Hyderabad" "Khammam" (3477/200) (784867/10000) (172473/10000) (400757/5000)
    (119301/125000) (1910241/2000000) (2784411/200000000) clat_0 clon_0 clat_4 clon_4
    (by norm_num) (by norm_num) (by norm_num) (by norm_num) cosub_0 cosub_4
    (by norm_num) (by norm_num) (by norm_num) (by norm_num) (by norm_num)
    PHI_feas_0 phiself_0 (by simp +decide only [PHI, DIJ, lookupA, Option.getD_some]; norm_num)

theorem adm_0_5 : ∀ p, IsWalkFrom GRAPH "Hyderabad" "Mahabubnagar" p →
    heuristic_time_min "Hyderabad" "Mahabubnagar" ≤ ((walkCost GRAPH p : ℚ) : ℝ) :=
  admissible_of_cert "Hyderabad" "Mahabubnagar" (3477/200) (784867/10000) (6697/400) (38993/500)
    (119301/125000) (478843/500000) (3495979/500000000) clat_0 clon_0 clat_5 clon_5
    (by norm_num) (by norm_num) (by norm_num) (by norm_num) cosub_0 cosub_5
    (by norm_num) (by norm_num) (by norm_num) (by norm_num) (by norm_num)
    PHI_feas_0 phiself_0 (by simp +decide only [PHI, DIJ, lookupA, Option.getD_some]; norm_num)

theorem adm_0_6 : ∀ p, IsWalkFrom GRAPH "Hyderabad" "Nalgonda" p →
    heuristic_time_min "Hyderabad" "Nalgonda" ≤ ((walkCost GRAPH p : ℚ) : ℝ) :=
  admissible_of_cert "Hyderabad" "Nalgonda" (3477/200) (784867/10000) (17051/1000) (79267/1000)
    (119301/125000) (9561269/10000000) (1425593/200000000) clat_0 clon_0 clat_6 clon_6
    (by norm_num) (by norm_num) (by norm_num) (by norm_num) cosub_0 cosub_6
    (by norm_num) (by norm_num) (by norm_num) (by norm_num) (by norm_num)
    PHI_feas_0 phiself_0 (by simp +decide only [PHI, DIJ, lookupA, Option.getD_some]; norm_num)

theorem adm_0_7 : ∀ p, IsWalkFrom GRAPH "Hyderabad" "Suryapet" p →
    heuristic_time_min "Hyderabad" "Suryapet" ≤ ((walkCost GRAPH p : ℚ) : ℝ) :=
  admissible_of_cert "Hyderabad" "Suryapet" (3477/200) (784867/10000) (85683/5000) (79619/1000)
    (119301/125000) (4778447/5000000) (9682771/1000000000) clat_0 clon_0 clat_7 clon_7
    (by norm_num) (by norm_num) (by norm_num) (by norm_num) cosub_0 cosub_7
    (by norm_num) (by norm_num) (by norm_num) (by norm_num) (by norm_num)
    PHI_feas_0 phiself_0 (by simp +decide only [PHI, DIJ, lookupA, Option.getD_some]; norm_num)

theorem adm_0_8 : ∀ p, IsWalkFrom GRAPH "Hyderabad" "Siddipet" p →
    heuristic_time_min "Hyderabad" "Siddipet" ≤ ((walkCost GRAPH p : ℚ) : ℝ) :=
  admissible_of_cert "Hyderabad" "Siddipet" (3477/200) (784867/10000) (181/10) (1577/20)
    (119301/125000) (9506209/10000000) (1386383/200000000) clat_0 clon_0 clat_8 clon_8
    (by norm_num) (by norm_num) (by norm_num) (by norm_num) cosub_0 cosub_8
    (by norm_num) (by norm_num) (by norm_num) (by norm_num) (by norm_num)
    PHI_feas_0 phiself_0 (by simp +decide only [PHI, DIJ, lookupA, Option.getD_some]; norm_num)

theorem adm_0_9 : ∀ p, IsWalkFrom GRAPH "Hyderabad" "Medak" p →
    heuristic_time_min "Hyderabad" "Medak" ≤ ((walkCost GRAPH p : ℚ) : ℝ) :=
  admissible_of_cert "Hyderabad" "Medak" (3477/200) (784867/10000) (71/4) (78279/1000)
    (119301/125000) (952493/1000000) (724767/200000000) clat_0 clon_0 clat_9 clon_9
    (by norm_num) (by norm_num) (by norm_num) (by norm_num) cosub_0 cosub_9
    (by norm_num) (by norm_num) (by norm_num) (by norm_num) (by norm_num)
    PHI_feas_0 phiself_0 (by simp +decide only [PHI, DIJ, lookupA, Option.getD_some]; norm_num)

theorem adm_1_0 : ∀ p, IsWalkFrom GRAPH "Warangal" "Hyderabad" p →
    heuristic_time_min "Warangal" "Hyderabad" ≤ ((walkCost GRAPH p : ℚ) : ℝ) :=
  admissible_of_cert "Warangal" "Hyderabad" (179689/10000) (795941/10000) (3477/200) (784867/10000)
    (9513263/10000000) (119301/125000) (2104837/200000000) clat_1 clon_1 clat_0 clon_0
    (by norm_num) (by norm_num) (by norm_num) (by norm_num) cosub_1 cosub_0
    (by norm_num) (by norm_num) (by norm_num) (by norm_num) (by norm_num)
    PHI_feas_1 phiself_1 (by simp +decide only [PHI, DIJ, lookupA, Option.getD_some]; norm_num)

theorem adm_1_2 : ∀ p, IsWalkFrom GRAPH "Warangal" "Nizamabad" p →
    heuristic_time_min "Warangal" "Nizamabad" ≤ ((walkCost GRAPH p : ℚ) : ℝ) :=
  admissible_of_cert "Warangal" "Nizamabad" (179689/10000) (795941/10000) (7469/400) (780941/10000)
    (9513263/10000000) (9474833/10000000) (13861713/1000000000) clat_1 clon_1 clat_2 clon_2
    (by norm_num) (by norm_num) (by norm_num) (by norm_num) cosub_1 cosub_2
    (by norm_num) (by norm_num) (by norm_num) (by norm_num) (by norm_num)
    PHI_feas_1 phiself_1 (by simp +decide only [PHI, DIJ, lookupA, Option.getD_some]; norm_num)

theorem adm_1_3 : ∀ p, IsWalkFrom GRAPH "Warangal" "Karimnagar" p →
    heuristic_time_min "Warangal" "Karimnagar" ≤ ((walkCost GRAPH p : ℚ) : ℝ) :=
  admissible_of_cert "Warangal" "Karimnagar" (179689/10000) (795941/10000) (92193/5000) (98911/1250)
    (9513263/10000000) (1897553/2000000) (1407187/250000000) clat_1 clon_1 clat_3 clon_3
    (by norm_num) (by norm_num) (by norm_num) (by norm_num) cosub_1 cosub_3
    (by norm_num) (by norm_num) (by norm_num) (by norm_num) (by norm_num)
    PHI_feas_1 phiself_1 (by simp +decide only [PHI, DIJ, lookupA, Option.getD_some]; norm_num)

theorem adm_1_4 : ∀ p, IsWalkFrom GRAPH "Warangal" "Khammam" p →
    heuristic_time_min "Warangal" "Khammam" ≤ ((walkCost GRAPH p : ℚ) : ℝ) :=
  admissible_of_cert "Warangal" "Khammam" (179689/10000) (795941/10000) (172473/10000) (400757/5000)
    (9513263/10000000) (1910241/2000000) (1563909/200000000) clat_1 clon_1 clat_4 clon_4
    (by norm_num) (by norm_num) (by norm_num) (by norm_num) cosub_1 cosub_4
    (by norm_num) (by norm_num) (by norm_num) (by norm_num) (by norm_num)
    PHI_feas_1 phiself_1 (by simp +decide only [PHI, DIJ, lookupA, Option.getD_some]; norm_num)

theorem adm_1_5 : ∀ p, IsWalkFrom GRAPH "Warangal" "Mahabubnagar" p →
    heuristic_time_min "Warangal" "Mahabubnagar" ≤ ((walkCost GRAPH p : ℚ) : ℝ) :=
  admissible_of_cert "Warangal" "Mahabubnagar" (179689/10000) (795941/10000) (6697/400) (38993/500)
    (9513263/10000000) (478843/500000) (1714531/100000000) clat_1 clon_1 clat_5 clon_5
    (by norm_num) (by norm_num) (by norm_num) (by norm_num) cosub_1 cosub_5
    (by norm_num) (by norm_num) (by norm_num) (by norm_num) (by norm_num)
    PHI_feas_1 phiself_1 (by simp +decide only [PHI, DIJ, lookupA, Option.getD_some]; norm_num)

theorem adm_1_6 : ∀ p, IsWalkFrom GRAPH "Warangal" "Nalgonda" p →
    heuristic_time_min "Warangal" "Nalgonda" ≤ ((walkCost GRAPH p : ℚ) : ℝ) :=
  admissible_of_cert "Warangal" "Nalgonda" (179689/10000) (795941/10000) (17051/1000) (79267/1000)
    (9513263/10000000) (9561269/10000000) (338407/40000000) clat_1 clon_1 clat_6 clon_6
    (by norm_num) (by norm_num) (by norm_num) (by norm_num) cosub_1 cosub_6
    (by norm_num) (by norm_num) (by norm_num) (by norm_num) (by norm_num)
    PHI_feas_1 phiself_1 (by simp +decide only [PHI, DIJ, lookupA, Option.getD_some]; norm_num)

theorem adm_1_8 : ∀ p, IsWalkFrom GRAPH "Warangal" "Siddipet" p →
    heuristic_time_min "Warangal" "Siddipet" ≤ ((walkCost GRAPH p : ℚ) : ℝ) :=
  admissible_of_cert "Warangal" "Siddipet" (179689/10000) (795941/10000) (181/10) (1577/20)
    (9513263/10000000) (9506209/10000000) (6280231/1000000000) clat_1 clon_1 clat_8 clon_8
    (by norm_num) (by norm_num) (by norm_num) (by norm_num) cosub_1 cosub_8
    (by norm_num) (by norm_num) (by norm_num) (by norm_num) (by norm_num)
    PHI_feas_1 phiself_1 (by simp +decide only [PHI, DIJ, lookupA, Option.getD_some]; norm_num)

theorem adm_1_9 : ∀ p, IsWalkFrom GRAPH "Warangal" "Medak" p →
    heuristic_time_min "Warangal" "Medak" ≤ ((walkCost GRAPH p : ℚ) : ℝ) :=
  admissible_of_cert "Warangal" "Medak" (179689/10000) (795941/10000) (71/4) (78279/1000)
    (9513263/10000000) (952493/1000000) (2218053/200000000) clat_1 clon_1 clat_9 clon_9
    (by norm_num) (by norm_num) (by norm_num) (by norm_num) cosub_1 cosub_9
    (by norm_num) (by norm_num) (by norm_num) (by norm_num) (by norm_num)
    PHI_feas_1 phiself_1 (by simp +decide only [PHI, DIJ, lookupA, Option.getD_some]; norm_num)

theorem adm_2_0 : ∀ p, IsWalkFrom GRAPH "Nizamabad" "Hyderabad" p →
    heuristic_time_min "Nizamabad" "Hyderabad" ≤ ((walkCost GRAPH p : ℚ) : ℝ) :=
  admissible_of_cert "Nizamabad" "Hyderabad" (7469/400) (780941/10000) (3477/200) (784867/10000)
    (9474833/10000000) (119301/125000) (1169839/100000000) clat_2 clon_2 clat_0 clon_0
    (by norm_num) (by norm_num) (by norm_num) (by norm_num) cosub_2 cosub_0
    (by norm_num) (by norm_num) (by norm_num) (by norm_num) (by norm_num)
    PHI_feas_2 phiself_2 (by simp +decide only [PHI, DIJ, lookupA, Option.getD_some]; norm_num)

theorem adm_2_1 : ∀ p, IsWalkFrom GRAPH "Nizamabad" "Warangal" p →
    heuristic_time_min "Nizamabad" "Warangal" ≤ ((walkCost GRAPH p : ℚ) : ℝ) :=
  admissible_of_cert "Nizamabad" "Warangal" (7469/400) (780941/10000) (179689/10000) (795941/10000)
    (9474833/10000000) (9513263/10000000) (13861713/1000000000) clat_2 clon_2 clat_1 clon_1
    (by norm_num) (by norm_num) (by norm_num) (by norm_num) cosub_2 cosub_1
    (by norm_num) (by norm_num) (by norm_num) (by norm_num) (by norm_num)
    PHI_feas_2 phiself_2 (by simp +decide only [PHI, DIJ, lookupA, Option.getD_some]; norm_num)

theorem adm_2_3 : ∀ p, IsWalkFrom GRAPH "Nizamabad" "Karimnagar" p →
    heuristic_time_min "Nizamabad" "Karimnagar" ≤ ((walkCost GRAPH p : ℚ) : ℝ) :=
  admissible_of_cert "Nizamabad" "Karimnagar" (7469/400) (780941/10000) (92193/5000) (98911/1250)
    (9474833/10000000) (1897553/2000000) (2200267/250000000) clat_2 clon_2 clat_3 clon_3
    (by norm_num) (by norm_num) (by norm_num) (by norm_num) cosub_2 cosub_3
    (by norm_num) (by norm_num) (by norm_num) (by norm_num) (by norm_num)
    PHI_feas_2 phiself_2 (by simp +decide only [PHI, DIJ, lookupA, Option.getD_some]; norm_num)

theorem adm_2_4 : ∀ p, IsWalkFrom GRAPH "Nizamabad" "Khammam" p →
    heuristic_time_min "Nizamabad" "Khammam" ≤ ((walkCost GRAPH p : ℚ) : ℝ) :=
  admissible_of_cert "Nizamabad" "Khammam" (7469/400) (780941/10000) (172473/10000) (400757/5000)
    (9474833/10000000) (1910241/2000000) (21127547/1000000000) clat_2 clon_2 clat_4 clon_4
    (by norm_num) (by norm_num) (by norm_num) (by norm_num) cosub_2 cosub_4
    (by norm_num) (by norm_num) (by norm_num) (by norm_num) (by norm_num)
    PHI_feas_2 phiself_2 (by simp +decide only [PHI, DIJ, lookupA, Option.getD_some]; norm_num)

theorem adm_2_5 : ∀ p, IsWalkFrom GRAPH "Nizamabad" "Mahabubnagar" p →
    heuristic_time_min "Nizamabad" "Mahabubnagar" ≤ ((walkCost GRAPH p : ℚ) : ℝ) :=
  admissible_of_cert "Nizamabad" "Mahabubnagar" (7469/400) (780941/10000) (6697/400) (38993/500)
    (9474833/10000000) (478843/500000) (3373277/200000000) clat_2 clon_2 clat_5 clon_5
    (by norm_num) (by norm_num) (by norm_num) (by norm_num) cosub_2 cosub_5
    (by norm_num) (by norm_num) (by norm_num) (by norm_num) (by norm_num)
    PHI_feas_2 phiself_2 (by simp +decide only [PHI, DIJ, lookupA, Option.getD_some]; norm_num)

theorem adm_2_6 : ∀ p, IsWalkFrom GRAPH "Nizamabad" "Nalgonda" p →
    heuristic_time_min "Nizamabad" "Nalgonda" ≤ ((walkCost GRAPH p : ℚ) : ℝ) :=
  admissible_of_cert "Nizamabad" "Nalgonda" (7469/400) (780941/10000) (17051/1000) (79267/1000)
    (9474833/10000000) (9561269/10000000) (17179583/1000000000) clat_2 clon_2 clat_6 clon_6
    (by norm_num) (by norm_num) (by norm_num) (by norm_num) cosub_2 cosub_6
    (by norm_num) (by norm_num) (by norm_num) (by norm_num) (by norm_num)
    PHI_feas_2 phiself_2 (by simp +decide only [PHI, DIJ, lookupA, Option.getD_some]; norm_num)

theorem adm_2_7 : ∀ p, IsWalkFrom GRAPH "Nizamabad" "Suryapet" p →
    heuristic_time_min "Nizamabad" "Suryapet" ≤ ((walkCost GRAPH p : ℚ) : ℝ) :=
  admissible_of_cert "Nizamabad" "Suryapet" (7469/400) (780941/10000) (85683/5000) (79619/1000)
    (9474833/10000000) (4778447/5000000) (9219493/500000000) clat_2 clon_2 clat_7 clon_7
    (by norm_num) (by norm_num) (by norm_num) (by norm_num) cosub_2 cosub_7
    (by norm_num) (by norm_num) (by norm_num) (by norm_num) (by norm_num)
    PHI_feas_2 phiself_2 (by simp +decide only [PHI, DIJ, lookupA, Option.getD_some]; norm_num)

theorem adm_2_8 : ∀ p, IsWalkFrom GRAPH "Nizamabad" "Siddipet" p →
    heuristic_time_min "Nizamabad" "Siddipet" ≤ ((walkCost GRAPH p : ℚ) : ℝ) :=
  admissible_of_cert "Nizamabad" "Siddipet" (7469/400) (780941/10000) (181/10) (1577/20)
    (9474833/10000000) (9506209/10000000) (1001191/125000000) clat_2 clon_2 clat_8 clon_8
    (by norm_num) (by norm_num) (by norm_num) (by norm_num) cosub_2 cosub_8
    (by norm_num) (by norm_num) (by norm_num) (by norm_num) (by norm_num)
    PHI_feas_2 phiself_2 (by simp +decide only [PHI, DIJ, lookupA, Option.getD_some]; norm_num)

theorem adm_2_9 : ∀ p, IsWalkFrom GRAPH "Nizamabad" "Medak" p →
    heuristic_time_min "Nizamabad" "Medak" ≤ ((walkCost GRAPH p : ℚ) : ℝ) :=
  admissible_of_cert "Nizamabad" "Medak" (7469/400) (780941/10000) (71/4) (78279/1000)
    (9474833/10000000) (952493/1000000) (1024371/125000000) clat_2 clon_2 clat_9 clon_9
    (by norm_num) (by norm_num) (by norm_num) (by norm_num) cosub_2 cosub_9
    (by norm_num) (by norm_num) (by norm_num) (by norm_num) (by norm_num)
    PHI_feas_2 phiself_2 (by simp +decide only [PHI, DIJ, lookupA, Option.getD_some]; norm_num)

theorem adm_3_0 : ∀ p, IsWalkFrom GRAPH "Karimnagar" "Hyderabad" p →
    heuristic_time_min "Karimnagar" "Hyderabad" ≤ ((walkCost GRAPH p : ℚ) : ℝ) :=
  admissible_of_cert "Karimnagar" "Hyderabad" (92193/5000) (98911/1250) (3477/200) (784867/10000)
    (1897553/2000000) (119301/125000) (2125731/200000000) clat_3 clon_3 clat_0 clon_0
    (by norm_num) (by norm_num) (by norm_num) (by norm_num) cosub_3 cosub_0
    (by norm_num) (by norm_num) (by norm_num) (by norm_num) (by norm_num)
    PHI_feas_3 phiself_3 (by simp +decide only [PHI, DIJ, lookupA, Option.getD_some]; norm_num)

theorem adm_3_1 : ∀ p, IsWalkFrom GRAPH "Karimnagar" "Warangal" p →
    heuristic_time_min "Karimnagar" "Warangal" ≤ ((walkCost GRAPH p : ℚ) : ℝ) :=
  admissible_of_cert "Karimnagar" "Warangal" (92193/5000) (98911/1250) (179689/10000) (795941/10000)
    (1897553/2000000) (9513263/10000000) (1407187/250000000) clat_3 clon_3 clat_1 clon_1
    (by norm_num) (by norm_num) (by norm_num) (by norm_num) cosub_3 cosub_1
    (by norm_num) (by norm_num) (by norm_num) (by norm_num) (by norm_num)
    PHI_feas_3 phiself_3 (by simp +decide only [PHI, DIJ, lookupA, Option.getD_some]; norm_num)

theorem adm_3_2 : ∀ p, IsWalkFrom GRAPH "Karimnagar" "Nizamabad" p →
    heuristic_time_min "Karimnagar" "Nizamabad" ≤ ((walkCost GRAPH p : ℚ) : ℝ) :=
  admissible_of_cert "Karimnagar" "Nizamabad" (92193/5000) (98911/1250) (7469/400) (780941/10000)
    (1897553/2000000) (9474833/10000000) (2200267/250000000) clat_3 clon_3 clat_2 clon_2
    (by norm_num) (by norm_num) (by norm_num) (by norm_num) cosub_3 cosub_2
    (by norm_num) (by norm_num) (by norm_num) (by norm_num) (by norm_num)
    PHI_feas_3 phiself_3 (by simp +decide only [PHI, DIJ, lookupA, Option.getD_some]; norm_num)

theorem adm_3_4 : ∀ p, IsWalkFrom GRAPH "Karimnagar" "Khammam" p →
    heuristic_time_min "Karimnagar" "Khammam" ≤ ((walkCost GRAPH p : ℚ) : ℝ) :=
  admissible_of_cert "Karimnagar" "Khammam" (92193/5000) (98911/1250) (172473/10000) (400757/5000)
    (1897553/2000000) (1910241/2000000) (13425471/1000000000) clat_3 clon_3 clat_4 clon_4
    (by norm_num) (by norm_num) (by norm_num) (by norm_num) cosub_3 cosub_4
    (by norm_num) (by norm_num) (by norm_num) (by norm_num) (by norm_num)
    PHI_feas_3 phiself_3 (by simp +decide only [PHI, DIJ, lookupA, Option.getD_some]; norm_num)

theorem adm_3_5 : ∀ p, IsWalkFrom GRAPH "Karimnagar" "Mahabubnagar" p →
    heuristic_time_min "Karimnagar" "Mahabubnagar" ≤ ((walkCost GRAPH p : ℚ) : ℝ) :=
  admissible_of_cert "Karimnagar" "Mahabubnagar" (92193/5000) (98911/1250) (6697/400) (38993/500)
    (1897553/2000000) (478843/500000) (17591109/1000000000) clat_3 clon_3 clat_5 clon_5
    (by norm_num) (by norm_num) (by norm_num) (by norm_num) cosub_3 cosub_5
    (by norm_num) (by norm_num) (by norm_num) (by norm_num) (by norm_num)
    PHI_feas_3 phiself_3 (by simp +decide only [PHI, DIJ, lookupA, Option.getD_some]; norm_num)

theorem adm_3_6 : ∀ p, IsWalkFrom GRAPH "Karimnagar" "Nalgonda" p →
    heuristic_time_min "Karimnagar" "Nalgonda" ≤ ((walkCost GRAPH p : ℚ) : ℝ) :=
  admissible_of_cert "Karimnagar" "Nalgonda" (92193/5000) (98911/1250) (17051/1000) (79267/1000)
    (1897553/2000000) (9561269/10000000) (95027/7812500) clat_3 clon_3 clat_6 clon_6
    (by norm_num) (by norm_num) (by norm_num) (by norm_num) cosub_3 cosub_6
    (by norm_num) (by norm_num) (by norm_num) (by norm_num) (by norm_num)
    PHI_feas_3 phiself_3 (by simp +decide only [PHI, DIJ, lookupA, Option.getD_some]; norm_num)

theorem adm_3_7 : ∀ p, IsWalkFrom GRAPH "Karimnagar" "Suryapet" p →
    heuristic_time_min "Karimnagar" "Suryapet" ≤ ((walkCost GRAPH p : ℚ) : ℝ) :=
  admissible_of_cert "Karimnagar" "Suryapet" (92193/5000) (98911/1250) (85683/5000) (79619/1000)
    (1897553/2000000) (4778447/5000000) (2414043/200000000) clat_3 clon_3 clat_7 clon_7
    (by norm_num) (by norm_num) (by norm_num) (by norm_num) cosub_3 cosub_7
    (by norm_num) (by norm_num) (by norm_num) (by norm_num) (by norm_num)
    PHI_feas_3 phiself_3 (by simp +decide only [PHI, DIJ, lookupA, Option.getD_some]; norm_num)

theorem adm_3_8 : ∀ p, IsWalkFrom GRAPH "Karimnagar" "Siddipet" p →
    heuristic_time_min "Karimnagar" "Siddipet" ≤ ((walkCost GRAPH p : ℚ) : ℝ) :=
  admissible_of_cert "Karimnagar" "Siddipet" (92193/5000) (98911/1250) (181/10) (1577/20)
    (1897553/2000000) (9506209/10000000) (3751/1000000) clat_3 clon_3 clat_8 clon_8
    (by norm_num) (by norm_num) (by norm_num) (by norm_num) cosub_3 cosub_8
    (by norm_num) (by norm_num) (by norm_num) (by norm_num) (by norm_num)
    PHI_feas_3 phiself_3 (by simp +decide only [PHI, DIJ, lookupA, Option.getD_some]; norm_num)

theorem adm_3_9 : ∀ p, IsWalkFrom GRAPH "Karimnagar" "Medak" p →
    heuristic_time_min "Karimnagar" "Medak" ≤ ((walkCost GRAPH p : ℚ) : ℝ) :=
  admissible_of_cert "Karimnagar" "Medak" (92193/5000) (98911/1250) (71/4) (78279/1000)
    (1897553/2000000) (952493/1000000) (9263361/1000000000) clat_3 clon_3 clat_9 clon_9
    (by norm_num) (by norm_num) (by norm_num) (by norm_num) cosub_3 cosub_9
    (by norm_num) (by norm_num) (by norm_num) (by norm_num) (by norm_num)
    PHI_feas_3 phiself_3 (by simp +decide only [PHI, DIJ, lookupA, Option.getD_some]; norm_num)

theorem adm_4_0 : ∀ p, IsWalkFrom GRAPH "Khammam" "Hyderabad" p →
    heuristic_time_min "Khammam" "Hyderabad" ≤ ((walkCost GRAPH p : ℚ) : ℝ) :=
  admissible_of_cert "Khammam" "Hyderabad" (172473/10000) (400757/5000) (3477/200) (784867/10000)
    (1910241/2000000) (119301/125000) (2784411/200000000) clat_4 clon_4 clat_0 clon_0
    (by norm_num) (by norm_num) (by norm_num) (by norm_num) cosub_4 cosub_0
    (by norm_num) (by norm_num) (by norm_num) (by norm_num) (by norm_num)
    PHI_feas_4 phiself_4 (by simp +decide only [PHI, DIJ, lookupA, Option.getD_some]; norm_num)

theorem adm_4_1 : ∀ p, IsWalkFrom GRAPH "Khammam" "Warangal" p →
    heuristic_time_min "Khammam" "Warangal" ≤ ((walkCost GRAPH p : ℚ) : ℝ) :=
  admissible_of_cert "Khammam" "Warangal" (172473/10000) (400757/5000) (179689/10000) (795941/10000)
    (1910241/2000000) (9513263/10000000) (1563909/200000000) clat_4 clon_4 clat_1 clon_1
    (by norm_num) (by norm_num) (by norm_num) (by norm_num) cosub_4 cosub_1
    (by norm_num) (by norm_num) (by norm_num) (by norm_num) (by norm_num)
    PHI_feas_4 phiself_4 (by simp +decide only [PHI, DIJ, lookupA, Option.getD_some]; norm_num)

theorem adm_4_2 : ∀ p, IsWalkFrom GRAPH "Khammam" "Nizamabad" p →
    heuristic_time_min "Khammam" "Nizamabad" ≤ ((walkCost GRAPH p : ℚ) : ℝ) :=
  admissible_of_cert "Khammam" "Nizamabad" (172473/10000) (400757/5000) (7469/400) (780941/10000)
    (1910241/2000000) (9474833/10000000) (21127547/1000000000) clat_4 clon_4 clat_2 clon_2
    (by norm_num) (by norm_num) (by norm_num) (by norm_num) cosub_4 cosub_2
    (by norm_num) (by norm_num) (by norm_num) (by norm_num) (by norm_num)
    PHI_feas_4 phiself_4 (by simp +decide only [PHI, DIJ, lookupA, Option.getD_some]; norm_num)

theorem adm_4_3 : ∀ p, IsWalkFrom GRAPH "Khammam" "Karimnagar" p →
    heuristic_time_min "Khammam" "Karimnagar" ≤ ((walkCost GRAPH p : ℚ) : ℝ) :=
  admissible_of_cert "Khammam" "Karimnagar" (172473/10000) (400757/5000) (92193/5000) (98911/1250)
    (1910241/2000000) (1897553/2000000) (13425471/1000000000) clat_4 clon_4 clat_3 clon_3
    (by norm_num) (by norm_num) (by norm_num) (by norm_num) cosub_4 cosub_3
    (by norm_num) (by norm_num) (by norm_num) (by norm_num) (by norm_num)
    PHI_feas_4 phiself_4 (by simp +decide only [PHI, DIJ, lookupA, Option.getD_some]; norm_num)

theorem adm_4_5 : ∀ p, IsWalkFrom GRAPH "Khammam" "Mahabubnagar" p →
    heuristic_time_min "Khammam" "Mahabubnagar" ≤ ((walkCost GRAPH p : ℚ) : ℝ) :=
  admissible_of_cert "Khammam" "Mahabubnagar" (172473/10000) (400757/5000) (6697/400) (38993/500)
    (1910241/2000000) (478843/500000) (9300983/500000000) clat_4 clon_4 clat_5 clon_5
    (by norm_num) (by norm_num) (by norm_num) (by norm_num) cosub_4 cosub_5
    (by norm_num) (by norm_num) (by norm_num) (by norm_num) (by norm_num)
    PHI_feas_4 phiself_4 (by simp +decide only [PHI, DIJ, lookupA, Option.getD_some]; norm_num)

theorem adm_4_6 : ∀ p, IsWalkFrom GRAPH "Khammam" "Nalgonda" p →
    heuristic_time_min "Khammam" "Nalgonda" ≤ ((walkCost GRAPH p : ℚ) : ℝ) :=
  admissible_of_cert "Khammam" "Nalgonda" (172473/10000) (400757/5000) (17051/1000) (79267/1000)
    (1910241/2000000) (9561269/10000000) (1892921/250000000) clat_4 clon_4 clat_6 clon_6
    (by norm_num) (by norm_num) (by norm_num) (by norm_num) cosub_4 cosub_6
    (by norm_num) (by norm_num) (by norm_num) (by norm_num) (by norm_num)
    PHI_feas_4 phiself_4 (by simp +decide only [PHI, DIJ, lookupA, Option.getD_some]; norm_num)

theorem adm_4_7 : ∀ p, IsWalkFrom GRAPH "Khammam" "Suryapet" p →
    heuristic_time_min "Khammam" "Suryapet" ≤ ((walkCost GRAPH p : ℚ) : ℝ) :=
  admissible_of_cert "Khammam" "Suryapet" (172473/10000) (400757/5000) (85683/5000) (79619/1000)
    (1910241/2000000) (4778447/5000000) (227139/50000000) clat_4 clon_4 clat_7 clon_7
    (by norm_num) (by norm_num) (by norm_num) (by norm_num) cosub_4 cosub_7
    (by norm_num) (by norm_num) (by norm_num) (by norm_num) (by norm_num)
    PHI_feas_4 phiself_4 (by simp +decide only [PHI, DIJ, lookupA, Option.getD_some]; norm_num)

theorem adm_4_8 : ∀ p, IsWalkFrom GRAPH "Khammam" "Siddipet" p →
    heuristic_time_min "Khammam" "Siddipet" ≤ ((walkCost GRAPH p : ℚ) : ℝ) :=
  admissible_of_cert "Khammam" "Siddipet" (172473/10000) (400757/5000) (181/10) (1577/20)
    (1910241/2000000) (9506209/10000000) (820819/62500000) clat_4 clon_4 clat_8 clon_8
    (by norm_num) (by norm_num) (by norm_num) (by norm_num) cosub_4 cosub_8
    (by norm_num) (by norm_num) (by norm_num) (by norm_num) (by norm_num)
    PHI_feas_4 phiself_4 (by simp +decide only [PHI, DIJ, lookupA, Option.getD_some]; norm_num)

theorem adm_4_9 : ∀ p, IsWalkFrom GRAPH "Khammam" "Medak" p →
    heuristic_time_min "Khammam" "Medak" ≤ ((walkCost GRAPH p : ℚ) : ℝ) :=
  admissible_of_cert "Khammam" "Medak" (172473/10000) (400757/5000) (71/4) (78279/1000)
    (1910241/2000000) (952493/1000000) (16190619/1000000000) clat_4 clon_4 clat_9 clon_9
    (by norm_num) (by norm_num) (by norm_num) (by norm_num) cosub_4 cosub_9
    (by norm_num) (by norm_num) (by norm_num) (by norm_num) (by norm_num)
    PHI_feas_4 phiself_4 (by simp +decide only [PHI, DIJ, lookupA, Option.getD_some]; norm_num)

theorem adm_5_0 : ∀ p, IsWalkFrom GRAPH "Mahabubnagar" "Hyderabad" p →
    heuristic_time_min "Mahabubnagar" "Hyderabad" ≤ ((walkCost GRAPH p : ℚ) : ℝ) :=
  admissible_of_cert "Mahabubnagar" "Hyderabad" (6697/400) (38993/500) (3477/200) (784867/10000)
    (478843/500000) (119301/125000) (3495979/500000000) clat_5 clon_5 clat_0 clon_0
    (by norm_num) (by norm_num) (by norm_num) (by norm_num) cosub_5 cosub_0
    (by norm_num) (by norm_num) (by norm_num) (by norm_num) (by norm_num)
    PHI_feas_5 phiself_5 (by simp +decide only [PHI, DIJ, lookupA, Option.getD_some]; norm_num)

theorem adm_5_1 : ∀ p, IsWalkFrom GRAPH "Mahabubnagar" "Warangal" p →
    heuristic_time_min "Mahabubnagar" "Warangal" ≤ ((walkCost GRAPH p : ℚ) : ℝ) :=
  admissible_of_cert "Mahabubnagar" "Warangal" (6697/400) (38993/500) (179689/10000) (795941/10000)
    (478843/500000) (9513263/10000000) (1714531/100000000) clat_5 clon_5 clat_1 clon_1
    (by norm_num) (by norm_num) (by norm_num) (by norm_num) cosub_5 cosub_1
    (by norm_num) (by norm_num) (by norm_num) (by norm_num) (by norm_num)
    PHI_feas_5 phiself_5 (by simp +decide only [PHI, DIJ, lookupA, Option.getD_some]; norm_num)

theorem adm_5_2 : ∀ p, IsWalkFrom GRAPH "Mahabubnagar" "Nizamabad" p →
    heuristic_time_min "Mahabubnagar" "Nizamabad" ≤ ((walkCost GRAPH p : ℚ) : ℝ) :=
  admissible_of_cert "Mahabubnagar" "Nizamabad" (6697/400) (38993/500) (7469/400) (780941/10000)
    (478843/500000) (9474833/10000000) (3373277/200000000) clat_5 clon_5 clat_2 clon_2
    (by norm_num) (by norm_num) (by norm_num) (by norm_num) cosub_5 cosub_2
    (by norm_num) (by norm_num) (by norm_num) (by norm_num) (by norm_num)
    PHI_feas_5 phiself_5 (by simp +decide only [PHI, DIJ, lookupA, Option.getD_some]; norm_num)

theorem adm_5_3 : ∀ p, IsWalkFrom GRAPH "Mahabubnagar" "Karimnagar" p →
    heuristic_time_min "Mahabubnagar" "Karimnagar" ≤ ((walkCost GRAPH p : ℚ) : ℝ) :=
  admissible_of_cert "Mahabubnagar" "Karimnagar" (6697/400) (38993/500) (92193/5000) (98911/1250)
    (478843/500000) (1897553/2000000) (17591109/1000000000) clat_5 clon_5 clat_3 clon_3
    (by norm_num) (by norm_num) (by norm_num) (by norm_num) cosub_5 cosub_3
    (by norm_num) (by norm_num) (by norm_num) (by norm_num) (by norm_num)
    PHI_feas_5 phiself_5 (by simp +decide only [PHI, DIJ, lookupA, Option.getD_some]; norm_num)

theorem adm_5_4 : ∀ p, IsWalkFrom GRAPH "Mahabubnagar" "Khammam" p →
    heuristic_time_min "Mahabubnagar" "Khammam" ≤ ((walkCost GRAPH p : ℚ) : ℝ) :=
  admissible_of_cert "Mahabubnagar" "Khammam" (6697/400) (38993/500) (172473/10000) (400757/5000)
    (478843/500000) (1910241/2000000) (9300983/500000000) clat_5 clon_5 clat_4 clon_4
    (by norm_num) (by norm_num) (by norm_num) (by norm_num) cosub_5 cosub_4
    (by norm_num) (by norm_num) (by norm_num) (by norm_num) (by norm_num)
    PHI_feas_5 phiself_5 (by simp +decide only [PHI, DIJ, lookupA, Option.getD_some]; norm_num)

theorem adm_5_7 : ∀ p, IsWalkFrom GRAPH "Mahabubnagar" "Suryapet" p →
    heuristic_time_min "Mahabubnagar" "Suryapet" ≤ ((walkCost GRAPH p : ℚ) : ℝ) :=
  admissible_of_cert "Mahabubnagar" "Suryapet" (6697/400) (38993/500) (85683/5000) (79619/1000)
    (478843/500000) (4778447/5000000) (3515119/250000000) clat_5 clon_5 clat_7 clon_7
    (by norm_num) (by norm_num) (by norm_num) (by norm_num) cosub_5 cosub_7
    (by norm_num) (by norm_num) (by norm_num) (by norm_num) (by norm_num)
    PHI_feas_5 phiself_5 (by simp +decide only [PHI, DIJ, lookupA, Option.getD_some]; norm_num)

theorem adm_5_8 : ∀ p, IsWalkFrom GRAPH "Mahabubnagar" "Siddipet" p →
    heuristic_time_min "Mahabubnagar" "Siddipet" ≤ ((walkCost GRAPH p : ℚ) : ℝ) :=
  admissible_of_cert "Mahabubnagar" "Siddipet" (6697/400) (38993/500) (181/10) (1577/20)
    (478843/500000) (9506209/10000000) (3464939/250000000) clat_5 clon_5 clat_8 clon_8
    (by norm_num) (by norm_num) (by norm_num) (by norm_num) cosub_5 cosub_8
    (by norm_num) (by norm_num) (by norm_num) (by norm_num) (by norm_num)
    PHI_feas_5 phiself_5 (by simp +decide only [PHI, DIJ, lookupA, Option.getD_some]; norm_num)

theorem adm_5_9 : ∀ p, IsWalkFrom GRAPH "Mahabubnagar" "Medak" p →
    heuristic_time_min "Mahabubnagar" "Medak" ≤ ((walkCost GRAPH p : ℚ) : ℝ) :=
  admissible_of_cert "Mahabubnagar" "Medak" (6697/400) (38993/500) (71/4) (78279/1000)
    (478843/500000) (952493/1000000) (2281237/250000000) clat_5 clon_5 clat_9 clon_9
    (by norm_num) (by norm_num) (by norm_num) (by norm_num) cosub_5 cosub_9
    (by norm_num) (by norm_num) (by norm_num) (by norm_num) (by norm_num)
    PHI_feas_5 phiself_5 (by simp +decide only [PHI, DIJ, lookupA, Option.getD_some]; norm_num)

theorem adm_6_0 : ∀ p, IsWalkFrom GRAPH "Nalgonda" "Hyderabad" p →
    heuristic_time_min "Nalgonda" "Hyderabad" ≤ ((walkCost GRAPH p : ℚ) : ℝ) :=
  admissible_of_cert "Nalgonda" "Hyderabad" (17051/1000) (79267/1000) (3477/200) (784867/10000)
    (9561269/10000000) (119301/125000) (1425593/200000000) clat_6 clon_6 clat_0 clon_0
    (by norm_num) (by norm_num) (by norm_num) (by norm_num) cosub_6 cosub_0
    (by norm_num) (by norm_num) (by norm_num) (by norm_num) (by norm_num)
    PHI_feas_6 phiself_6 (by simp +decide only [PHI, DIJ, lookupA, Option.getD_some]; norm_num)

theorem adm_6_1 : ∀ p, IsWalkFrom GRAPH "Nalgonda" "Warangal" p →
    heuristic_time_min "Nalgonda" "Warangal" ≤ ((walkCost GRAPH p : ℚ) : ℝ) :=
  admissible_of_cert "Nalgonda" "Warangal" (17051/1000) (79267/1000) (179689/10000) (795941/10000)
    (9561269/10000000) (9513263/10000000) (338407/40000000) clat_6 clon_6 clat_1 clon_1
    (by norm_num) (by norm_num) (by norm_num) (by norm_num) cosub_6 cosub_1
    (by norm_num) (by norm_num) (by norm_num) (by norm_num) (by norm_num)
    PHI_feas_6 phiself_6 (by simp +decide only [PHI, DIJ, lookupA, Option.getD_some]; norm_num)

theorem adm_6_2 : ∀ p, IsWalkFrom GRAPH "Nalgonda" "Nizamabad" p →
    heuristic_time_min "Nalgonda" "Nizamabad" ≤ ((walkCost GRAPH p : ℚ) : ℝ) :=
  admissible_of_cert "Nalgonda" "Nizamabad" (17051/1000) (79267/1000) (7469/400) (780941/10000)
    (9561269/10000000) (9474833/10000000) (17179583/1000000000) clat_6 clon_6 clat_2 clon_2
    (by norm_num) (by norm_num) (by norm_num) (by norm_num) cosub_6 cosub_2
    (by norm_num) (by norm_num) (by norm_num) (by norm_num) (by norm_num)
    PHI_feas_6 phiself_6 (by simp +decide only [PHI, DIJ, lookupA, Option.getD_some]; norm_num)

theorem adm_6_3 : ∀ p, IsWalkFrom GRAPH "Nalgonda" "Karimnagar" p →
    heuristic_time_min "Nalgonda" "Karimnagar" ≤ ((walkCost GRAPH p : ℚ) : ℝ) :=
  admissible_of_cert "Nalgonda" "Karimnagar" (17051/1000) (79267/1000) (92193/5000) (98911/1250)
    (9561269/10000000) (1897553/2000000) (95027/7812500) clat_6 clon_6 clat_3 clon_3
    (by norm_num) (by norm_num) (by norm_num) (by norm_num) cosub_6 cosub_3
    (by norm_num) (by norm_num) (by norm_num) (by norm_num) (by norm_num)
    PHI_feas_6 phiself_6 (by simp +decide only [PHI, DIJ, lookupA, Option.getD_some]; norm_num)

theorem adm_6_4 : ∀ p, IsWalkFrom GRAPH "Nalgonda" "Khammam" p →
    heuristic_time_min "Nalgonda" "Khammam" ≤ ((walkCost GRAPH p : ℚ) : ℝ) :=
  admissible_of_cert "Nalgonda" "Khammam" (17051/1000) (79267/1000) (172473/10000) (400757/5000)
    (9561269/10000000) (1910241/2000000) (1892921/250000000) clat_6 clon_6 clat_4 clon_4
    (by norm_num) (by norm_num) (by norm_num) (by norm_num) cosub_6 cosub_4
    (by norm_num) (by norm_num) (by norm_num) (by norm_num) (by norm_num)
    PHI_feas_6 phiself_6 (by simp +decide only [PHI, DIJ, lookupA, Option.getD_some]; norm_num)

theorem adm_6_7 : ∀ p, IsWalkFrom GRAPH "Nalgonda" "Suryapet" p →
    heuristic_time_min "Nalgonda" "Suryapet" ≤ ((walkCost GRAPH p : ℚ) : ℝ) :=
  admissible_of_cert "Nalgonda" "Suryapet" (17051/1000) (79267/1000) (85683/5000) (79619/1000)
    (9561269/10000000) (4778447/5000000) (757467/250000000) clat_6 clon_6 clat_7 clon_7
    (by norm_num) (by norm_num) (by norm_num) (by norm_num) cosub_6 cosub_7
    (by norm_num) (by norm_num) (by norm_num) (by norm_num) (by norm_num)
    PHI_feas_6 phiself_6 (by simp +decide only [PHI, DIJ, lookupA, Option.getD_some]; norm_num)

theorem adm_6_8 : ∀ p, IsWalkFrom GRAPH "Nalgonda" "Siddipet" p →
    heuristic_time_min "Nalgonda" "Siddipet" ≤ ((walkCost GRAPH p : ℚ) : ℝ) :=
  admissible_of_cert "Nalgonda" "Siddipet" (17051/1000) (79267/1000) (181/10) (1577/20)
    (9561269/10000000) (9506209/10000000) (1957923/200000000) clat_6 clon_6 clat_8 clon_8
    (by norm_num) (by norm_num) (by norm_num) (by norm_num) cosub_6 cosub_8
    (by norm_num) (by norm_num) (by norm_num) (by norm_num) (by norm_num)
    PHI_feas_6 phiself_6 (by simp +decide only [PHI, DIJ, lookupA, Option.getD_some]; norm_num)

theorem adm_6_9 : ∀ p, IsWalkFrom GRAPH "Nalgonda" "Medak" p →
    heuristic_time_min "Nalgonda" "Medak" ≤ ((walkCost GRAPH p : ℚ) : ℝ) :=
  admissible_of_cert "Nalgonda" "Medak" (17051/1000) (79267/1000) (71/4) (78279/1000)
    (9561269/10000000) (952493/1000000) (2048499/200000000) clat_6 clon_6 clat_9 clon_9
    (by norm_num) (by norm_num) (by norm_num) (by norm_num) cosub_6 cosub_9
    (by norm_num) (by norm_num) (by norm_num) (by norm_num) (by norm_num)
    PHI_feas_6 phiself_6 (by simp +decide only [PHI, DIJ, lookupA, Option.getD_some]; norm_num)

theorem adm_7_0 : ∀ p, IsWalkFrom GRAPH "Suryapet" "Hyderabad" p →
    heuristic_time_min "Suryapet" "Hyderabad" ≤ ((walkCost GRAPH p : ℚ) : ℝ) :=
  admissible_of_cert "Suryapet" "Hyderabad" (85683/5000) (79619/1000) (3477/200) (784867/10000)
    (4778447/5000000) (119301/125000) (9682771/1000000000) clat_7 clon_7 clat_0 clon_0
    (by norm_num) (by norm_num) (by norm_num) (by norm_num) cosub_7 cosub_0
    (by norm_num) (by norm_num) (by norm_num) (by norm_num) (by norm_num)
    PHI_feas_7 phiself_7 (by simp +decide only [PHI, DIJ, lookupA, Option.getD_some]; norm_num)

theorem adm_7_2 : ∀ p, IsWalkFrom GRAPH "Suryapet" "Nizamabad" p →
    heuristic_time_min "Suryapet" "Nizamabad" ≤ ((walkCost GRAPH p : ℚ) : ℝ) :=
  admissible_of_cert "Suryapet" "Nizamabad" (85683/5000) (79619/1000) (7469/400) (780941/10000)
    (4778447/5000000) (9474833/10000000) (9219493/500000000) clat_7 clon_7 clat_2 clon_2
    (by norm_num) (by norm_num) (by norm_num) (by norm_num) cosub_7 cosub_2
    (by norm_num) (by norm_num) (by norm_num) (by norm_num) (by norm_num)
    PHI_feas_7 phiself_7 (by simp +decide only [PHI, DIJ, lookupA, Option.getD_some]; norm_num)

theorem adm_7_3 : ∀ p, IsWalkFrom GRAPH "Suryapet" "Karimnagar" p →
    heuristic_time_min "Suryapet" "Karimnagar" ≤ ((walkCost GRAPH p : ℚ) : ℝ) :=
  admissible_of_cert "Suryapet" "Karimnagar" (85683/5000) (79619/1000) (92193/5000) (98911/1250)
    (4778447/5000000) (1897553/2000000) (2414043/200000000) clat_7 clon_7 clat_3 clon_3
    (by norm_num) (by norm_num) (by norm_num) (by norm_num) cosub_7 cosub_3
    (by norm_num) (by norm_num) (by norm_num) (by norm_num) (by norm_num)
    PHI_feas_7 phiself_7 (by simp +decide only [PHI, DIJ, lookupA, Option.getD_some]; norm_num)

theorem adm_7_4 : ∀ p, IsWalkFrom GRAPH "Suryapet" "Khammam" p →
    heuristic_time_min "Suryapet" "Khammam" ≤ ((walkCost GRAPH p : ℚ) : ℝ) :=
  admissible_of_cert "Suryapet" "Khammam" (85683/5000) (79619/1000) (172473/10000) (400757/5000)
    (4778447/5000000) (1910241/2000000) (227139/50000000) clat_7 clon_7 clat_4 clon_4
    (by norm_num) (by norm_num) (by norm_num) (by norm_num) cosub_7 cosub_4
    (by norm_num) (by norm_num) (by norm_num) (by norm_num) (by norm_num)
    PHI_feas_7 phiself_7 (by simp +decide only [PHI, DIJ, lookupA, Option.getD_some]; norm_num)

theorem adm_7_5 : ∀ p, IsWalkFrom GRAPH "Suryapet" "Mahabubnagar" p →
    heuristic_time_min "Suryapet" "Mahabubnagar" ≤ ((walkCost GRAPH p : ℚ) : ℝ) :=
  admissible_of_cert "Suryapet" "Mahabubnagar" (85683/5000) (79619/1000) (6697/400) (38993/500)
    (4778447/5000000) (478843/500000) (3515119/250000000) clat_7 clon_7 clat_5 clon_5
    (by norm_num) (by norm_num) (by norm_num) (by norm_num) cosub_7 cosub_5
    (by norm_num) (by norm_num) (by norm_num) (by norm_num) (by norm_num)
    PHI_feas_7 phiself_7 (by simp +decide only [PHI, DIJ, lookupA, Option.getD_some]; norm_num)

theorem adm_7_6 : ∀ p, IsWalkFrom GRAPH "Suryapet" "Nalgonda" p →
    heuristic_time_min "Suryapet" "Nalgonda" ≤ ((walkCost GRAPH p : ℚ) : ℝ) :=
  admissible_of_cert "Suryapet" "Nalgonda" (85683/5000) (79619/1000) (17051/1000) (79267/1000)
    (4778447/5000000) (9561269/10000000) (757467/250000000) clat_7 clon_7 clat_6 clon_6
    (by norm_num) (by norm_num) (by norm_num) (by norm_num) cosub_7 cosub_6
    (by norm_num) (by norm_num) (by norm_num) (by norm_num) (by norm_num)
    PHI_feas_7 phiself_7 (by simp +decide only [PHI, DIJ, lookupA, Option.getD_some]; norm_num)

theorem adm_7_8 : ∀ p, IsWalkFrom GRAPH "Suryapet" "Siddipet" p →
    heuristic_time_min "Suryapet" "Siddipet" ≤ ((walkCost GRAPH p : ℚ) : ℝ) :=
  admissible_of_cert "Suryapet" "Siddipet" (85683/5000) (79619/1000) (181/10) (1577/20)
    (4778447/5000000) (9506209/10000000) (2112779/200000000) clat_7 clon_7 clat_8 clon_8
    (by norm_num) (by norm_num) (by norm_num) (by norm_num) cosub_7 cosub_8
    (by norm_num) (by norm_num) (by norm_num) (by norm_num) (by norm_num)
    PHI_feas_7 phiself_7 (by simp +decide only [PHI, DIJ, lookupA, Option.getD_some]; norm_num)

theorem adm_7_9 : ∀ p, IsWalkFrom GRAPH "Suryapet" "Medak" p →
    heuristic_time_min "Suryapet" "Medak" ≤ ((walkCost GRAPH p : ℚ) : ℝ) :=
  admissible_of_cert "Suryapet" "Medak" (85683/5000) (79619/1000) (71/4) (78279/1000)
    (4778447/5000000) (952493/1000000) (12374533/1000000000) clat_7 clon_7 clat_9 clon_9
    (by norm_num) (by norm_num) (by norm_num) (by norm_num) cosub_7 cosub_9
    (by norm_num) (by norm_num) (by norm_num) (by norm_num) (by norm_num)
    PHI_feas_7 phiself_7 (by simp +decide only [PHI, DIJ, lookupA, Option.getD_some]; norm_num)

theorem adm_8_0 : ∀ p, IsWalkFrom GRAPH "Siddipet" "Hyderabad" p →
    heuristic_time_min "Siddipet" "Hyderabad" ≤ ((walkCost GRAPH p : ℚ) : ℝ) :=
  admissible_of_cert "Siddipet" "Hyderabad" (181/10) (1577/20) (3477/200) (784867/10000)
    (9506209/10000000) (119301/125000) (1386383/200000000) clat_8 clon_8 clat_0 clon_0
    (by norm_num) (by norm_num) (by norm_num) (by norm_num) cosub_8 cosub_0
    (by norm_num) (by norm_num) (by norm_num) (by norm_num) (by norm_num)
    PHI_feas_8 phiself_8 (by simp +decide only [PHI, DIJ, lookupA, Option.getD_some]; norm_num)

theorem adm_8_1 : ∀ p, IsWalkFrom GRAPH "Siddipet" "Warangal" p →
    heuristic_time_min "Siddipet" "Warangal" ≤ ((walkCost GRAPH p : ℚ) : ℝ) :=
  admissible_of_cert "Siddipet" "Warangal" (181/10) (1577/20) (179689/10000) (795941/10000)
    (9506209/10000000) (9513263/10000000) (6280231/1000000000) clat_8 clon_8 clat_1 clon_1
    (by norm_num) (by norm_num) (by norm_num) (by norm_num) cosub_8 cosub_1
    (by norm_num) (by norm_num) (by norm_num) (by norm_num) (by norm_num)
    PHI_feas_8 phiself_8 (by simp +decide only [PHI, DIJ, lookupA, Option.getD_some]; norm_num)

theorem adm_8_2 : ∀ p, IsWalkFrom GRAPH "Siddipet" "Nizamabad" p →
    heuristic_time_min "Siddipet" "Nizamabad" ≤ ((walkCost GRAPH p : ℚ) : ℝ) :=
  admissible_of_cert "Siddipet" "Nizamabad" (181/10) (1577/20) (7469/400) (780941/10000)
    (9506209/10000000) (9474833/10000000) (1001191/125000000) clat_8 clon_8 clat_2 clon_2
    (by norm_num) (by norm_num) (by norm_num) (by norm_num) cosub_8 cosub_2
    (by norm_num) (by norm_num) (by norm_num) (by norm_num) (by norm_num)
    PHI_feas_8 phiself_8 (by simp +decide only [PHI, DIJ, lookupA, Option.getD_some]; norm_num)

theorem adm_8_3 : ∀ p, IsWalkFrom GRAPH "Siddipet" "Karimnagar" p →
    heuristic_time_min "Siddipet" "Karimnagar" ≤ ((walkCost GRAPH p : ℚ) : ℝ) :=
  admissible_of_cert "Siddipet" "Karimnagar" (181/10) (1577/20) (92193/5000) (98911/1250)
    (9506209/10000000) (1897553/2000000) (3751/1000000) clat_8 clon_8 clat_3 clon_3
    (by norm_num) (by norm_num) (by norm_num) (by norm_num) cosub_8 cosub_3
    (by norm_num) (by norm_num) (by norm_num) (by norm_num) (by norm_num)
    PHI_feas_8 phiself_8 (by simp +decide only [PHI, DIJ, lookupA, Option.getD_some]; norm_num)

theorem adm_8_4 : ∀ p, IsWalkFrom GRAPH "Siddipet" "Khammam" p →
    heuristic_time_min "Siddipet" "Khammam" ≤ ((walkCost GRAPH p : ℚ) : ℝ) :=
  admissible_of_cert "Siddipet" "Khammam" (181/10) (1577/20) (172473/10000) (400757/5000)
    (9506209/10000000) (1910241/2000000) (820819/62500000) clat_8 clon_8 clat_4 clon_4
    (by norm_num) (by norm_num) (by norm_num) (by norm_num) cosub_8 cosub_4
    (by norm_num) (by norm_num) (by norm_num) (by norm_num) (by norm_num)
    PHI_feas_8 phiself_8 (by simp +decide only [PHI, DIJ, lookupA, Option.getD_some]; norm_num)

theorem adm_8_5 : ∀ p, IsWalkFrom GRAPH "Siddipet" "Mahabubnagar" p →
    heuristic_time_min "Siddipet" "Mahabubnagar" ≤ ((walkCost GRAPH p : ℚ) : ℝ) :=
  admissible_of_cert "Siddipet" "Mahabubnagar" (181/10) (1577/20) (6697/400) (38993/500)
    (9506209/10000000) (478843/500000) (3464939/250000000) clat_8 clon_8 clat_5 clon_5
    (by norm_num) (by norm_num) (by norm_num) (by norm_num) cosub_8 cosub_5
    (by norm_num) (by norm_num) (by norm_num) (by norm_num) (by norm_num)
    PHI_feas_8 phiself_8 (by simp +decide only [PHI, DIJ, lookupA, Option.getD_some]; norm_num)

theorem adm_8_6 : ∀ p, IsWalkFrom GRAPH "Siddipet" "Nalgonda" p →
    heuristic_time_min "Siddipet" "Nalgonda" ≤ ((walkCost GRAPH p : ℚ) : ℝ) :=
  admissible_of_cert "Siddipet" "Nalgonda" (181/10) (1577/20) (17051/1000) (79267/1000)
    (9506209/10000000) (9561269/10000000) (1957923/200000000) clat_8 clon_8 clat_6 clon_6
    (by norm_num) (by norm_num) (by norm_num) (by norm_num) cosub_8 cosub_6
    (by norm_num) (by norm_num) (by norm_num) (by norm_num) (by norm_num)
    PHI_feas_8 phiself_8 (by simp +decide only [PHI, DIJ, lookupA, Option.getD_some]; norm_num)

theorem adm_8_7 : ∀ p, IsWalkFrom GRAPH "Siddipet" "Suryapet" p →
    heuristic_time_min "Siddipet" "Suryapet" ≤ ((walkCost GRAPH p : ℚ) : ℝ) :=
  admissible_of_cert "Siddipet" "Suryapet" (181/10) (1577/20) (85683/5000) (79619/1000)
    (9506209/10000000) (4778447/5000000) (2112779/200000000) clat_8 clon_8 clat_7 clon_7
    (by norm_num) (by norm_num) (by norm_num) (by norm_num) cosub_8 cosub_7
    (by norm_num) (by norm_num) (by norm_num) (by norm_num) (by norm_num)
    PHI_feas_8 phiself_8 (by simp +decide only [PHI, DIJ, lookupA, Option.getD_some]; norm_num)

theorem adm_9_0 : ∀ p, IsWalkFrom GRAPH "Medak" "Hyderabad" p →
    heuristic_time_min "Medak" "Hyderabad" ≤ ((walkCost GRAPH p : ℚ) : ℝ) :=
  admissible_of_cert "Medak" "Hyderabad" (71/4) (78279/1000) (3477/200) (784867/10000)
    (952493/1000000) (119301/125000) (724767/200000000) clat_9 clon_9 clat_0 clon_0
    (by norm_num) (by norm_num) (by norm_num) (by norm_num) cosub_9 cosub_0
    (by norm_num) (by norm_num) (by norm_num) (by norm_num) (by norm_num)
    PHI_feas_9 phiself_9 (by simp +decide only [PHI, DIJ, lookupA, Option.getD_some]; norm_num)

theorem adm_9_1 : ∀ p, IsWalkFrom GRAPH "Medak" "Warangal" p →
    heuristic_time_min "Medak" "Warangal" ≤ ((walkCost GRAPH p : ℚ) : ℝ) :=
  admissible_of_cert "Medak" "Warangal" (71/4) (78279/1000) (179689/10000) (795941/10000)
    (952493/1000000) (9513263/10000000) (2218053/200000000) clat_9 clon_9 clat_1 clon_1
    (by norm_num) (by norm_num) (by norm_num) (by norm_num) cosub_9 cosub_1
    (by norm_num) (by norm_num) (by norm_num) (by norm_num) (by norm_num)
    PHI_feas_9 phiself_9 (by simp +decide only [PHI, DIJ, lookupA, Option.getD_some]; norm_num)

theorem adm_9_2 : ∀ p, IsWalkFrom GRAPH "Medak" "Nizamabad" p →
    heuristic_time_min "Medak" "Nizamabad" ≤ ((walkCost GRAPH p : ℚ) : ℝ) :=
  admissible_of_cert "Medak" "Nizamabad" (71/4) (78279/1000) (7469/400) (780941/10000)
    (952493/1000000) (9474833/10000000) (1024371/125000000) clat_9 clon_9 clat_2 clon_2
    (by norm_num) (by norm_num) (by norm_num) (by norm_num) cosub_9 cosub_2
    (by norm_num) (by norm_num) (by norm_num) (by norm_num) (by norm_num)
    PHI_feas_9 phiself_9 (by simp +decide only [PHI, DIJ, lookupA, Option.getD_some]; norm_num)

theorem adm_9_3 : ∀ p, IsWalkFrom GRAPH "Medak" "Karimnagar" p →
    heuristic_time_min "Medak" "Karimnagar" ≤ ((walkCost GRAPH p : ℚ) : ℝ) :=
  admissible_of_cert "Medak" "Karimnagar" (71/4) (78279/1000) (92193/5000) (98911/1250)
    (952493/1000000) (1897553/2000000) (9263361/1000000000) clat_9 clon_9 clat_3 clon_3
    (by norm_num) (by norm_num) (by norm_num) (by norm_num) cosub_9 cosub_3
    (by norm_num) (by norm_num) (by norm_num) (by norm_num) (by norm_num)
    PHI_feas_9 phiself_9 (by simp +decide only [PHI, DIJ, lookupA, Option.getD_some]; norm_num)

theorem adm_9_4 : ∀ p, IsWalkFrom GRAPH "Medak" "Khammam" p →
    heuristic_time_min "Medak" "Khammam" ≤ ((walkCost GRAPH p : ℚ) : ℝ) :=
  admissible_of_cert "Medak" "Khammam" (71/4) (78279/1000) (172473/10000) (400757/5000)
    (952493/1000000) (1910241/2000000) (16190619/1000000000) clat_9 clon_9 clat_4 clon_4
    (by norm_num) (by norm_num) (by norm_num) (by norm_num) cosub_9 cosub_4
    (by norm_num) (by norm_num) (by norm_num) (by norm_num) (by norm_num)
    PHI_feas_9 phiself_9 (by simp +decide only [PHI, DIJ, lookupA, Option.getD_some]; norm_num)

theorem adm_9_5 : ∀ p, IsWalkFrom GRAPH "Medak" "Mahabubnagar" p →
    heuristic_time_min "Medak" "Mahabubnagar" ≤ ((walkCost GRAPH p : ℚ) : ℝ) :=
  admissible_of_cert "Medak" "Mahabubnagar" (71/4) (78279/1000) (6697/400) (38993/500)
    (952493/1000000) (478843/500000) (2281237/250000000) clat_9 clon_9 clat_5 clon_5
    (by norm_num) (by norm_num) (by norm_num) (by norm_num) cosub_9 cosub_5
    (by norm_num) (by norm_num) (by norm_num) (by norm_num) (by norm_num)
    PHI_feas_9 phiself_9 (by simp +decide only [PHI, DIJ, lookupA, Option.getD_some]; norm_num)

theorem adm_9_6 : ∀ p, IsWalkFrom GRAPH "Medak" "Nalgonda" p →
    heuristic_time_min "Medak" "Nalgonda" ≤ ((walkCost GRAPH p : ℚ) : ℝ) :=
  admissible_of_cert "Medak" "Nalgonda" (71/4) (78279/1000) (17051/1000) (79267/1000)
    (952493/1000000) (9561269/10000000) (2048499/200000000) clat_9 clon_9 clat_6 clon_6
    (by norm_num) (by norm_num) (by norm_num) (by norm_num) cosub_9 cosub_6
    (by norm_num) (by norm_num) (by norm_num) (by norm_num) (by norm_num)
    PHI_feas_9 phiself_9 (by simp +decide only [PHI, DIJ, lookupA, Option.getD_some]; norm_num)

theorem adm_9_7 : ∀ p, IsWalkFrom GRAPH "Medak" "Suryapet" p →
    heuristic_time_min "Medak" "Suryapet" ≤ ((walkCost GRAPH p : ℚ) : ℝ) :=
  admissible_of_cert "Medak" "Suryapet" (71/4) (78279/1000) (85683/5000) (79619/1000)
    (952493/1000000) (4778447/5000000) (12374533/1000000000) clat_9 clon_9 clat_7 clon_7
    (by norm_num) (by norm_num) (by norm_num) (by norm_num) cosub_9 cosub_7
    (by norm_num) (by norm_num) (by norm_num) (by norm_num) (by norm_num)
    PHI_feas_9 phiself_9 (by simp +decide only [PHI, DIJ, lookupA, Option.getD_some]; norm_num)

theorem bad_7_1 : ∃ p, IsWalkFrom GRAPH "Suryapet" "Warangal" p ∧
    ((walkCost GRAPH p : ℚ) : ℝ) < heuristic_time_min "Suryapet" "Warangal" :=
  inadmissible_of_cert "Suryapet" "Warangal" (85683/5000) (79619/1000) (179689/10000) (795941/10000)
    (9548557/10000000) (1900637/2000000) (1453211/200000000) (11373/200)
    clat_7 clon_7 clat_1 clon_1
    (by norm_num) (by norm_num) (by norm_num) (by norm_num)
    (by norm_num) (by norm_num)
    coslb_7 coslb_1
    (by norm_num) (by norm_num)
    (by norm_num)
    (by norm_num)
    (by norm_num)
    cosone_7 cosone_1
    (by norm_num)
    ["Suryapet", "Warangal"] (by decide)
    (by simp +decide only [walkCost, lookupEdge, lookupA, neighborsOf, GRAPH,
      Option.getD_some, edge_cost_minutes, KM_PER_MIN]; norm_num)
    (by norm_num)

theorem bad_1_7 : ∃ p, IsWalkFrom GRAPH "Warangal" "Suryapet" p ∧
    ((walkCost GRAPH p : ℚ) : ℝ) < heuristic_time_min "Warangal" "Suryapet" :=
  inadmissible_of_cert "Warangal" "Suryapet" (179689/10000) (795941/10000) (85683/5000) (79619/1000)
    (1900637/2000000) (9548557/10000000) (1453211/200000000) (11577/200)
    clat_1 clon_1 clat_7 clon_7
    (by norm_num) (by norm_num) (by norm_num) (by norm_num)
    (by norm_num) (by norm_num)
    coslb_1 coslb_7
    (by norm_num) (by norm_num)
    (by norm_num)
    (by norm_num)
    (by norm_num)
    cosone_1 cosone_7
    (by norm_num)
    ["Warangal", "Suryapet"] (by decide)
    (by simp +decide only [walkCost, lookupEdge, lookupA, neighborsOf, GRAPH,
      Option.getD_some, edge_cost_minutes, KM_PER_MIN]; norm_num)
    (by norm_num)

theorem bad_5_6 : ∃ p, IsWalkFrom GRAPH "Mahabubnagar" "Nalgonda" p ∧
    ((walkCost GRAPH p : ℚ) : ℝ) < heuristic_time_min "Mahabubnagar" "Nalgonda" :=
  inadmissible_of_cert "Mahabubnagar" "Nalgonda" (6697/400) (38993/500) (17051/1000) (79267/1000)
    (9569263/10000000) (9553097/10000000) (5510923/500000000) (10197/100)
    clat_5 clon_5 clat_6 clon_6
    (by norm_num) (by norm_num) (by norm_num) (by norm_num)
    (by norm_num) (by norm_num)
    coslb_5 coslb_6
    (by norm_num) (by norm_num)
    (by norm_num)
    (by norm_num)
    (by norm_num)
    cosone_5 cosone_6
    (by norm_num)
    ["Mahabubnagar", "Nalgonda"] (by decide)
    (by simp +decide only [walkCost, lookupEdge, lookupA, neighborsOf, GRAPH,
      Option.getD_some, edge_cost_minutes, KM_PER_MIN]; norm_num)
    (by norm_num)

theorem bad_6_5 : ∃ p, IsWalkFrom GRAPH "Nalgonda" "Mahabubnagar" p ∧
    ((walkCost GRAPH p : ℚ) : ℝ) < heuristic_time_min "Nalgonda" "Mahabubnagar" :=
  inadmissible_of_cert "Nalgonda" "Mahabubnagar" (17051/1000) (79267/1000) (6697/400) (38993/500)
    (9553097/10000000) (9569263/10000000) (5510923/500000000) (104)
    clat_6 clon_6 clat_5 clon_5
    (by norm_num) (by norm_num) (by norm_num) (by norm_num)
    (by norm_num) (by norm_num)
    coslb_6 coslb_5
    (by norm_num) (by norm_num)
    (by norm_num)
    (by norm_num)
    (by norm_num)
    cosone_6 cosone_5
    (by norm_num)
    ["Nalgonda", "Mahabubnagar"] (by decide)
    (by simp +decide only [walkCost, lookupEdge, lookupA, neighborsOf, GRAPH,
      Option.getD_some, edge_cost_minutes, KM_PER_MIN]; norm_num)
    (by norm_num)

theorem bad_8_9 : ∃ p, IsWalkFrom GRAPH "Siddipet" "Medak" p ∧
    ((walkCost GRAPH p : ℚ) : ℝ) < heuristic_time_min "Siddipet" "Medak" :=
  inadmissible_of_cert "Siddipet" "Medak" (181/10) (1577/20) (71/4) (78279/1000)
    (4747917/5000000) (4757667/5000000) (5635913/1000000000) (1326/25)
    clat_8 clon_8 clat_9 clon_9
    (by norm_num) (by norm_num) (by norm_num) (by norm_num)
    (by norm_num) (by norm_num)
    coslb_8 coslb_9
    (by norm_num) (by norm_num)
    (by norm_num)
    (by norm_num)
    (by norm_num)
    cosone_8 cosone_9
    (by norm_num)
    ["Siddipet", "Medak"] (by decide)
    (by simp +decide only [walkCost, lookupEdge, lookupA, neighborsOf, GRAPH,
      Option.getD_some, edge_cost_minutes, KM_PER_MIN]; norm_num)
    (by norm_num)

theorem bad_9_8 : ∃ p, IsWalkFrom GRAPH "Medak" "Siddipet" p ∧
    ((walkCost GRAPH p : ℚ) : ℝ) < heuristic_time_min "Medak" "Siddipet" :=
  inadmissible_of_cert "Medak" "Siddipet" (71/4) (78279/1000) (181/10) (1577/20)
    (4757667/5000000) (4747917/5000000) (5635913/1000000000) (2703/50)
    clat_9 clon_9 clat_8 clon_8
    (by norm_num) (by norm_num) (by norm_num) (by norm_num)
    (by norm_num) (by norm_num)
    coslb_9 coslb_8
    (by norm_num) (by norm_num)
    (by norm_num)
    (by norm_num)
    (by norm_num)
    cosone_9 cosone_8
    (by norm_num)
    ["Medak", "Siddipet"] (by decide)
    (by simp +decide only [walkCost, lookupEdge, lookupA, neighborsOf, GRAPH,
      Option.getD_some, edge_cost_minutes, KM_PER_MIN]; norm_num)
    (by norm_num)

/-- Claim C4 (amended): on the loaded dataset the heuristic is admissible
for every ordered pair of distinct cities EXCEPT the six pairs of `BADPAIRS`
(Suryapet↔Warangal, Mahabubnagar↔Nalgonda, Siddipet↔Medak): outside those
pairs `heuristic_time_min a b` is a lower bound on the cost of every walk
from `a` to `b`, while on each of the six pairs a walk exists that is
strictly cheaper than the heuristic (the mock road distance is shorter than
the great-circle distance, so the original claim is false). -/
theorem C4_heuristic_admissibility :
    (∀ a ∈ cityNames, ∀ b ∈ cityNames, a ≠ b → (a, b) ∉ BADPAIRS →
      ∀ p, IsWalkFrom GRAPH a b p →
        heuristic_time_min a b ≤ ((walkCost GRAPH p : ℚ) : ℝ)) ∧
    (∀ ab ∈ BADPAIRS, ∃ p, IsWalkFrom GRAPH (ab : String × String).1 ab.2 p ∧
      ((walkCost GRAPH p : ℚ) : ℝ) < heuristic_time_min ab.1 ab.2) := by
  constructor
  · intro a ha b hb hne hnb
    simp only [cityNames, CITIES, List.map_cons, List.map_nil, List.mem_cons,
      List.not_mem_nil, or_false] at ha hb
    rcases ha with rfl | rfl | rfl | rfl | rfl | rfl | rfl | rfl | rfl | rfl <;>
      rcases hb with rfl | rfl | rfl | rfl | rfl | rfl | rfl | rfl | rfl | rfl
    · exact absurd rfl hne
    · exact adm_0_1
    · exact adm_0_2
    · exact adm_0_3
    · exact adm_0_4
    · exact adm_0_5
    · exact adm_0_6
    · exact adm_0_7
    · exact adm_0_8
    · exact adm_0_9
    · exact adm_1_0
    · exact absurd rfl hne
    · exact adm_1_2
    · exact adm_1_3
    · exact adm_1_4
    · exact adm_1_5
    · exact adm_1_6
    · exact absurd (by decide) hnb
    · exact adm_1_8
    · exact adm_1_9
    · exact adm_2_0
    · exact adm_2_1
    · exact absurd rfl hne
    · exact adm_2_3
    · exact adm_2_4
    · exact adm_2_5
    · exact adm_2_6
    · exact adm_2_7
    · exact adm_2_8
    · exact adm_2_9
    · exact adm_3_0
    · exact adm_3_1
    · exact adm_3_2
    · exact absurd rfl hne
    · exact adm_3_4
    · exact adm_3_5
    · exact adm_3_6
    · exact adm_3_7
    · exact adm_3_8
    · exact adm_3_9
    · exact adm_4_0
    · exact adm_4_1
    · exact adm_4_2
    · exact adm_4_3
    · exact absurd rfl hne
    · exact adm_4_5
    · exact adm_4_6
    · exact adm_4_7
    · exact adm_4_8
    · exact adm_4_9
    · exact adm_5_0
    · exact adm_5_1
    · exact adm_5_2
    · exact adm_5_3
    · exact adm_5_4
    · exact absurd rfl hne
    · exact absurd (by decide) hnb
    · exact adm_5_7
    · exact adm_5_8
    · exact adm_5_9
    · exact adm_6_0
    · exact adm_6_1
    · exact adm_6_2
    · exact adm_6_3
    · exact adm_6_4
    · exact absurd (by decide) hnb
    · exact absurd rfl hne
    · exact adm_6_7
    · exact adm_6_8
    · exact adm_6_9
    · exact adm_7_0
    · exact absurd (by decide) hnb
    · exact adm_7_2
    · exact adm_7_3
    · exact adm_7_4
    · exact adm_7_5
    · exact adm_7_6
    · exact absurd rfl hne
    · exact adm_7_8
    · exact adm_7_9
    · exact adm_8_0
    · exact adm_8_1
    · exact adm_8_2
    · exact adm_8_3
    · exact adm_8_4
    · exact adm_8_5
    · exact adm_8_6
    · exact adm_8_7
    · exact absurd rfl hne
    · exact absurd (by decide) hnb
    · exact adm_9_0
    · exact adm_9_1
    · exact adm_9_2
    · exact adm_9_3
    · exact adm_9_4
    · exact adm_9_5
    · exact adm_9_6
    · exact adm_9_7
    · exact absurd (by decide) hnb
    · exact absurd rfl hne
  · intro ab hab
    simp only [BADPAIRS, List.mem_cons, List.not_mem_nil, or_false] at hab
    rcases hab with rfl | rfl | rfl | rfl | rfl | rfl
    · exact bad_7_1
    · exact bad_1_7
    · exact bad_5_6
    · exact bad_6_5
    · exact bad_8_9
    · exact bad_9_8

theorem C4_witness :
    ("Hyderabad" ∈ cityNames ∧ "Khammam" ∈ cityNames ∧
      "Hyderabad" ≠ "Khammam" ∧ ("Hyderabad", "Khammam") ∉ BADPAIRS ∧
      IsWalkFrom GRAPH "Hyderabad" "Khammam" ["Hyderabad", "Khammam"]) ∧
    heuristic_time_min "Hyderabad" "Khammam"
      ≤ ((walkCost GRAPH ["Hyderabad", "Khammam"] : ℚ) : ℝ) :=
  ⟨⟨by decide, by decide, by decide, by decide, by decide⟩,
    C4_heuristic_admissibility.1 "Hyderabad" (by decide) "Khammam" (by decide)
      (by decide) (by decide) ["Hyderabad", "Khammam"] (by decide)⟩

/-- Counterexample to claim C4 as stated: for the city pair
(Suryapet, Warangal) the heuristic strictly exceeds the cost of the direct
Suryapet → Warangal road (56.865 min), and hence exceeds the true optimal
remaining cost: the mock road distance (65 km) is shorter than the
great-circle distance (≈ 92.6 km), so the heuristic is not admissible. -/
theorem C4_counterexample :
    ∃ p, IsWalkFrom GRAPH "Suryapet" "Warangal" p ∧
      ((walkCost GRAPH p : ℚ) : ℝ) < heuristic_time_min "Suryapet" "Warangal" :=
  inadmissible_of_cert "Suryapet" "Warangal" (85683/5000) (79619/1000) (179689/10000)
    (795941/10000)
    (9548557/10000000) (1900637/2000000) (1453211/200000000) (11373/200)
    clat_7 clon_7 clat_1 clon_1
    (by norm_num) (by norm_num) (by norm_num) (by norm_num)
    (by norm_num) (by norm_num)
    coslb_7 coslb_1
    (by norm_num) (by norm_num)
    (by norm_num)
    (by norm_num)
    (by norm_num)
    cosone_7 cosone_1
    (by norm_num)
    ["Suryapet", "Warangal"] (by decide)
    (by simp +decide only [walkCost, lookupEdge, lookupA, neighborsOf, GRAPH,
      Option.getD_some, edge_cost_minutes, KM_PER_MIN]; norm_num)
    (by norm_num)

end TrafficOpt
